import Mathlib

/-!
# Falcor `SceneRenderer` : a shallow embedding and its verified properties

Source: `Framework/Source/Graphics/Scene/SceneRenderer.cpp`.

Conventions of the embedding.

* Matrices are exact (rational) matrices in mathematical row/column indexing; `a * b` is the
  matrix product, as `glm`'s `operator*` is.
* Everything the renderer does to its collaborators (constant buffers, program, graphics state,
  render context, reflection queries) is recorded as an `Event`; a call returns the events it
  emitted, in program order.
* A failed `assert` and a dereference of a null pointer end the call: the result carries no value
  and keeps the events emitted, and the renderer state reached, up to that point.
* Index loops over a collection (`for (i = 0; i < count; i++) get(i)`) are recursion over the
  corresponding list.
* The `uint32_t` counters of the traversal (`instanceID`, `activeInstances`, the slot
  `drawInstanceID`) are natural numbers: each is bounded by the length of the collection it
  runs over, itself a `uint32_t`. Byte offsets are computed in `size_t`, modulo `2 ^ 64`.
-/

namespace Falcor

/-! ## Matrices (`glm`) -/

/-- The type `glm::mat4`. -/
abbrev Mat4 := Matrix (Fin 4) (Fin 4) ℚ

/-- The type `glm::mat3`. -/
abbrev Mat3 := Matrix (Fin 3) (Fin 3) ℚ

/-- The type `glm::mat3x4`: three columns of four components each. -/
abbrev Mat3x4 := Matrix (Fin 4) (Fin 3) ℚ

/-- The conversion `glm::mat3(m)` of a `mat4`: its upper-left 3x3 block. -/
def toMat3 (m : Mat4) : Mat3 :=
  fun i j => m (Fin.castSucc i) (Fin.castSucc j)

/-- The determinant expression that `glm::inverse` divides by, for a `mat3`. -/
def det3 (m : Mat3) : ℚ :=
  m 0 0 * (m 1 1 * m 2 2 - m 1 2 * m 2 1)
    - m 0 1 * (m 1 0 * m 2 2 - m 1 2 * m 2 0)
    + m 0 2 * (m 1 0 * m 2 1 - m 1 1 * m 2 0)

/-- The function `glm::inverse` on a `mat3`: every cofactor times one over the determinant. -/
def inverse (m : Mat3) : Mat3 :=
  let oneOverDeterminant : ℚ := 1 / det3 m
  !![(m 1 1 * m 2 2 - m 1 2 * m 2 1) * oneOverDeterminant,
     -(m 0 1 * m 2 2 - m 0 2 * m 2 1) * oneOverDeterminant,
     (m 0 1 * m 1 2 - m 0 2 * m 1 1) * oneOverDeterminant;
     -(m 1 0 * m 2 2 - m 1 2 * m 2 0) * oneOverDeterminant,
     (m 0 0 * m 2 2 - m 0 2 * m 2 0) * oneOverDeterminant,
     -(m 0 0 * m 1 2 - m 0 2 * m 1 0) * oneOverDeterminant;
     (m 1 0 * m 2 1 - m 1 1 * m 2 0) * oneOverDeterminant,
     -(m 0 0 * m 2 1 - m 0 1 * m 2 0) * oneOverDeterminant,
     (m 0 0 * m 1 1 - m 0 1 * m 1 0) * oneOverDeterminant]

/-- The function `glm::transpose` on a `mat3`. -/
def transpose (m : Mat3) : Mat3 :=
  fun i j => m j i

/-- The conversion of a `mat3` to `glm::mat3x4`: every column gets a fourth component `0`. -/
def toMat3x4 (m : Mat3) : Mat3x4 :=
  fun i j => if h : i.val < 3 then m ⟨i.val, h⟩ j else 0

/-! ## Scene data (read-only collaborators) -/

/-- The type `BoundingBox`: a centre and an extent. -/
structure BoundingBox where
  center : Fin 3 → ℚ
  extent : Fin 3 → ℚ

/-- A camera, as far as the renderer consults it: `Camera::isObjectCulled`. -/
structure Camera where
  isObjectCulled : BoundingBox → Bool

/-- A mesh: `getId`, `getMaterial` (the identity of the material object it references),
`hasBones`, `getIndexCount`, `getVao`. -/
structure Mesh where
  id : Nat
  material : Nat
  hasBones : Bool
  indexCount : Nat
  vao : Nat

/-- The type `Model::MeshInstance`: the mesh it instantiates (`getObject`), transform pair,
bounding box, visibility flag. -/
structure MeshInstance where
  object : Mesh
  transformMatrix : Mat4
  prevTransformMatrix : Mat4
  boundingBox : BoundingBox
  visible : Bool

/-- A model: its meshes in `meshID` order, each with its instances in `instanceID` order, and
its skeleton. -/
structure Model where
  meshes : List (Mesh × List MeshInstance)
  hasBones : Bool
  boneCount : Nat
  boneMatrices : List Mat4
  boneInvTransposeMatrices : List Mat4

/-- The type `Scene::ModelInstance`: transform pair and visibility flag. The model it
instantiates (`getObject`) is the model it is listed under in the scene. -/
structure ModelInstance where
  transformMatrix : Mat4
  prevTransformMatrix : Mat4
  visible : Bool

/-- A scene: models in `modelID` order with their instances, lights in index order, ambient
intensity, active camera. -/
structure Scene where
  models : List (Model × List ModelInstance)
  lights : List Nat
  ambientIntensity : Fin 3 → ℚ
  activeCamera : Option Camera

/-! ## Reflection, buffers, frame context -/

/-- What `findMember` returns for a field: offset, total array size, row-major flag. -/
structure ReflectionMember where
  offset : Nat
  totalArraySize : Nat
  isRowMajor : Bool

/-- What `getResource` returns: whether it is a constant buffer, and its members by name. -/
structure ReflectionResource where
  isConstantBuffer : Bool
  findMember : String → Option ReflectionMember

/-- The default parameter block of a `ProgramReflection`: resources by name. -/
structure ProgramReflection where
  getResource : String → Option ReflectionResource

/-- A constant buffer, as a layout: `getVariableOffset`. What is written to it is recorded
as events. -/
structure ConstantBuffer where
  getVariableOffset : String → Nat

/-- The type `GraphicsVars`: its reflection and its constant buffers by name (`none` is the null
pointer). -/
structure GraphicsVars where
  reflection : ProgramReflection
  getConstantBuffer : String → Option ConstantBuffer

/-- The type `RenderContext`, as far as `renderScene` reads it. -/
structure RenderContext where
  graphicsVars : GraphicsVars

/-- Modelled from the spec: the type `CurrentWorkingData`, declared in the header; its fields are
those the source file reads and writes. The context and graphics-state handles only receive
calls, which are recorded as events; `drawID` is the running draw-id counter of the frame, a
natural number. -/
structure CurrentWorkingData where
  pVars : GraphicsVars
  pCamera : Option Camera
  pMaterial : Option Nat
  pModel : Option Model
  drawID : Nat

/-- The static offset cache of `SceneRenderer`. -/
structure Offsets where
  sBonesOffset : Nat
  sBonesInvTransposeOffset : Nat
  sCameraDataOffset : Nat
  sWorldMatArraySize : Nat
  sWorldMatOffset : Nat
  sPrevWorldMatOffset : Nat
  sWorldInvTransposeMatOffset : Nat
  sMeshIdOffset : Nat
  sDrawIDOffset : Nat
  sLightCountOffset : Nat
  sLightArrayOffset : Nat
  sAmbientLightOffset : Nat

/-- The mutable state of the renderer: the static offsets and `mpLastMaterial`. -/
structure RendererState where
  offsets : Offsets
  mpLastMaterial : Option Nat

/-- The members of the renderer that a frame only reads (declared in the header). -/
structure Settings where
  mCullEnabled : Bool
  mMaxInstanceCount : Nat
  mCompileMaterialWithProgram : Bool

/-- Declarations the source file uses and does not contain: `BoundingBox::transform`,
`Light::getShaderStructSize`, and the shader constants `MAX_LIGHT_SOURCES` and `MAX_BONES`. -/
structure Externals where
  transformBox : BoundingBox → Mat4 → BoundingBox
  lightShaderStructSize : Nat
  maxLightSources : Nat
  maxBones : Nat

/-- Modelled from the spec: `ConstantBuffer::kInvalidOffset`, the marker of an absent offset,
declared outside this file; taken as the largest `size_t`. -/
def kInvalidOffset : Nat := 2 ^ 64 - 1

/-- The range of `size_t`. -/
def sizeRange : Nat := 2 ^ 64

/-- The value of `sizeof(glm::mat4)`. -/
def sizeofMat4 : Nat := 64

/-- The value of `sizeof(glm::mat3x4)`. -/
def sizeofMat3x4 : Nat := 48

/-- The constant `SceneRenderer::kPerMaterialCbName`. -/
def kPerMaterialCbName : String := "InternalPerMaterialCB"

/-- The constant `SceneRenderer::kPerFrameCbName`. -/
def kPerFrameCbName : String := "InternalPerFrameCB"

/-- The constant `SceneRenderer::kPerMeshCbName`. -/
def kPerMeshCbName : String := "InternalPerMeshCB"

/-- The constant `SceneRenderer::kBoneCbName`. -/
def kBoneCbName : String := "InternalBoneCB"

/-- The initial values of the static offsets. -/
def Offsets.initial : Offsets :=
  { sBonesOffset := kInvalidOffset
    sBonesInvTransposeOffset := kInvalidOffset
    sCameraDataOffset := kInvalidOffset
    sWorldMatArraySize := 0
    sWorldMatOffset := kInvalidOffset
    sPrevWorldMatOffset := kInvalidOffset
    sWorldInvTransposeMatOffset := kInvalidOffset
    sMeshIdOffset := kInvalidOffset
    sDrawIDOffset := kInvalidOffset
    sLightCountOffset := kInvalidOffset
    sLightArrayOffset := kInvalidOffset
    sAmbientLightOffset := kInvalidOffset }

/-! ## Events and results -/

/-- A value handed to a constant buffer. -/
inductive Payload where
  | mat4 (m : Mat4)
  | mat3x4 (m : Mat3x4)
  | uint (n : Nat)
  | vec3 (v : Fin 3 → ℚ)

/-- One call the renderer makes, in the order made.

* `getResource`, `findMember`, `getVariableOffset`: layout queries;
* `cameraIntoCB`, `lightIntoCB`: `setIntoConstantBuffer` of the camera and of light `light`;
* `setVariable`, `setVariableArray`, `setBlob`: writes to the named constant buffer;
* `setParameterBlock`: the material bind of `setPerMaterialData`; `patchProgram`;
* `addDefine`, `removeDefine`, `setVao`: program and graphics state;
* `perMeshInstanceData`: an entry of `setPerMeshInstanceData`, with the `drawID` of the
  `currentData` it receives, the two instances and the slot;
* `drawIndexedInstanced`: the draw of `executeDraw`, with the `pMaterial` of its `currentData`. -/
inductive Event where
  | getResource (name : String)
  | findMember (cb : String) (member : String)
  | getVariableOffset (cb : String) (var : String)
  | cameraIntoCB (cb : String) (offset : Nat)
  | lightIntoCB (cb : String) (light : Nat) (offset : Nat)
  | setVariable (cb : String) (offset : Nat) (v : Payload)
  | setVariableArray (cb : String) (offset : Nat) (data : List Mat4) (count : Nat)
  | setBlob (cb : String) (offset : Nat) (data : Payload) (size : Nat)
  | setParameterBlock (name : String) (material : Nat)
  | patchProgram (material : Nat)
  | addDefine (name : String)
  | removeDefine (name : String)
  | setVao (vao : Nat)
  | perMeshInstanceData (drawID : Nat) (modelInstance : ModelInstance)
      (meshInstance : MeshInstance) (slot : Nat)
  | drawIndexedInstanced (material : Option Nat) (indexCount : Nat) (instanceCount : Nat)

/-- The result of a call: the events emitted, the renderer state reached, and the returned value,
or `none` when the call ended in a failed assertion or a null dereference. -/
structure Res (α : Type) where
  events : List Event
  state : RendererState
  value : Option α

/-- A renderer call: from the renderer state to a result. -/
def Exec (α : Type) : Type := RendererState → Res α

/-- Return without effect. -/
def Exec.ret {α : Type} (a : α) : Exec α :=
  fun s => { events := [], state := s, value := some a }

/-- Continue a result with the next call: a fatal result stops the sequence and keeps what
was done. -/
def Res.andThen {α β : Type} (r : Res α) (f : α → Exec β) : Res β :=
  match r.value with
  | none => { events := r.events, state := r.state, value := none }
  | some a =>
    { events := r.events ++ (f a r.state).events
      state := (f a r.state).state
      value := (f a r.state).value }

/-- Sequencing of calls. -/
def Exec.seq {α β : Type} (m : Exec α) (f : α → Exec β) : Exec β :=
  fun s => (m s).andThen f

instance : Monad Exec where
  pure := Exec.ret
  bind := Exec.seq

/-- Record one event. -/
def emit (e : Event) : Exec Unit :=
  fun s => { events := [e], state := s, value := some () }

/-- End the call: a failed assertion or a null dereference. -/
def fatal {α : Type} : Exec α :=
  fun s => { events := [], state := s, value := none }

/-- Modelled from the spec: the `assert` macro, declared outside this file; a violated
precondition is fatal. -/
def assertThat (c : Bool) : Exec Unit :=
  if c then Exec.ret () else fatal

/-- Read the renderer state. -/
def getState : Exec RendererState :=
  fun s => { events := [], state := s, value := some s }

/-- Update the static offsets. -/
def modifyOffsets (f : Offsets → Offsets) : Exec Unit :=
  fun s => { events := [], state := { s with offsets := f s.offsets }, value := some () }

/-- Assign `mpLastMaterial`. -/
def setLastMaterial (m : Option Nat) : Exec Unit :=
  fun s => { events := [], state := { s with mpLastMaterial := m }, value := some () }

/-! ## `updateVariableOffsets` -/

/-- A `findMember` whose result is used without a test: a missing member is a null
dereference. -/
def findMember (cb : String) (pType : ReflectionResource) (name : String) :
    Exec ReflectionMember := do
  emit (Event.findMember cb name)
  match pType.findMember name with
  | some m => pure m
  | none => fatal

/-- A `findMember` whose result is tested before use. -/
def findMemberOpt (cb : String) (pType : ReflectionResource) (name : String) :
    Exec (Option ReflectionMember) := do
  emit (Event.findMember cb name)
  pure (pType.findMember name)

/-- The expression `p ? p->getOffset() : ConstantBuffer::kInvalidOffset`. -/
def offsetOrInvalid (p : Option ReflectionMember) : Nat :=
  match p with
  | some m => m.offset
  | none => kInvalidOffset

/-- The first block of `updateVariableOffsets`: the per-mesh buffer. The assertion on `pVar`
dereferences it before the null test that follows, so a missing resource ends the call. -/
def resolvePerMesh (pReflector : ProgramReflection) : Exec Unit := do
  emit (Event.getResource kPerMeshCbName)
  match pReflector.getResource kPerMeshCbName with
  | none => fatal
  | some pType =>
    assertThat pType.isConstantBuffer
    let m0 ← findMember kPerMeshCbName pType "gWorldMat[0]"
    assertThat (m0.isRowMajor == false)
    let m1 ← findMember kPerMeshCbName pType "gWorldInvTransposeMat[0]"
    assertThat (m1.isRowMajor == false)
    let a0 ← findMember kPerMeshCbName pType "gWorldMat"
    let a1 ← findMember kPerMeshCbName pType "gWorldInvTransposeMat"
    assertThat (a0.totalArraySize == a1.totalArraySize)
    let f0 ← findMember kPerMeshCbName pType "gWorldMat"
    modifyOffsets (fun o => { o with sWorldMatArraySize := f0.totalArraySize })
    let f1 ← findMember kPerMeshCbName pType "gWorldMat[0]"
    modifyOffsets (fun o => { o with sWorldMatOffset := f1.offset })
    let f2 ← findMember kPerMeshCbName pType "gWorldInvTransposeMat[0]"
    modifyOffsets (fun o => { o with sWorldInvTransposeMatOffset := f2.offset })
    let f3 ← findMember kPerMeshCbName pType "gMeshId"
    modifyOffsets (fun o => { o with sMeshIdOffset := f3.offset })
    let f4 ← findMember kPerMeshCbName pType "gDrawId[0]"
    modifyOffsets (fun o => { o with sDrawIDOffset := f4.offset })
    let f5 ← findMember kPerMeshCbName pType "gPrevWorldMat[0]"
    modifyOffsets (fun o => { o with sPrevWorldMatOffset := f5.offset })

/-- The second block of `updateVariableOffsets`: the per-frame buffer. -/
def resolvePerFrame (pReflector : ProgramReflection) : Exec Unit := do
  emit (Event.getResource kPerFrameCbName)
  match pReflector.getResource kPerFrameCbName with
  | none => fatal
  | some pType =>
    assertThat pType.isConstantBuffer
    let cam ← findMember kPerFrameCbName pType "gCam.viewMat"
    modifyOffsets (fun o => { o with sCameraDataOffset := cam.offset })
    let pCountOffset ← findMemberOpt kPerFrameCbName pType "gLightsCount"
    modifyOffsets (fun o => { o with sLightCountOffset := offsetOrInvalid pCountOffset })
    let pLightOffset ← findMemberOpt kPerFrameCbName pType "gLights[0].worldPos"
    modifyOffsets (fun o => { o with sLightArrayOffset := offsetOrInvalid pLightOffset })
    let pAmbientOffset ← findMemberOpt kPerFrameCbName pType "gAmbientLighting"
    modifyOffsets (fun o => { o with sAmbientLightOffset := offsetOrInvalid pAmbientOffset })

/-- The function `SceneRenderer::updateVariableOffsets`. -/
def updateVariableOffsets (pReflector : ProgramReflection) : Exec Unit := do
  let s ← getState
  if s.offsets.sWorldMatOffset = kInvalidOffset then
    resolvePerMesh pReflector
  let s ← getState
  if s.offsets.sCameraDataOffset = kInvalidOffset then
    resolvePerFrame pReflector

/-! ## Per-scope parameter writes -/

/-- The light loop of `setPerFrameData`, from light index `i` on. The product
`i * Light::getShaderStructSize()` is taken exactly. -/
def setLights (ext : Externals) (sLightArrayOffset : Nat) : List Nat → Nat → Exec Unit
  | [], _ => pure ()
  | light :: rest, i => do
    emit (Event.lightIntoCB kPerFrameCbName light
      ((i * ext.lightShaderStructSize + sLightArrayOffset) % sizeRange))
    setLights ext sLightArrayOffset rest (i + 1)

/-- The function `SceneRenderer::setPerFrameData`. -/
def setPerFrameData (ext : Externals) (mpScene : Scene) (currentData : CurrentWorkingData) :
    Exec Unit := do
  match currentData.pVars.getConstantBuffer kPerFrameCbName with
  | none => pure ()
  | some _ =>
    let s ← getState
    match currentData.pCamera with
    | some _ => emit (Event.cameraIntoCB kPerFrameCbName s.offsets.sCameraDataOffset)
    | none => pure ()
    if s.offsets.sLightArrayOffset ≠ kInvalidOffset then
      assertThat (decide (mpScene.lights.length ≤ ext.maxLightSources))
      setLights ext s.offsets.sLightArrayOffset mpScene.lights 0
    if s.offsets.sLightCountOffset ≠ kInvalidOffset then
      emit (Event.setVariable kPerFrameCbName s.offsets.sLightCountOffset
        (Payload.uint mpScene.lights.length))
    if s.offsets.sAmbientLightOffset ≠ kInvalidOffset then
      emit (Event.setVariable kPerFrameCbName s.offsets.sAmbientLightOffset
        (Payload.vec3 mpScene.ambientIntensity))

/-- The function `SceneRenderer::setPerModelData`. -/
def setPerModelData (ext : Externals) (currentData : CurrentWorkingData) : Exec Bool := do
  match currentData.pModel with
  | none => fatal
  | some pModel =>
    if pModel.hasBones then
      match currentData.pVars.getConstantBuffer kBoneCbName with
      | none => pure ()
      | some pCB =>
        let s ← getState
        if s.offsets.sBonesOffset = kInvalidOffset
            ∨ s.offsets.sBonesInvTransposeOffset = kInvalidOffset then
          emit (Event.getVariableOffset kBoneCbName "gBoneMat[0]")
          modifyOffsets (fun o => { o with sBonesOffset := pCB.getVariableOffset "gBoneMat[0]" })
          emit (Event.getVariableOffset kBoneCbName "gInvTransposeBoneMat[0]")
          modifyOffsets (fun o =>
            { o with sBonesInvTransposeOffset := pCB.getVariableOffset "gInvTransposeBoneMat[0]" })
        assertThat (decide (pModel.boneCount ≤ ext.maxBones))
        let s ← getState
        emit (Event.setVariableArray kBoneCbName s.offsets.sBonesOffset
          pModel.boneMatrices pModel.boneCount)
        emit (Event.setVariableArray kBoneCbName s.offsets.sWorldInvTransposeMatOffset
          pModel.boneInvTransposeMatrices pModel.boneCount)
    pure true

/-- The function `SceneRenderer::setPerModelInstanceData`. -/
def setPerModelInstanceData (_currentData : CurrentWorkingData) (_pModelInstance : ModelInstance)
    (_instanceID : Nat) : Exec Bool :=
  pure true

/-- The function `SceneRenderer::setPerMeshData`. -/
def setPerMeshData (_currentData : CurrentWorkingData) (_pMesh : Mesh) : Exec Bool :=
  pure true

/-- The function `SceneRenderer::setPerMeshInstanceData`. -/
def setPerMeshInstanceData (currentData : CurrentWorkingData) (pModelInstance : ModelInstance)
    (pMeshInstance : MeshInstance) (drawInstanceID : Nat) : Exec Bool := do
  emit (Event.perMeshInstanceData currentData.drawID pModelInstance pMeshInstance drawInstanceID)
  match currentData.pVars.getConstantBuffer kPerMeshCbName with
  | none => pure true
  | some _ =>
    let pMesh := pMeshInstance.object
    assertThat (drawInstanceID == 0)
    let worldMat : Mat4 :=
      if pMesh.hasBones = false then
        pModelInstance.transformMatrix * pMeshInstance.transformMatrix
      else pModelInstance.transformMatrix
    let prevWorldMat : Mat4 :=
      if pMesh.hasBones = false then
        pModelInstance.prevTransformMatrix * pMeshInstance.prevTransformMatrix
      else pModelInstance.prevTransformMatrix
    let worldInvTransposeMat : Mat3x4 := toMat3x4 (transpose (inverse (toMat3 worldMat)))
    let s ← getState
    assertThat (decide (drawInstanceID < s.offsets.sWorldMatArraySize))
    emit (Event.setBlob kPerMeshCbName
      ((s.offsets.sWorldMatOffset + drawInstanceID * sizeofMat4) % sizeRange)
      (Payload.mat4 worldMat) sizeofMat4)
    emit (Event.setBlob kPerMeshCbName
      ((s.offsets.sWorldInvTransposeMatOffset + drawInstanceID * sizeofMat3x4) % sizeRange)
      (Payload.mat3x4 worldInvTransposeMat) sizeofMat3x4)
    emit (Event.setBlob kPerMeshCbName
      ((s.offsets.sPrevWorldMatOffset + drawInstanceID * sizeofMat4) % sizeRange)
      (Payload.mat4 prevWorldMat) sizeofMat4)
    emit (Event.setVariable kPerMeshCbName s.offsets.sMeshIdOffset (Payload.uint pMesh.id))
    pure true

/-- The function `SceneRenderer::setPerMaterialData`. -/
def setPerMaterialData (_currentData : CurrentWorkingData) (pMaterial : Nat) : Exec Bool := do
  emit (Event.setParameterBlock "gMaterial" pMaterial)
  pure true

/-! ## Draw submission and traversal -/

/-- The function `SceneRenderer::executeDraw`. -/
def executeDraw (currentData : CurrentWorkingData) (indexCount instanceCount : Nat) :
    Exec Unit :=
  emit (Event.drawIndexedInstanced currentData.pMaterial indexCount instanceCount)

/-- The function `SceneRenderer::postFlushDraw`. -/
def postFlushDraw (_currentData : CurrentWorkingData) : Exec Unit :=
  pure ()

/-- The last three statements of `SceneRenderer::draw`. -/
def drawSubmit (currentData : CurrentWorkingData) (pMesh : Mesh) (instanceCount : Nat) :
    Exec CurrentWorkingData := do
  executeDraw currentData pMesh.indexCount instanceCount
  postFlushDraw currentData
  emit (Event.removeDefine "_MS_STATIC_MATERIAL_DESC")
  pure currentData

/-- The function `SceneRenderer::draw`. -/
def draw (cfg : Settings) (currentData : CurrentWorkingData) (pMesh : Mesh)
    (instanceCount : Nat) : Exec CurrentWorkingData := do
  let currentData := { currentData with pMaterial := some pMesh.material }
  let s ← getState
  if s.mpLastMaterial ≠ some pMesh.material then
    let bound ← setPerMaterialData currentData pMesh.material
    if bound = false then
      pure currentData
    else
      setLastMaterial (some pMesh.material)
      if cfg.mCompileMaterialWithProgram then
        emit (Event.patchProgram pMesh.material)
      drawSubmit currentData pMesh instanceCount
  else
    drawSubmit currentData pMesh instanceCount

/-- The test `(mCullEnabled == false) || (currentData.pCamera->isObjectCulled(box) == false)`;
the camera is dereferenced only when culling is enabled. -/
def passesCulling (cfg : Settings) (currentData : CurrentWorkingData) (box : BoundingBox) :
    Exec Bool :=
  if cfg.mCullEnabled = false then pure true
  else
    match currentData.pCamera with
    | none => fatal
    | some pCamera => pure (pCamera.isObjectCulled box == false)

/-- The body of the instance loop of `renderMeshInstances`, for one mesh instance; it returns
the new `activeInstances` and `currentData`. -/
def renderMeshInstances.body (cfg : Settings) (ext : Externals)
    (pModelInstance : ModelInstance) (pMesh : Mesh) (pMeshInstance : MeshInstance)
    (activeInstances : Nat) (currentData : CurrentWorkingData) :
    Exec (Nat × CurrentWorkingData) := do
  let box := ext.transformBox pMeshInstance.boundingBox pModelInstance.transformMatrix
  let pass ← passesCulling cfg currentData box
  if pass then
    if pMeshInstance.visible then
      let packed ← setPerMeshInstanceData currentData pModelInstance pMeshInstance activeInstances
      if packed then
        let currentData := { currentData with drawID := currentData.drawID + 1 }
        let activeInstances := activeInstances + 1
        if activeInstances = cfg.mMaxInstanceCount then
          let currentData ← draw cfg currentData pMesh activeInstances
          pure (0, currentData)
        else pure (activeInstances, currentData)
      else pure (activeInstances, currentData)
    else pure (activeInstances, currentData)
  else pure (activeInstances, currentData)

/-- The instance loop of `renderMeshInstances`. -/
def renderMeshInstances.loop (cfg : Settings) (ext : Externals)
    (pModelInstance : ModelInstance) (pMesh : Mesh) :
    List MeshInstance → Nat → CurrentWorkingData → Exec (Nat × CurrentWorkingData)
  | [], activeInstances, currentData => pure (activeInstances, currentData)
  | pMeshInstance :: rest, activeInstances, currentData => do
    let r ← renderMeshInstances.body cfg ext pModelInstance pMesh pMeshInstance
      activeInstances currentData
    renderMeshInstances.loop cfg ext pModelInstance pMesh rest r.1 r.2

/-- The function `SceneRenderer::renderMeshInstances`, for the mesh and the mesh instances that
`getMesh(meshID)` and `getMeshInstance(meshID, _)` give. -/
def renderMeshInstances (cfg : Settings) (ext : Externals) (currentData : CurrentWorkingData)
    (pModelInstance : ModelInstance) (mesh : Mesh × List MeshInstance) :
    Exec CurrentWorkingData := do
  let pMesh := mesh.1
  let ready ← setPerMeshData currentData pMesh
  if ready then
    if pMesh.hasBones then
      emit (Event.addDefine "_VERTEX_BLENDING")
    emit (Event.setVao pMesh.vao)
    let r ← renderMeshInstances.loop cfg ext pModelInstance pMesh mesh.2 0 currentData
    let currentData ←
      (if r.1 ≠ 0 then draw cfg r.2 pMesh r.1 else pure r.2)
    if pMesh.hasBones then
      emit (Event.removeDefine "_VERTEX_BLENDING")
    pure currentData
  else pure currentData

/-- The mesh loop of `renderModelInstance`. -/
def renderModelInstance.loop (cfg : Settings) (ext : Externals)
    (pModelInstance : ModelInstance) :
    List (Mesh × List MeshInstance) → CurrentWorkingData → Exec CurrentWorkingData
  | [], currentData => pure currentData
  | mesh :: rest, currentData => do
    let currentData ← renderMeshInstances cfg ext currentData pModelInstance mesh
    renderModelInstance.loop cfg ext pModelInstance rest currentData

/-- The function `SceneRenderer::renderModelInstance`; the model of the instance is
`currentData.pModel`. -/
def renderModelInstance (cfg : Settings) (ext : Externals) (currentData : CurrentWorkingData)
    (pModelInstance : ModelInstance) : Exec CurrentWorkingData := do
  setLastMaterial none
  match currentData.pModel with
  | none => fatal
  | some pModel => renderModelInstance.loop cfg ext pModelInstance pModel.meshes currentData

/-- The model-instance loop of `renderScene(CurrentWorkingData&)`, from `instanceID` on. -/
def renderSceneData.instances (cfg : Settings) (ext : Externals) :
    List ModelInstance → Nat → CurrentWorkingData → Exec CurrentWorkingData
  | [], _, currentData => pure currentData
  | pInstance :: rest, instanceID, currentData => do
    let currentData ←
      (if pInstance.visible then do
        let ready ← setPerModelInstanceData currentData pInstance instanceID
        if ready then renderModelInstance cfg ext currentData pInstance
        else pure currentData
      else pure currentData)
    renderSceneData.instances cfg ext rest (instanceID + 1) currentData

/-- The model loop of `renderScene(CurrentWorkingData&)`. -/
def renderSceneData.models (cfg : Settings) (ext : Externals) :
    List (Model × List ModelInstance) → CurrentWorkingData → Exec CurrentWorkingData
  | [], currentData => pure currentData
  | model :: rest, currentData => do
    let currentData := { currentData with pModel := some model.1 }
    let ready ← setPerModelData ext currentData
    let currentData ←
      (if ready then renderSceneData.instances cfg ext model.2 0 currentData
      else pure currentData)
    renderSceneData.models cfg ext rest currentData

/-- The function `SceneRenderer::renderScene(CurrentWorkingData&)`. -/
def renderSceneData (cfg : Settings) (ext : Externals) (mpScene : Scene)
    (currentData : CurrentWorkingData) : Exec CurrentWorkingData := do
  setPerFrameData ext mpScene currentData
  renderSceneData.models cfg ext mpScene.models currentData

/-- The function `SceneRenderer::renderScene(RenderContext*, Camera*)`. -/
def renderScene (cfg : Settings) (ext : Externals) (mpScene : Scene)
    (pContext : RenderContext) (pCamera : Option Camera) : Exec CurrentWorkingData := do
  updateVariableOffsets pContext.graphicsVars.reflection
  let currentData : CurrentWorkingData :=
    { pVars := pContext.graphicsVars
      pCamera := pCamera
      pMaterial := none
      pModel := none
      drawID := 0 }
  renderSceneData cfg ext mpScene currentData

/-- The function `SceneRenderer::renderScene(RenderContext*)`: the frame of the scene's active
camera. -/
def renderSceneActiveCamera (cfg : Settings) (ext : Externals) (mpScene : Scene)
    (pContext : RenderContext) : Exec CurrentWorkingData :=
  renderScene cfg ext mpScene pContext mpScene.activeCamera

/-! ## Observations on a trace, and the quantities the properties are stated with -/

/-- The instance counts of the draw calls, in order. -/
def drawCounts (evs : List Event) : List Nat :=
  evs.filterMap fun e =>
    match e with
    | Event.drawIndexedInstanced _ _ n => some n
    | _ => none

/-- The material current at each draw call, in order. -/
def drawMaterials (evs : List Event) : List (Option Nat) :=
  evs.filterMap fun e =>
    match e with
    | Event.drawIndexedInstanced m _ _ => some m
    | _ => none

/-- The materials bound by `setPerMaterialData`, in order. -/
def boundMaterials (evs : List Event) : List Nat :=
  evs.filterMap fun e =>
    match e with
    | Event.setParameterBlock _ m => some m
    | _ => none

/-- The entries of `setPerMeshInstanceData`, in order: the draw-id the call sees, and the model instance
and mesh instance it is to pack. -/
def packedInstances (evs : List Event) : List (Nat × ModelInstance × MeshInstance) :=
  evs.filterMap fun e =>
    match e with
    | Event.perMeshInstanceData d mi inst _ => some (d, mi, inst)
    | _ => none

/-- The layout queries in a trace. -/
def layoutQueries (evs : List Event) : List Event :=
  evs.filter fun e =>
    match e with
    | Event.getResource _ => true
    | Event.findMember _ _ => true
    | Event.getVariableOffset _ _ => true
    | _ => false

/-- The writes to constant buffers in a trace. -/
def bufferWrites (evs : List Event) : List Event :=
  evs.filter fun e =>
    match e with
    | Event.cameraIntoCB _ _ => true
    | Event.lightIntoCB _ _ _ => true
    | Event.setVariable _ _ _ => true
    | Event.setVariableArray _ _ _ _ => true
    | Event.setBlob _ _ _ _ => true
    | _ => false

/-- Whether a mesh instance passes the culling test and the visibility flag under a model instance:
the two tests of the instance loop, for the camera of the frame. -/
def accepts (cfg : Settings) (ext : Externals) (pCamera : Option Camera)
    (pModelInstance : ModelInstance) (pMeshInstance : MeshInstance) : Bool :=
  (cfg.mCullEnabled == false ||
    (match pCamera with
     | some cam =>
       cam.isObjectCulled
         (ext.transformBox pMeshInstance.boundingBox pModelInstance.transformMatrix) == false
     | none => false))
  && pMeshInstance.visible

/-- The accepted mesh instances of one mesh under a model instance, in `instanceID` order. -/
def acceptedOfMesh (cfg : Settings) (ext : Externals) (pCamera : Option Camera)
    (mi : ModelInstance) (insts : List MeshInstance) : List (ModelInstance × MeshInstance) :=
  (insts.filter (accepts cfg ext pCamera mi)).map fun inst => (mi, inst)

/-- The accepted mesh instances of the meshes of a model under a model instance, mesh by mesh. -/
def acceptedOfMeshes (cfg : Settings) (ext : Externals) (pCamera : Option Camera)
    (mi : ModelInstance) : List (Mesh × List MeshInstance) → List (ModelInstance × MeshInstance)
  | [] => []
  | mesh :: rest =>
    acceptedOfMesh cfg ext pCamera mi mesh.2 ++ acceptedOfMeshes cfg ext pCamera mi rest

/-- The accepted mesh instances under the visible ones of a list of model instances. -/
def acceptedOfInstances (cfg : Settings) (ext : Externals) (pCamera : Option Camera)
    (meshes : List (Mesh × List MeshInstance)) :
    List ModelInstance → List (ModelInstance × MeshInstance)
  | [] => []
  | mi :: rest =>
    (if mi.visible then acceptedOfMeshes cfg ext pCamera mi meshes else [])
      ++ acceptedOfInstances cfg ext pCamera meshes rest

/-- The accepted mesh instances of a list of models, in traversal order: model, then model instance,
then mesh, then mesh instance. -/
def acceptedOfModels (cfg : Settings) (ext : Externals) (pCamera : Option Camera) :
    List (Model × List ModelInstance) → List (ModelInstance × MeshInstance)
  | [] => []
  | model :: rest =>
    acceptedOfInstances cfg ext pCamera model.1.meshes model.2
      ++ acceptedOfModels cfg ext pCamera rest

/-- The visible mesh instances of one mesh under a model instance, in `instanceID` order. -/
def visibleOfMesh (mi : ModelInstance) (insts : List MeshInstance) :
    List (ModelInstance × MeshInstance) :=
  (insts.filter (fun inst => inst.visible)).map fun inst => (mi, inst)

/-- The visible mesh instances of the meshes of a model under a model instance. -/
def visibleOfMeshes (mi : ModelInstance) :
    List (Mesh × List MeshInstance) → List (ModelInstance × MeshInstance)
  | [] => []
  | mesh :: rest => visibleOfMesh mi mesh.2 ++ visibleOfMeshes mi rest

/-- The visible mesh instances under the visible ones of a list of model instances. -/
def visibleOfInstances (meshes : List (Mesh × List MeshInstance)) :
    List ModelInstance → List (ModelInstance × MeshInstance)
  | [] => []
  | mi :: rest =>
    (if mi.visible then visibleOfMeshes mi meshes else []) ++ visibleOfInstances meshes rest

/-- Every visible mesh instance under a visible model instance, in traversal order. -/
def visibleOfModels :
    List (Model × List ModelInstance) → List (ModelInstance × MeshInstance)
  | [] => []
  | model :: rest => visibleOfInstances model.1.meshes model.2 ++ visibleOfModels rest

/-- Number a list from `d` on. -/
def numbered {α : Type} : Nat → List α → List (Nat × α)
  | _, [] => []
  | d, x :: xs => (d, x) :: numbered (d + 1) xs

/-- The instance counts of the batches that `n` instances make under a cap of `cap`: full
batches, then the remainder when there is one. -/
def batches (cap n : Nat) : List Nat :=
  List.replicate (n / cap) cap ++ (if n % cap = 0 then [] else [n % cap])

/-- The instance counts of the draw calls that the meshes of a model make under a model instance,
mesh by mesh, when every accepted instance is packed. -/
def batchesOfMeshes (cfg : Settings) (ext : Externals) (pCamera : Option Camera)
    (mi : ModelInstance) : List (Mesh × List MeshInstance) → List Nat
  | [] => []
  | mesh :: rest =>
    batches cfg.mMaxInstanceCount (acceptedOfMesh cfg ext pCamera mi mesh.2).length
      ++ batchesOfMeshes cfg ext pCamera mi rest

/-- The materials of those draw calls: each mesh's material, once per batch. -/
def materialsOfMeshes (cfg : Settings) (ext : Externals) (pCamera : Option Camera)
    (mi : ModelInstance) : List (Mesh × List MeshInstance) → List (Option Nat)
  | [] => []
  | mesh :: rest =>
    List.replicate
        (batches cfg.mMaxInstanceCount (acceptedOfMesh cfg ext pCamera mi mesh.2).length).length
        (some mesh.1.material)
      ++ materialsOfMeshes cfg ext pCamera mi rest

/-- Whether `setPerMeshInstanceData` passes its two assertions at a slot, for the buffers `vars`
and the cached array size `cap`: no per-mesh buffer is bound, or the slot is `0` and below
`cap`. -/
def slotOk (vars : GraphicsVars) (cap : Nat) (slot : Nat) : Bool :=
  match vars.getConstantBuffer kPerMeshCbName with
  | none => true
  | some _ => slot == 0 && decide (slot < cap)

/-- Whether `setPerMeshInstanceData` passes its two assertions at a slot. -/
def packOk (currentData : CurrentWorkingData) (slot : Nat) (s : RendererState) : Bool :=
  slotOk currentData.pVars s.offsets.sWorldMatArraySize slot

/-- The world matrix `setPerMeshInstanceData` computes. -/
def worldMatOf (mi : ModelInstance) (inst : MeshInstance) : Mat4 :=
  if inst.object.hasBones = false then mi.transformMatrix * inst.transformMatrix
  else mi.transformMatrix

/-- The previous-frame world matrix `setPerMeshInstanceData` computes. -/
def prevWorldMatOf (mi : ModelInstance) (inst : MeshInstance) : Mat4 :=
  if inst.object.hasBones = false then mi.prevTransformMatrix * inst.prevTransformMatrix
  else mi.prevTransformMatrix

/-- The four writes of `setPerMeshInstanceData` at a slot. -/
def packWrites (mi : ModelInstance) (inst : MeshInstance) (slot : Nat) (o : Offsets) :
    List Event :=
  [ Event.setBlob kPerMeshCbName ((o.sWorldMatOffset + slot * sizeofMat4) % sizeRange)
      (Payload.mat4 (worldMatOf mi inst)) sizeofMat4,
    Event.setBlob kPerMeshCbName
      ((o.sWorldInvTransposeMatOffset + slot * sizeofMat3x4) % sizeRange)
      (Payload.mat3x4 (toMat3x4 (transpose (inverse (toMat3 (worldMatOf mi inst))))))
      sizeofMat3x4,
    Event.setBlob kPerMeshCbName ((o.sPrevWorldMatOffset + slot * sizeofMat4) % sizeRange)
      (Payload.mat4 (prevWorldMatOf mi inst)) sizeofMat4,
    Event.setVariable kPerMeshCbName o.sMeshIdOffset (Payload.uint inst.object.id) ]

/-- The events of a successful `setPerMeshInstanceData` after its entry record. -/
def packEvents (currentData : CurrentWorkingData) (mi : ModelInstance) (inst : MeshInstance)
    (slot : Nat) (s : RendererState) : List Event :=
  match currentData.pVars.getConstantBuffer kPerMeshCbName with
  | none => []
  | some _ => packWrites mi inst slot s.offsets

/-- The events of one `draw` of a mesh when `last` is the last-bound material. -/
def drawEvents (cfg : Settings) (last : Option Nat) (pMesh : Mesh) (instanceCount : Nat) :
    List Event :=
  (if last ≠ some pMesh.material then
      Event.setParameterBlock "gMaterial" pMesh.material ::
        (if cfg.mCompileMaterialWithProgram then [Event.patchProgram pMesh.material] else [])
    else [])
  ++ [ Event.drawIndexedInstanced (some pMesh.material) pMesh.indexCount instanceCount,
       Event.removeDefine "_MS_STATIC_MATERIAL_DESC" ]

/-- The events of `renderMeshInstances` before its instance loop. -/
def meshPrologue (pMesh : Mesh) : List Event :=
  (if pMesh.hasBones then [Event.addDefine "_VERTEX_BLENDING"] else [])
    ++ [Event.setVao pMesh.vao]

/-- The events of `renderMeshInstances` after its last draw. -/
def meshEpilogue (pMesh : Mesh) : List Event :=
  if pMesh.hasBones then [Event.removeDefine "_VERTEX_BLENDING"] else []

/-- The instances packed and not yet drawn when the instance loop returns; none when it ended
in a fatal violation. -/
def pendingOf (r : Res (Nat × CurrentWorkingData)) : Nat :=
  match r.value with
  | some v => v.1
  | none => 0

/-- The binds a sequence of draws causes when `last` is the last-bound material: one for every
draw whose material differs from the one current before it. -/
def bindsFrom : Option Nat → List (Option Nat) → List (Option Nat)
  | _, [] => []
  | last, m :: rest => if last ≠ m then m :: bindsFrom m rest else bindsFrom m rest

/-- The material bound after a sequence of draws when `last` was bound before it. -/
def lastFrom : Option Nat → List (Option Nat) → Option Nat
  | last, [] => last
  | _, m :: rest => lastFrom m rest

/-- An event of the parameter scopes and layout queries: neither an entry of
`setPerMeshInstanceData`, nor a draw, nor a material bind. -/
def Event.isScopeEvent : Event → Bool
  | Event.getResource _ => true
  | Event.findMember _ _ => true
  | Event.getVariableOffset _ _ => true
  | Event.cameraIntoCB _ _ => true
  | Event.lightIntoCB _ _ _ => true
  | Event.setVariable _ _ _ => true
  | Event.setVariableArray _ _ _ _ => true
  | _ => false

/-- A call that only emits events of the parameter scopes and leaves `mpLastMaterial` alone. -/
def Exec.Quiet {α : Type} (m : Exec α) : Prop :=
  ∀ s, (∀ e ∈ (m s).events, Event.isScopeEvent e = true)
    ∧ (m s).state.mpLastMaterial = s.mpLastMaterial

/-- A call whose returned values all satisfy `P`. -/
def Exec.Returns {α : Type} (m : Exec α) (P : α → Prop) : Prop :=
  ∀ s v, (m s).value = some v → P v

/-- What a call keeps true of draw counts: the draw calls count no more instances than
`setPerMeshInstanceData` was entered for, and exactly as many when the call returns. -/
def CountInv {α : Type} (r : Res α) : Prop :=
  (drawCounts r.events).sum ≤ (packedInstances r.events).length
    ∧ (r.value.isSome = true →
        (drawCounts r.events).sum = (packedInstances r.events).length)

/-- What a call keeps true of material binds: the binds it makes are those its draws cause from
the material bound at entry, and the material bound at exit is the one its draws leave. -/
def MaterialInv {α : Type} (s : RendererState) (r : Res α) : Prop :=
  (boundMaterials r.events).map some = bindsFrom s.mpLastMaterial (drawMaterials r.events)
    ∧ r.state.mpLastMaterial = lastFrom s.mpLastMaterial (drawMaterials r.events)
    ∧ ∀ m ∈ drawMaterials r.events, m ≠ none

/-- What a traversal call keeps true of draw-ids, for the list `L` of the mesh instances it is to
accept: the entries of `setPerMeshInstanceData` it makes are an initial part of `L`, numbered from
the draw-id at entry; when the call returns they are all of `L`, the draw-id has advanced by the
length of `L`, and the buffers and the camera of the working data are unchanged. -/
def NumberedInv {α : Type} (proj : α → CurrentWorkingData) (cwd : CurrentWorkingData)
    (L : List (ModelInstance × MeshInstance)) (r : Res α) : Prop :=
  packedInstances r.events <+: numbered cwd.drawID L
    ∧ ∀ v, r.value = some v →
        packedInstances r.events = numbered cwd.drawID L
          ∧ (proj v).drawID = cwd.drawID + L.length
          ∧ (proj v).pVars = cwd.pVars
          ∧ (proj v).pCamera = cwd.pCamera

/-! ## The calculus of results -/


/-! ## Concrete inputs -/

namespace Sample

/-- A unit box at the origin. -/
def box : BoundingBox := { center := fun _ => 0, extent := fun _ => 1 }

/-- A mesh without bones, with the given material. -/
def mesh (material : Nat) : Mesh :=
  { id := 7, material := material, hasBones := false, indexCount := 36, vao := 1 }

/-- A mesh instance of `mesh 1` at the identity, with the given visibility flag. -/
def meshInstance (visible : Bool) : MeshInstance :=
  { object := mesh 1, transformMatrix := 1, prevTransformMatrix := 1, boundingBox := box,
    visible := visible }

/-- A visible model instance at the identity. -/
def modelInstance : ModelInstance :=
  { transformMatrix := 1, prevTransformMatrix := 1, visible := true }

/-- A shear of the x axis along y, followed by a translation by (5, 6, 7). -/
def shear : Mat4 := !![1, 2, 0, 5; 0, 1, 0, 6; 0, 0, 1, 7; 0, 0, 0, 1]

/-- A visible model instance placed by `shear`. -/
def shearedModelInstance : ModelInstance :=
  { transformMatrix := shear, prevTransformMatrix := 1, visible := true }

/-- Collaborator values: boxes are left where they are, sixteen lights, 128 bones. -/
def ext : Externals :=
  { transformBox := fun b _ => b, lightShaderStructSize := 64, maxLightSources := 16,
    maxBones := 128 }

/-- A reflection without resources. -/
def noReflection : ProgramReflection := { getResource := fun _ => none }

/-- The layout of a per-mesh buffer with 64 world matrices. -/
def perMeshLayout : ReflectionResource :=
  { isConstantBuffer := true
    findMember := fun name =>
      List.lookup name
        [ ("gWorldMat", { offset := 0, totalArraySize := 64, isRowMajor := false }),
          ("gWorldMat[0]", { offset := 0, totalArraySize := 0, isRowMajor := false }),
          ("gWorldInvTransposeMat",
            { offset := 4096, totalArraySize := 64, isRowMajor := false }),
          ("gWorldInvTransposeMat[0]",
            { offset := 4096, totalArraySize := 0, isRowMajor := false }),
          ("gPrevWorldMat[0]", { offset := 7168, totalArraySize := 0, isRowMajor := false }),
          ("gMeshId", { offset := 11264, totalArraySize := 0, isRowMajor := false }),
          ("gDrawId[0]", { offset := 11280, totalArraySize := 0, isRowMajor := false }) ] }

/-- The layout of a per-frame buffer with camera, light count, ambient term and lights. -/
def perFrameLayout : ReflectionResource :=
  { isConstantBuffer := true
    findMember := fun name =>
      List.lookup name
        [ ("gCam.viewMat", { offset := 0, totalArraySize := 0, isRowMajor := false }),
          ("gLightsCount", { offset := 512, totalArraySize := 0, isRowMajor := false }),
          ("gAmbientLighting", { offset := 516, totalArraySize := 0, isRowMajor := false }),
          ("gLights[0].worldPos",
            { offset := 528, totalArraySize := 0, isRowMajor := false }) ] }

/-- A reflection with both buffers. -/
def fullReflection : ProgramReflection :=
  { getResource := fun name =>
      if name = kPerMeshCbName then some perMeshLayout
      else if name = kPerFrameCbName then some perFrameLayout
      else none }

/-- Program variables without any constant buffer. -/
def noBuffers : GraphicsVars := { reflection := noReflection, getConstantBuffer := fun _ => none }

/-- Program variables in which every named constant buffer is bound; the bone buffer has
`gBoneMat[0]` at 0 and `gInvTransposeBoneMat[0]` at 8192. -/
def allBuffers : GraphicsVars :=
  { reflection := noReflection
    getConstantBuffer := fun _ =>
      some { getVariableOffset := fun name =>
        if name = "gBoneMat[0]" then 0
        else if name = "gInvTransposeBoneMat[0]" then 8192
        else kInvalidOffset } }

/-- Settings: culling off, batches of four. -/
def batchesOfFour : Settings :=
  { mCullEnabled := false, mMaxInstanceCount := 4, mCompileMaterialWithProgram := false }

/-- A camera that reports every box as culled. -/
def blindCamera : Camera := { isObjectCulled := fun _ => true }

/-- Working data at the start of a frame, for the given buffers and camera. -/
def workingData (vars : GraphicsVars) (camera : Option Camera) : CurrentWorkingData :=
  { pVars := vars, pCamera := camera, pMaterial := none, pModel := none, drawID := 0 }

/-- Offsets as resolved from a layout with 64 world matrices. -/
def resolvedOffsets : Offsets :=
  { sBonesOffset := kInvalidOffset
    sBonesInvTransposeOffset := kInvalidOffset
    sCameraDataOffset := 0
    sWorldMatArraySize := 64
    sWorldMatOffset := 0
    sPrevWorldMatOffset := 7168
    sWorldInvTransposeMatOffset := 4096
    sMeshIdOffset := 11264
    sDrawIDOffset := 11280
    sLightCountOffset := 512
    sLightArrayOffset := 528
    sAmbientLightOffset := 516 }

/-- A renderer state with resolved offsets. -/
def resolved : RendererState := { offsets := resolvedOffsets, mpLastMaterial := none }

/-- A renderer state whose offsets were never resolved. -/
def unresolved : RendererState := { offsets := Offsets.initial, mpLastMaterial := none }

/-- One mesh with five visible instances. -/
def fiveInstances : Mesh × List MeshInstance :=
  (mesh 1, List.replicate 5 (meshInstance true))

/-- One mesh with two visible instances. -/
def twoInstances : Mesh × List MeshInstance :=
  (mesh 1, List.replicate 2 (meshInstance true))

/-- A model of three meshes with materials 1, 1 and 2, one visible instance each. -/
def threeMeshes : Model :=
  { meshes := [(mesh 1, [meshInstance true]), (mesh 1, [meshInstance true]),
               (mesh 2, [meshInstance true])]
    hasBones := false
    boneCount := 0
    boneMatrices := []
    boneInvTransposeMatrices := [] }

/-- Working data inside the frame, at the model `threeMeshes`, with every buffer bound. -/
def atThreeMeshes : CurrentWorkingData :=
  { pVars := allBuffers, pCamera := none, pMaterial := none, pModel := some threeMeshes,
    drawID := 0 }

/-- A scene without models and with seventeen lights, one more than `ext.maxLightSources`. -/
def seventeenLights : Scene :=
  { models := [], lights := List.range 17, ambientIntensity := fun _ => 0,
    activeCamera := none }

/-- A renderer state with resolved offsets, except that the shader declares no light array. -/
def resolvedNoLightArray : RendererState :=
  { offsets := { resolvedOffsets with sLightArrayOffset := kInvalidOffset }
    mpLastMaterial := none }

/-- A camera that culls nothing. -/
def openCamera : Camera := { isObjectCulled := fun _ => false }

/-- A model with two bones and no mesh. -/
def skinnedModel : Model :=
  { meshes := [], hasBones := true, boneCount := 2, boneMatrices := [1, 1],
    boneInvTransposeMatrices := [1, 1] }

/-- Working data inside the frame, at the model `skinnedModel`, with every buffer bound. -/
def atSkinnedModel : CurrentWorkingData :=
  { pVars := allBuffers, pCamera := none, pMaterial := none, pModel := some skinnedModel,
    drawID := 0 }

/-- A model of one mesh with five visible instances. -/
def fiveInstanceModel : Model :=
  { meshes := [fiveInstances], hasBones := false, boneCount := 0, boneMatrices := [],
    boneInvTransposeMatrices := [] }

/-- A scene of one model, placed once, with one mesh and five instances. -/
def fiveInstanceScene : Scene :=
  { models := [(fiveInstanceModel, [modelInstance])], lights := [],
    ambientIntensity := fun _ => 0, activeCamera := none }

/-- A render context whose program declares both buffers and binds none. -/
def plainContext : RenderContext :=
  { graphicsVars := { reflection := fullReflection, getConstantBuffer := fun _ => none } }

/-- A render context whose program declares both buffers and binds every named buffer. -/
def boundContext : RenderContext :=
  { graphicsVars :=
      { reflection := fullReflection, getConstantBuffer := allBuffers.getConstantBuffer } }

end Sample


theorem det3_eq_det (m : Mat3) : det3 m = m.det := by
  rw [Matrix.det_fin_three]
  unfold det3
  ring

theorem inverse_mul_self (m : Mat3) (h : det3 m ≠ 0) : inverse m * m = 1 := by
  ext i j
  fin_cases i <;> fin_cases j <;>
    simp [inverse, Matrix.mul_apply, Fin.sum_univ_three] <;>
    field_simp <;>
    (try simp only [det3]) <;>
    ring

theorem inverse_eq_inv (m : Mat3) (h : det3 m ≠ 0) : inverse m = m⁻¹ :=
  (Matrix.inv_eq_left_inv (inverse_mul_self m h)).symm

/-! ### Results of the basic calls -/

@[simp] theorem pure_apply {α : Type} (a : α) (s : RendererState) :
    (pure a : Exec α) s = { events := [], state := s, value := some a } := rfl

@[simp] theorem bind_apply {α β : Type} (m : Exec α) (f : α → Exec β) (s : RendererState) :
    (m >>= f) s = (m s).andThen f := rfl

@[simp] theorem andThen_some {α β : Type} (ev : List Event) (s : RendererState) (a : α)
    (f : α → Exec β) :
    Res.andThen { events := ev, state := s, value := some a } f =
      { events := ev ++ (f a s).events, state := (f a s).state, value := (f a s).value } := rfl

@[simp] theorem andThen_none {α β : Type} (ev : List Event) (s : RendererState)
    (f : α → Exec β) :
    Res.andThen ({ events := ev, state := s, value := none } : Res α) f =
      { events := ev, state := s, value := none } := rfl

theorem andThen_of_none {α β : Type} (r : Res α) (f : α → Exec β) (h : r.value = none) :
    r.andThen f = { events := r.events, state := r.state, value := none } := by
  unfold Res.andThen
  rw [h]

theorem andThen_of_some {α β : Type} (r : Res α) (f : α → Exec β) (a : α)
    (h : r.value = some a) :
    r.andThen f =
      { events := r.events ++ (f a r.state).events, state := (f a r.state).state,
        value := (f a r.state).value } := by
  unfold Res.andThen
  rw [h]

@[simp] theorem emit_apply (e : Event) (s : RendererState) :
    emit e s = { events := [e], state := s, value := some () } := rfl

@[simp] theorem fatal_apply {α : Type} (s : RendererState) :
    (fatal : Exec α) s = { events := [], state := s, value := none } := rfl

@[simp] theorem getState_apply (s : RendererState) :
    getState s = { events := [], state := s, value := some s } := rfl

@[simp] theorem modifyOffsets_apply (f : Offsets → Offsets) (s : RendererState) :
    modifyOffsets f s =
      { events := [], state := { s with offsets := f s.offsets }, value := some () } := rfl

@[simp] theorem setLastMaterial_apply (m : Option Nat) (s : RendererState) :
    setLastMaterial m s =
      { events := [], state := { s with mpLastMaterial := m }, value := some () } := rfl

@[simp] theorem assertThat_true : assertThat true = pure () := rfl

@[simp] theorem assertThat_false : assertThat false = fatal := rfl

/-- The result of `setPerMeshInstanceData`, in closed form. -/
theorem setPerMeshInstanceData_eq (cwd : CurrentWorkingData) (mi : ModelInstance)
    (inst : MeshInstance) (slot : Nat) (s : RendererState) :
    setPerMeshInstanceData cwd mi inst slot s =
      { events := Event.perMeshInstanceData cwd.drawID mi inst slot ::
          (if packOk cwd slot s then packEvents cwd mi inst slot s else [])
        state := s
        value := if packOk cwd slot s then some true else none } := by
  unfold setPerMeshInstanceData packOk slotOk packEvents
  cases h : cwd.pVars.getConstantBuffer kPerMeshCbName with
  | none => simp
  | some cb =>
    by_cases h0 : slot = 0
    · subst h0
      by_cases h1 : 0 < s.offsets.sWorldMatArraySize
      · have hd : decide (0 < s.offsets.sWorldMatArraySize) = true := by simpa using h1
        simp [hd, packWrites, worldMatOf, prevWorldMatOf]
      · have hd : decide (0 < s.offsets.sWorldMatArraySize) = false := by simpa using h1
        simp [hd]
    · have hb : (slot == 0) = false := by simpa using h0
      simp [hb]

/-- The result of `draw`, in closed form. -/
theorem draw_eq (cfg : Settings) (cwd : CurrentWorkingData) (pMesh : Mesh) (n : Nat)
    (s : RendererState) :
    draw cfg cwd pMesh n s =
      { events := drawEvents cfg s.mpLastMaterial pMesh n
        state := { s with mpLastMaterial := some pMesh.material }
        value := some { cwd with pMaterial := some pMesh.material } } := by
  unfold draw drawEvents drawSubmit executeDraw postFlushDraw setPerMaterialData
  by_cases h : s.mpLastMaterial = some pMesh.material
  · simp [h]
    cases s
    simp_all
  · by_cases hc : cfg.mCompileMaterialWithProgram = true
    · simp [h, hc]
    · simp [h, hc]

/-- The result of the instance-loop body, in closed form: a null camera under culling ends the
call; a rejected instance changes nothing; an accepted one is packed, which may end the call,
then counted, and the batch is drawn when it reaches `mMaxInstanceCount`. -/
theorem body_eq (cfg : Settings) (ext : Externals) (mi : ModelInstance) (pMesh : Mesh)
    (inst : MeshInstance) (a : Nat) (cwd : CurrentWorkingData) (s : RendererState) :
    renderMeshInstances.body cfg ext mi pMesh inst a cwd s =
      if cfg.mCullEnabled = true ∧ cwd.pCamera.isNone = true then
        { events := [], state := s, value := none }
      else if accepts cfg ext cwd.pCamera mi inst = false then
        { events := [], state := s, value := some (a, cwd) }
      else if packOk cwd a s = false then
        { events := [Event.perMeshInstanceData cwd.drawID mi inst a], state := s, value := none }
      else if a + 1 = cfg.mMaxInstanceCount then
        { events := Event.perMeshInstanceData cwd.drawID mi inst a ::
            (packEvents cwd mi inst a s ++ drawEvents cfg s.mpLastMaterial pMesh (a + 1))
          state := { s with mpLastMaterial := some pMesh.material }
          value := some (0, { cwd with drawID := cwd.drawID + 1,
                                       pMaterial := some pMesh.material }) }
      else
        { events := Event.perMeshInstanceData cwd.drawID mi inst a :: packEvents cwd mi inst a s
          state := s
          value := some (a + 1, { cwd with drawID := cwd.drawID + 1 }) } := by
  unfold renderMeshInstances.body passesCulling accepts
  by_cases hc : cfg.mCullEnabled = true
  · cases hcam : cwd.pCamera with
    | none => simp [hc]
    | some cam =>
      by_cases hq : cam.isObjectCulled (ext.transformBox inst.boundingBox mi.transformMatrix) = true
      · simp [hc, hq]
      · by_cases hv : inst.visible = true
        · by_cases hp : packOk cwd a s = true
          · by_cases hm : a + 1 = cfg.mMaxInstanceCount
            · simp [hc, hq, hv, hp, hm, setPerMeshInstanceData_eq, draw_eq]
            · simp [hc, hq, hv, hp, hm, setPerMeshInstanceData_eq, draw_eq]
          · simp [hc, hq, hv, hp, setPerMeshInstanceData_eq]
        · simp [hc, hq, hv]
  · by_cases hv : inst.visible = true
    · by_cases hp : packOk cwd a s = true
      · by_cases hm : a + 1 = cfg.mMaxInstanceCount
        · simp [hc, hv, hp, hm, setPerMeshInstanceData_eq, draw_eq]
        · simp [hc, hv, hp, hm, setPerMeshInstanceData_eq, draw_eq]
      · simp [hc, hv, hp, setPerMeshInstanceData_eq]
    · simp [hc, hv]

/-! ### Observations on the events of the basic calls -/

@[simp] theorem drawCounts_nil : drawCounts [] = [] := rfl

@[simp] theorem drawMaterials_nil : drawMaterials [] = [] := rfl

@[simp] theorem boundMaterials_nil : boundMaterials [] = [] := rfl

@[simp] theorem packedInstances_nil : packedInstances [] = [] := rfl

@[simp] theorem drawCounts_append (a b : List Event) :
    drawCounts (a ++ b) = drawCounts a ++ drawCounts b := by
  simp [drawCounts]

@[simp] theorem drawMaterials_append (a b : List Event) :
    drawMaterials (a ++ b) = drawMaterials a ++ drawMaterials b := by
  simp [drawMaterials]

@[simp] theorem boundMaterials_append (a b : List Event) :
    boundMaterials (a ++ b) = boundMaterials a ++ boundMaterials b := by
  simp [boundMaterials]

@[simp] theorem packedInstances_append (a b : List Event) :
    packedInstances (a ++ b) = packedInstances a ++ packedInstances b := by
  simp [packedInstances]

@[simp] theorem drawCounts_entry (d : Nat) (mi : ModelInstance) (inst : MeshInstance) (slot : Nat)
    (evs : List Event) :
    drawCounts (Event.perMeshInstanceData d mi inst slot :: evs) = drawCounts evs := by
  simp [drawCounts]

@[simp] theorem drawMaterials_entry (d : Nat) (mi : ModelInstance) (inst : MeshInstance)
    (slot : Nat) (evs : List Event) :
    drawMaterials (Event.perMeshInstanceData d mi inst slot :: evs) = drawMaterials evs := by
  simp [drawMaterials]

@[simp] theorem boundMaterials_entry (d : Nat) (mi : ModelInstance) (inst : MeshInstance)
    (slot : Nat) (evs : List Event) :
    boundMaterials (Event.perMeshInstanceData d mi inst slot :: evs) = boundMaterials evs := by
  simp [boundMaterials]

@[simp] theorem packedInstances_entry (d : Nat) (mi : ModelInstance) (inst : MeshInstance)
    (slot : Nat) (evs : List Event) :
    packedInstances (Event.perMeshInstanceData d mi inst slot :: evs)
      = (d, mi, inst) :: packedInstances evs := by
  simp [packedInstances]

@[simp] theorem drawCounts_packEvents (cwd : CurrentWorkingData) (mi : ModelInstance)
    (inst : MeshInstance) (slot : Nat) (s : RendererState) :
    drawCounts (packEvents cwd mi inst slot s) = [] := by
  unfold packEvents
  split <;> simp [drawCounts, packWrites]

@[simp] theorem drawMaterials_packEvents (cwd : CurrentWorkingData) (mi : ModelInstance)
    (inst : MeshInstance) (slot : Nat) (s : RendererState) :
    drawMaterials (packEvents cwd mi inst slot s) = [] := by
  unfold packEvents
  split <;> simp [drawMaterials, packWrites]

@[simp] theorem boundMaterials_packEvents (cwd : CurrentWorkingData) (mi : ModelInstance)
    (inst : MeshInstance) (slot : Nat) (s : RendererState) :
    boundMaterials (packEvents cwd mi inst slot s) = [] := by
  unfold packEvents
  split <;> simp [boundMaterials, packWrites]

@[simp] theorem packedInstances_packEvents (cwd : CurrentWorkingData) (mi : ModelInstance)
    (inst : MeshInstance) (slot : Nat) (s : RendererState) :
    packedInstances (packEvents cwd mi inst slot s) = [] := by
  unfold packEvents
  split <;> simp [packedInstances, packWrites]

@[simp] theorem drawCounts_drawEvents (cfg : Settings) (last : Option Nat) (pMesh : Mesh)
    (n : Nat) : drawCounts (drawEvents cfg last pMesh n) = [n] := by
  unfold drawEvents
  split <;> [split; skip] <;> simp [drawCounts]

@[simp] theorem drawMaterials_drawEvents (cfg : Settings) (last : Option Nat) (pMesh : Mesh)
    (n : Nat) : drawMaterials (drawEvents cfg last pMesh n) = [some pMesh.material] := by
  unfold drawEvents
  split <;> [split; skip] <;> simp [drawMaterials]

@[simp] theorem packedInstances_drawEvents (cfg : Settings) (last : Option Nat) (pMesh : Mesh)
    (n : Nat) : packedInstances (drawEvents cfg last pMesh n) = [] := by
  unfold drawEvents
  split <;> [split; skip] <;> simp [packedInstances]

theorem boundMaterials_drawEvents (cfg : Settings) (last : Option Nat) (pMesh : Mesh)
    (n : Nat) :
    boundMaterials (drawEvents cfg last pMesh n)
      = if last ≠ some pMesh.material then [pMesh.material] else [] := by
  unfold drawEvents
  split <;> [split; skip] <;> simp [boundMaterials]

/-! ### Material binds against draws -/

theorem bindsFrom_append (last : Option Nat) (a b : List (Option Nat)) :
    bindsFrom last (a ++ b) = bindsFrom last a ++ bindsFrom (lastFrom last a) b := by
  induction a generalizing last with
  | nil => simp [bindsFrom, lastFrom]
  | cons m rest ih =>
    simp only [List.cons_append, bindsFrom, lastFrom]
    split <;> simp [ih]

theorem lastFrom_append (last : Option Nat) (a b : List (Option Nat)) :
    lastFrom last (a ++ b) = lastFrom (lastFrom last a) b := by
  induction a generalizing last with
  | nil => simp [lastFrom]
  | cons m rest ih => simp [lastFrom, ih]

theorem destutter_eq_bindsFrom (a : Option Nat) (l : List (Option Nat)) :
    List.destutter' (· ≠ ·) a l = a :: bindsFrom a l := by
  induction l generalizing a with
  | nil => simp [bindsFrom]
  | cons h t ih =>
    by_cases hah : a = h
    · subst hah
      simp [List.destutter', bindsFrom, ih]
    · simp [List.destutter', bindsFrom, hah, ih]

theorem bindsFrom_none (l : List (Option Nat)) (h : ∀ m ∈ l, m ≠ none) :
    bindsFrom none l = List.destutter (· ≠ ·) l := by
  cases l with
  | nil => simp [bindsFrom]
  | cons x t =>
    have hx : x ≠ none := h x (by simp)
    have hx2 : ¬ none = x := fun e => hx e.symm
    simp [List.destutter, bindsFrom, hx2, destutter_eq_bindsFrom]

/-! ### Sequencing lemmas for the invariants -/

theorem numbered_append {α : Type} (d : Nat) (a b : List α) :
    numbered d (a ++ b) = numbered d a ++ numbered (d + a.length) b := by
  induction a generalizing d with
  | nil => simp [numbered]
  | cons x xs ih =>
    have e : d + 1 + xs.length = d + (xs.length + 1) := by omega
    show (d, x) :: numbered (d + 1) (xs ++ b)
      = (d, x) :: numbered (d + 1) xs ++ numbered (d + (xs.length + 1)) b
    rw [ih, e]
    rfl

theorem numbered_length {α : Type} (d : Nat) (a : List α) : (numbered d a).length = a.length := by
  induction a generalizing d with
  | nil => rfl
  | cons x xs ih => simp [numbered, ih]

theorem numbered_map_fst {α : Type} (d : Nat) (a : List α) :
    (numbered d a).map Prod.fst = List.range' d a.length := by
  induction a generalizing d with
  | nil => rfl
  | cons x xs ih => simp [numbered, ih, List.range'_succ]

theorem numbered_map_snd {α : Type} (d : Nat) (a : List α) :
    (numbered d a).map Prod.snd = a := by
  induction a generalizing d with
  | nil => rfl
  | cons x xs ih => simp [numbered, ih]

theorem materialInv_andThen {α β : Type} {s : RendererState} {r : Res α} {f : α → Exec β}
    (h1 : MaterialInv s r)
    (h2 : ∀ v, r.value = some v → MaterialInv r.state (f v r.state)) :
    MaterialInv s (r.andThen f) := by
  cases hv : r.value with
  | none =>
    rw [andThen_of_none r f hv]
    exact h1
  | some v =>
    rw [andThen_of_some r f v hv]
    obtain ⟨a1, b1, c1⟩ := h1
    obtain ⟨a2, b2, c2⟩ := h2 v hv
    refine ⟨?_, ?_, ?_⟩
    · simp only [boundMaterials_append, drawMaterials_append, List.map_append, bindsFrom_append]
      rw [a1, a2, b1]
    · simp only [drawMaterials_append, lastFrom_append]
      rw [b2, b1]
    · intro m hm
      simp only [drawMaterials_append, List.mem_append] at hm
      rcases hm with hm | hm
      · exact c1 m hm
      · exact c2 m hm

theorem numberedInv_andThen {α β : Type} {p1 : α → CurrentWorkingData}
    {p2 : β → CurrentWorkingData} {cwd : CurrentWorkingData}
    {L1 L2 : List (ModelInstance × MeshInstance)} {r : Res α} {f : α → Exec β}
    (h1 : NumberedInv p1 cwd L1 r)
    (h2 : ∀ v, r.value = some v → NumberedInv p2 (p1 v) L2 (f v r.state)) :
    NumberedInv p2 cwd (L1 ++ L2) (r.andThen f) := by
  cases hv : r.value with
  | none =>
    rw [andThen_of_none r f hv]
    refine ⟨?_, ?_⟩
    · rw [numbered_append]
      exact h1.1.trans (List.prefix_append _ _)
    · intro v hv2
      simp at hv2
  | some v =>
    rw [andThen_of_some r f v hv]
    obtain ⟨e1, d1, v1, c1⟩ := h1.2 v hv
    obtain ⟨q2, k2⟩ := h2 v hv
    refine ⟨?_, ?_⟩
    · simp only [packedInstances_append, numbered_append]
      rw [e1, ← d1]
      exact (List.prefix_append_right_inj _).mpr q2
    · intro w hw
      obtain ⟨e2, d2, v2, c2⟩ := k2 w hw
      refine ⟨?_, ?_, ?_, ?_⟩
      · simp only [packedInstances_append, numbered_append]
        rw [e1, e2, d1]
      · rw [d2, d1, List.length_append]
        omega
      · rw [v2, v1]
      · rw [c2, c1]


/-! ### The instance loop: what holds of every run, fatal or not -/

theorem loop_cons (cfg : Settings) (ext : Externals) (mi : ModelInstance) (pMesh : Mesh)
    (inst : MeshInstance) (rest : List MeshInstance) (a : Nat) (cwd : CurrentWorkingData)
    (s : RendererState) :
    renderMeshInstances.loop cfg ext mi pMesh (inst :: rest) a cwd s =
      (renderMeshInstances.body cfg ext mi pMesh inst a cwd s).andThen
        (fun r => renderMeshInstances.loop cfg ext mi pMesh rest r.1 r.2) := rfl

theorem body_numbered (cfg : Settings) (ext : Externals) (mi : ModelInstance) (pMesh : Mesh)
    (inst : MeshInstance) (a : Nat) (cwd : CurrentWorkingData) (s : RendererState) :
    NumberedInv (fun v : Nat × CurrentWorkingData => v.2) cwd
      (if accepts cfg ext cwd.pCamera mi inst = true then [(mi, inst)] else [])
      (renderMeshInstances.body cfg ext mi pMesh inst a cwd s) := by
  rw [body_eq]
  unfold NumberedInv
  split_ifs <;> simp_all [numbered]

theorem body_material (cfg : Settings) (ext : Externals) (mi : ModelInstance) (pMesh : Mesh)
    (inst : MeshInstance) (a : Nat) (cwd : CurrentWorkingData) (s : RendererState) :
    MaterialInv s (renderMeshInstances.body cfg ext mi pMesh inst a cwd s) := by
  rw [body_eq]
  unfold MaterialInv
  split_ifs <;> simp [bindsFrom, lastFrom, boundMaterials_drawEvents]
  split <;> simp_all

theorem loop_numbered (cfg : Settings) (ext : Externals) (mi : ModelInstance) (pMesh : Mesh)
    (insts : List MeshInstance) (a : Nat) (cwd : CurrentWorkingData) (s : RendererState) :
    NumberedInv (fun v : Nat × CurrentWorkingData => v.2) cwd
      (acceptedOfMesh cfg ext cwd.pCamera mi insts)
      (renderMeshInstances.loop cfg ext mi pMesh insts a cwd s) := by
  induction insts generalizing a cwd s with
  | nil => simp [renderMeshInstances.loop, NumberedInv, acceptedOfMesh, numbered]
  | cons inst rest ih =>
    rw [loop_cons]
    have hb := body_numbered cfg ext mi pMesh inst a cwd s
    have hL : acceptedOfMesh cfg ext cwd.pCamera mi (inst :: rest)
        = (if accepts cfg ext cwd.pCamera mi inst = true then [(mi, inst)] else [])
          ++ acceptedOfMesh cfg ext cwd.pCamera mi rest := by
      unfold acceptedOfMesh
      by_cases h : accepts cfg ext cwd.pCamera mi inst = true <;> simp [List.filter_cons, h]
    rw [hL]
    refine numberedInv_andThen hb ?_
    intro v hv
    have hcam : v.2.pCamera = cwd.pCamera := (hb.2 v hv).2.2.2
    have := ih v.1 v.2 (renderMeshInstances.body cfg ext mi pMesh inst a cwd s).state
    rw [hcam] at this
    exact this

theorem loop_material (cfg : Settings) (ext : Externals) (mi : ModelInstance) (pMesh : Mesh)
    (insts : List MeshInstance) (a : Nat) (cwd : CurrentWorkingData) (s : RendererState) :
    MaterialInv s (renderMeshInstances.loop cfg ext mi pMesh insts a cwd s) := by
  induction insts generalizing a cwd s with
  | nil => simp [renderMeshInstances.loop, MaterialInv, bindsFrom, lastFrom]
  | cons inst rest ih =>
    rw [loop_cons]
    exact materialInv_andThen (body_material cfg ext mi pMesh inst a cwd s)
      (fun v _ => ih v.1 v.2 _)

theorem body_count (cfg : Settings) (ext : Externals) (mi : ModelInstance) (pMesh : Mesh)
    (inst : MeshInstance) (a : Nat) (cwd : CurrentWorkingData) (s : RendererState) :
    (drawCounts (renderMeshInstances.body cfg ext mi pMesh inst a cwd s).events).sum
        + pendingOf (renderMeshInstances.body cfg ext mi pMesh inst a cwd s)
      ≤ a + (packedInstances (renderMeshInstances.body cfg ext mi pMesh inst a cwd s).events).length
    ∧ ((renderMeshInstances.body cfg ext mi pMesh inst a cwd s).value.isSome = true →
      (drawCounts (renderMeshInstances.body cfg ext mi pMesh inst a cwd s).events).sum
        + pendingOf (renderMeshInstances.body cfg ext mi pMesh inst a cwd s)
      = a + (packedInstances (renderMeshInstances.body cfg ext mi pMesh inst a cwd s).events).length)
    := by
  rw [body_eq]
  unfold pendingOf
  split_ifs <;> simp

theorem loop_count (cfg : Settings) (ext : Externals) (mi : ModelInstance) (pMesh : Mesh)
    (insts : List MeshInstance) (a : Nat) (cwd : CurrentWorkingData) (s : RendererState) :
    (drawCounts (renderMeshInstances.loop cfg ext mi pMesh insts a cwd s).events).sum
        + pendingOf (renderMeshInstances.loop cfg ext mi pMesh insts a cwd s)
      ≤ a + (packedInstances (renderMeshInstances.loop cfg ext mi pMesh insts a cwd s).events).length
    ∧ ((renderMeshInstances.loop cfg ext mi pMesh insts a cwd s).value.isSome = true →
      (drawCounts (renderMeshInstances.loop cfg ext mi pMesh insts a cwd s).events).sum
        + pendingOf (renderMeshInstances.loop cfg ext mi pMesh insts a cwd s)
      = a + (packedInstances (renderMeshInstances.loop cfg ext mi pMesh insts a cwd s).events).length)
    := by
  induction insts generalizing a cwd s with
  | nil => simp [renderMeshInstances.loop, pendingOf]
  | cons inst rest ih =>
    rw [loop_cons]
    obtain ⟨hb, hbe⟩ := body_count cfg ext mi pMesh inst a cwd s
    cases hv : (renderMeshInstances.body cfg ext mi pMesh inst a cwd s).value with
    | none =>
      rw [andThen_of_none _ _ hv]
      simp only [pendingOf, hv] at hb ⊢
      exact ⟨hb, by simp⟩
    | some v =>
      rw [andThen_of_some _ _ v hv]
      obtain ⟨hl, hle⟩ := ih v.1 v.2 (renderMeshInstances.body cfg ext mi pMesh inst a cwd s).state
      simp only [pendingOf, hv, Option.isSome_some, forall_const] at hb hbe
      simp only [pendingOf] at hl hle ⊢
      simp only [drawCounts_append, packedInstances_append, List.sum_append, List.length_append]
      refine ⟨by omega, ?_⟩
      intro h
      have := hle h
      omega

/-! ### `renderMeshInstances` in terms of its loop -/

theorem renderMeshInstances_of_none (cfg : Settings) (ext : Externals)
    (cwd : CurrentWorkingData) (mi : ModelInstance) (mesh : Mesh × List MeshInstance)
    (s : RendererState)
    (h : (renderMeshInstances.loop cfg ext mi mesh.1 mesh.2 0 cwd s).value = none) :
    renderMeshInstances cfg ext cwd mi mesh s =
      { events := meshPrologue mesh.1
          ++ (renderMeshInstances.loop cfg ext mi mesh.1 mesh.2 0 cwd s).events
        state := (renderMeshInstances.loop cfg ext mi mesh.1 mesh.2 0 cwd s).state
        value := none } := by
  unfold renderMeshInstances setPerMeshData meshPrologue
  by_cases hb : mesh.1.hasBones = true
  · simp [hb, andThen_of_none _ _ h]
  · simp [hb, andThen_of_none _ _ h]

theorem renderMeshInstances_of_some (cfg : Settings) (ext : Externals)
    (cwd : CurrentWorkingData) (mi : ModelInstance) (mesh : Mesh × List MeshInstance)
    (s : RendererState) (v : Nat × CurrentWorkingData)
    (h : (renderMeshInstances.loop cfg ext mi mesh.1 mesh.2 0 cwd s).value = some v) :
    renderMeshInstances cfg ext cwd mi mesh s =
      { events := meshPrologue mesh.1
          ++ ((renderMeshInstances.loop cfg ext mi mesh.1 mesh.2 0 cwd s).events
          ++ ((if v.1 ≠ 0 then
                drawEvents cfg
                  (renderMeshInstances.loop cfg ext mi mesh.1 mesh.2 0 cwd s).state.mpLastMaterial
                  mesh.1 v.1
              else [])
          ++ meshEpilogue mesh.1))
        state :=
          if v.1 ≠ 0 then
            { (renderMeshInstances.loop cfg ext mi mesh.1 mesh.2 0 cwd s).state with
              mpLastMaterial := some mesh.1.material }
          else (renderMeshInstances.loop cfg ext mi mesh.1 mesh.2 0 cwd s).state
        value :=
          some (if v.1 ≠ 0 then { v.2 with pMaterial := some mesh.1.material } else v.2) } := by
  unfold renderMeshInstances setPerMeshData meshPrologue meshEpilogue
  by_cases hb : mesh.1.hasBones = true
  · by_cases hz : v.1 = 0
    · simp [hb, hz, andThen_of_some _ _ v h]
    · simp [hb, hz, andThen_of_some _ _ v h, draw_eq]
  · by_cases hz : v.1 = 0
    · simp [hb, hz, andThen_of_some _ _ v h]
    · simp [hb, hz, andThen_of_some _ _ v h, draw_eq]

/-! ### The instance loop when no packing call is a violation -/

theorem acceptedOfMesh_cons_true (cfg : Settings) (ext : Externals) (cam : Option Camera)
    (mi : ModelInstance) (inst : MeshInstance) (rest : List MeshInstance)
    (h : accepts cfg ext cam mi inst = true) :
    acceptedOfMesh cfg ext cam mi (inst :: rest)
      = (mi, inst) :: acceptedOfMesh cfg ext cam mi rest := by
  simp [acceptedOfMesh, List.filter_cons, h]

theorem acceptedOfMesh_cons_false (cfg : Settings) (ext : Externals) (cam : Option Camera)
    (mi : ModelInstance) (inst : MeshInstance) (rest : List MeshInstance)
    (h : ¬ accepts cfg ext cam mi inst = true) :
    acceptedOfMesh cfg ext cam mi (inst :: rest) = acceptedOfMesh cfg ext cam mi rest := by
  simp [acceptedOfMesh, List.filter_cons, h]

theorem loop_ok (cfg : Settings) (ext : Externals) (mi : ModelInstance) (pMesh : Mesh)
    (vars : GraphicsVars) (cap : Nat) (cam : Option Camera)
    (insts : List MeshInstance) (a : Nat) (cwd : CurrentWorkingData) (s : RendererState)
    (hvars : cwd.pVars = vars) (hcap : s.offsets.sWorldMatArraySize = cap)
    (hcamEq : cwd.pCamera = cam)
    (hmax : a < cfg.mMaxInstanceCount)
    (hcam : cfg.mCullEnabled = true → cam.isSome = true)
    (hslots : ∀ k, k < (acceptedOfMesh cfg ext cam mi insts).length →
      slotOk vars cap ((a + k) % cfg.mMaxInstanceCount) = true) :
    (∃ cwd2, (renderMeshInstances.loop cfg ext mi pMesh insts a cwd s).value
        = some ((a + (acceptedOfMesh cfg ext cam mi insts).length)
                  % cfg.mMaxInstanceCount, cwd2))
      ∧ drawCounts (renderMeshInstances.loop cfg ext mi pMesh insts a cwd s).events
          = List.replicate
              ((a + (acceptedOfMesh cfg ext cam mi insts).length) / cfg.mMaxInstanceCount)
              cfg.mMaxInstanceCount
      ∧ drawMaterials (renderMeshInstances.loop cfg ext mi pMesh insts a cwd s).events
          = List.replicate
              ((a + (acceptedOfMesh cfg ext cam mi insts).length) / cfg.mMaxInstanceCount)
              (some pMesh.material)
      ∧ (renderMeshInstances.loop cfg ext mi pMesh insts a cwd s).state.offsets = s.offsets := by
  induction insts generalizing a cwd s with
  | nil =>
    simp [renderMeshInstances.loop, acceptedOfMesh, Nat.mod_eq_of_lt hmax,
      Nat.div_eq_of_lt hmax]
  | cons inst rest ih =>
    rw [loop_cons, body_eq]
    have hne : ¬ (cfg.mCullEnabled = true ∧ cwd.pCamera.isNone = true) := by
      rintro ⟨hc, hn⟩
      have := hcam hc
      rw [hcamEq] at hn
      cases cam <;> simp_all
    by_cases hacc : accepts cfg ext cam mi inst = true
    · rw [acceptedOfMesh_cons_true _ _ _ _ _ _ hacc] at hslots ⊢
      have hp : packOk cwd a s = true := by
        have := hslots 0 (by simp)
        unfold packOk
        rw [hvars, hcap]
        simpa [Nat.mod_eq_of_lt hmax] using this
      by_cases hm : a + 1 = cfg.mMaxInstanceCount
      · have h0 : 0 < cfg.mMaxInstanceCount := by omega
        have hi := ih 0
          { cwd with drawID := cwd.drawID + 1, pMaterial := some pMesh.material }
          { s with mpLastMaterial := some pMesh.material } hvars hcap hcamEq h0
          (by
            intro k hk
            have := hslots (k + 1) (by simpa using hk)
            have e : (a + (k + 1)) % cfg.mMaxInstanceCount = (0 + k) % cfg.mMaxInstanceCount := by
              have : a + (k + 1) = k + cfg.mMaxInstanceCount := by omega
              rw [this, Nat.add_mod_right, Nat.zero_add]
            rw [e] at this
            exact this)
        obtain ⟨⟨cwd2, hv⟩, hd, hmats, ho⟩ := hi
        have emod : (a + ((acceptedOfMesh cfg ext cam mi rest).length + 1))
              % cfg.mMaxInstanceCount
            = (0 + (acceptedOfMesh cfg ext cam mi rest).length) % cfg.mMaxInstanceCount := by
          have : a + ((acceptedOfMesh cfg ext cam mi rest).length + 1)
              = (acceptedOfMesh cfg ext cam mi rest).length + cfg.mMaxInstanceCount := by omega
          rw [this, Nat.add_mod_right, Nat.zero_add]
        have ediv : (a + ((acceptedOfMesh cfg ext cam mi rest).length + 1))
              / cfg.mMaxInstanceCount
            = (0 + (acceptedOfMesh cfg ext cam mi rest).length) / cfg.mMaxInstanceCount + 1 := by
          have : a + ((acceptedOfMesh cfg ext cam mi rest).length + 1)
              = (acceptedOfMesh cfg ext cam mi rest).length + cfg.mMaxInstanceCount := by omega
          rw [this, Nat.add_div_right _ h0, Nat.zero_add]
        rw [← hcamEq] at hacc
        simp only [hne, hacc, hp, hm, if_false, if_true, andThen_some, List.length_cons,
          Bool.true_eq_false, List.cons_append, drawCounts_entry, drawCounts_append,
          drawCounts_packEvents, drawCounts_drawEvents, drawMaterials_entry,
          drawMaterials_append, drawMaterials_packEvents, drawMaterials_drawEvents,
          List.nil_append, List.singleton_append, emod, ediv, List.replicate_succ]
        exact ⟨⟨cwd2, hv⟩, by rw [hd], by rw [hmats], ho⟩
      · have h1 : a + 1 < cfg.mMaxInstanceCount := by omega
        have hi := ih (a + 1) { cwd with drawID := cwd.drawID + 1 } s hvars hcap hcamEq h1
          (by
            intro k hk
            have := hslots (k + 1) (by simpa using hk)
            have e : a + (k + 1) = a + 1 + k := by omega
            rw [e] at this
            exact this)
        obtain ⟨⟨cwd2, hv⟩, hd, hmats, ho⟩ := hi
        have e : a + ((acceptedOfMesh cfg ext cam mi rest).length + 1)
            = a + 1 + (acceptedOfMesh cfg ext cam mi rest).length := by omega
        rw [← hcamEq] at hacc
        simp only [hne, hacc, hp, hm, if_false, if_true, andThen_some, List.length_cons,
          Bool.true_eq_false, List.cons_append, drawCounts_entry, drawCounts_append,
          drawCounts_packEvents, drawMaterials_entry,
          drawMaterials_append, drawMaterials_packEvents, List.nil_append, e]
        exact ⟨⟨cwd2, hv⟩, hd, hmats, ho⟩
    · rw [acceptedOfMesh_cons_false _ _ _ _ _ _ hacc] at hslots ⊢
      have hi := ih a cwd s hvars hcap hcamEq hmax hslots
      rw [← hcamEq] at hacc
      have hacc2 : accepts cfg ext cwd.pCamera mi inst = false := by
        simpa using hacc
      simp only [hne, hacc2, if_false, if_true, andThen_some, List.nil_append]
      exact hi

/-! ### `renderMeshInstances`: invariants and the successful run -/

@[simp] theorem drawCounts_meshPrologue (pMesh : Mesh) : drawCounts (meshPrologue pMesh) = [] := by
  unfold meshPrologue
  split <;> simp [drawCounts]

@[simp] theorem drawMaterials_meshPrologue (pMesh : Mesh) :
    drawMaterials (meshPrologue pMesh) = [] := by
  unfold meshPrologue
  split <;> simp [drawMaterials]

@[simp] theorem boundMaterials_meshPrologue (pMesh : Mesh) :
    boundMaterials (meshPrologue pMesh) = [] := by
  unfold meshPrologue
  split <;> simp [boundMaterials]

@[simp] theorem packedInstances_meshPrologue (pMesh : Mesh) :
    packedInstances (meshPrologue pMesh) = [] := by
  unfold meshPrologue
  split <;> simp [packedInstances]

@[simp] theorem drawCounts_meshEpilogue (pMesh : Mesh) : drawCounts (meshEpilogue pMesh) = [] := by
  unfold meshEpilogue
  split <;> simp [drawCounts]

@[simp] theorem drawMaterials_meshEpilogue (pMesh : Mesh) :
    drawMaterials (meshEpilogue pMesh) = [] := by
  unfold meshEpilogue
  split <;> simp [drawMaterials]

@[simp] theorem boundMaterials_meshEpilogue (pMesh : Mesh) :
    boundMaterials (meshEpilogue pMesh) = [] := by
  unfold meshEpilogue
  split <;> simp [boundMaterials]

@[simp] theorem packedInstances_meshEpilogue (pMesh : Mesh) :
    packedInstances (meshEpilogue pMesh) = [] := by
  unfold meshEpilogue
  split <;> simp [packedInstances]

theorem materialInv_of_quiet {α : Type} (s : RendererState) (r : Res α)
    (hd : drawMaterials r.events = []) (hb : boundMaterials r.events = [])
    (hs : r.state.mpLastMaterial = s.mpLastMaterial) : MaterialInv s r := by
  unfold MaterialInv
  simp [hd, hb, hs, bindsFrom, lastFrom]

theorem materialInv_append {α β : Type} (s : RendererState) (r1 : Res α) (r2 : Res β)
    (h1 : MaterialInv s r1) (h2 : MaterialInv r1.state r2) :
    MaterialInv s
      ({ events := r1.events ++ r2.events, state := r2.state, value := r2.value } : Res β) := by
  obtain ⟨a1, b1, c1⟩ := h1
  obtain ⟨a2, b2, c2⟩ := h2
  refine ⟨?_, ?_, ?_⟩
  · simp only [boundMaterials_append, drawMaterials_append, List.map_append, bindsFrom_append]
    rw [a1, a2, b1]
  · simp only [drawMaterials_append, lastFrom_append]
    rw [b2, b1]
  · intro m hm
    simp only [drawMaterials_append, List.mem_append] at hm
    rcases hm with hm | hm
    · exact c1 m hm
    · exact c2 m hm

theorem draw_material (cfg : Settings) (cwd : CurrentWorkingData) (pMesh : Mesh) (n : Nat)
    (s : RendererState) : MaterialInv s (draw cfg cwd pMesh n s) := by
  rw [draw_eq]
  unfold MaterialInv
  simp [bindsFrom, lastFrom, boundMaterials_drawEvents]
  split <;> simp_all

theorem renderMeshInstances_numbered (cfg : Settings) (ext : Externals)
    (cwd : CurrentWorkingData) (mi : ModelInstance) (mesh : Mesh × List MeshInstance)
    (s : RendererState) :
    NumberedInv (fun v : CurrentWorkingData => v) cwd
      (acceptedOfMesh cfg ext cwd.pCamera mi mesh.2)
      (renderMeshInstances cfg ext cwd mi mesh s) := by
  have hl := loop_numbered cfg ext mi mesh.1 mesh.2 0 cwd s
  cases hv : (renderMeshInstances.loop cfg ext mi mesh.1 mesh.2 0 cwd s).value with
  | none =>
    rw [renderMeshInstances_of_none cfg ext cwd mi mesh s hv]
    refine ⟨?_, ?_⟩
    · simpa using hl.1
    · intro v h
      simp at h
  | some v =>
    rw [renderMeshInstances_of_some cfg ext cwd mi mesh s v hv]
    obtain ⟨e1, d1, v1, c1⟩ := hl.2 v hv
    have hp : packedInstances
        (meshPrologue mesh.1 ++
          ((renderMeshInstances.loop cfg ext mi mesh.1 mesh.2 0 cwd s).events ++
            ((if v.1 ≠ 0 then
                drawEvents cfg
                  (renderMeshInstances.loop cfg ext mi mesh.1 mesh.2 0 cwd s).state.mpLastMaterial
                  mesh.1 v.1
              else []) ++ meshEpilogue mesh.1)))
        = packedInstances (renderMeshInstances.loop cfg ext mi mesh.1 mesh.2 0 cwd s).events := by
      split <;> simp
    refine ⟨?_, ?_⟩
    · show packedInstances _ <+: _
      rw [hp]
      exact hl.1
    · intro w hw
      simp only [Option.some.injEq] at hw
      subst hw
      refine ⟨?_, ?_, ?_, ?_⟩
      · show packedInstances _ = _
        rw [hp]
        exact e1
      · split <;> simpa using d1
      · split <;> simpa using v1
      · split <;> simpa using c1

theorem renderMeshInstances_material (cfg : Settings) (ext : Externals)
    (cwd : CurrentWorkingData) (mi : ModelInstance) (mesh : Mesh × List MeshInstance)
    (s : RendererState) :
    MaterialInv s (renderMeshInstances cfg ext cwd mi mesh s) := by
  have hl := loop_material cfg ext mi mesh.1 mesh.2 0 cwd s
  cases hv : (renderMeshInstances.loop cfg ext mi mesh.1 mesh.2 0 cwd s).value with
  | none =>
    rw [renderMeshInstances_of_none cfg ext cwd mi mesh s hv]
    obtain ⟨a1, b1, c1⟩ := hl
    refine ⟨?_, ?_, ?_⟩
    · simpa using a1
    · simpa using b1
    · simpa using c1
  | some v =>
    rw [renderMeshInstances_of_some cfg ext cwd mi mesh s v hv]
    by_cases hz : v.1 = 0
    · obtain ⟨a1, b1, c1⟩ := hl
      refine ⟨?_, ?_, ?_⟩
      · simpa [hz] using a1
      · simpa [hz] using b1
      · simpa [hz] using c1
    · have hdraw := draw_material cfg v.2 mesh.1 v.1
        (renderMeshInstances.loop cfg ext mi mesh.1 mesh.2 0 cwd s).state
      rw [draw_eq] at hdraw
      have := materialInv_append s _ _ hl hdraw
      obtain ⟨a1, b1, c1⟩ := this
      refine ⟨?_, ?_, ?_⟩
      · simpa [hz] using a1
      · simpa [hz] using b1
      · simpa [hz] using c1

theorem renderMeshInstances_count (cfg : Settings) (ext : Externals)
    (cwd : CurrentWorkingData) (mi : ModelInstance) (mesh : Mesh × List MeshInstance)
    (s : RendererState) :
    CountInv (renderMeshInstances cfg ext cwd mi mesh s) := by
  obtain ⟨hl, hle⟩ := loop_count cfg ext mi mesh.1 mesh.2 0 cwd s
  unfold CountInv
  cases hv : (renderMeshInstances.loop cfg ext mi mesh.1 mesh.2 0 cwd s).value with
  | none =>
    rw [renderMeshInstances_of_none cfg ext cwd mi mesh s hv]
    simp only [pendingOf, hv] at hl
    refine ⟨by simpa using hl, by simp⟩
  | some v =>
    rw [renderMeshInstances_of_some cfg ext cwd mi mesh s v hv]
    simp only [pendingOf, hv, Option.isSome_some, forall_const] at hl hle
    by_cases hz : v.1 = 0
    · simp [hz] at hl hle ⊢
      omega
    · simp [hz] at hl hle ⊢
      omega

theorem batches_sum (cap n : Nat) : (batches cap n).sum = n := by
  unfold batches
  split
  · rename_i h
    simp only [List.append_nil, List.sum_replicate, smul_eq_mul]
    have := Nat.div_add_mod n cap
    rw [h] at this
    rw [Nat.mul_comm]
    omega
  · simp only [List.sum_append, List.sum_replicate, smul_eq_mul, List.sum_cons, List.sum_nil]
    have := Nat.div_add_mod n cap
    rw [Nat.mul_comm]
    omega

theorem batches_length (cap n : Nat) (h : 0 < cap) :
    (batches cap n).length = (n + cap - 1) / cap := by
  unfold batches
  have hdm := Nat.div_add_mod n cap
  have hlt := Nat.mod_lt n h
  split
  · rename_i h0
    have e : n + cap - 1 = cap * (n / cap) + (cap - 1) := by omega
    have h2 : (cap - 1) / cap = 0 := Nat.div_eq_of_lt (by omega)
    rw [e, Nat.mul_add_div h, h2]
    simp
  · rename_i h0
    have e : n + cap - 1 = cap * (n / cap + 1) + (n % cap - 1) := by
      rw [Nat.mul_add, Nat.mul_one]
      omega
    have h2 : (n % cap - 1) / cap = 0 := Nat.div_eq_of_lt (by omega)
    rw [e, Nat.mul_add_div h, h2]
    simp

theorem ceil_div_eq (n m : Nat) (hm : 0 < m) :
    ⌈(n : ℚ) / (m : ℚ)⌉₊ = (n + m - 1) / m := by
  have hmq : (0 : ℚ) < (m : ℚ) := by exact_mod_cast hm
  have hdm := Nat.div_add_mod n m
  have hlt := Nat.mod_lt n hm
  by_cases h0 : n % m = 0
  · have e : n + m - 1 = m * (n / m) + (m - 1) := by omega
    have h2 : (m - 1) / m = 0 := Nat.div_eq_of_lt (by omega)
    rw [e, Nat.mul_add_div hm, h2, Nat.add_zero]
    have hn : (n : ℚ) = (m : ℚ) * ((n / m : ℕ) : ℚ) := by
      have : n = m * (n / m) := by omega
      exact_mod_cast this
    rw [hn, mul_div_cancel_left₀ _ (ne_of_gt hmq), Nat.ceil_natCast]
  · have e : n + m - 1 = m * (n / m + 1) + (n % m - 1) := by
      rw [Nat.mul_add, Nat.mul_one]
      omega
    have h2 : (n % m - 1) / m = 0 := Nat.div_eq_of_lt (by omega)
    rw [e, Nat.mul_add_div hm, h2, Nat.add_zero]
    rw [Nat.ceil_eq_iff (Nat.succ_ne_zero (n / m))]
    constructor
    · rw [lt_div_iff₀ hmq]
      have : (n / m + 1 - 1) * m < n := by
        rw [Nat.add_sub_cancel, Nat.mul_comm]
        omega
      exact_mod_cast this
    · rw [div_le_iff₀ hmq]
      have : n ≤ (n / m + 1) * m := by
        rw [Nat.add_mul, Nat.one_mul, Nat.mul_comm]
        omega
      exact_mod_cast this

theorem acceptedOfMesh_length (cfg : Settings) (ext : Externals) (cam : Option Camera)
    (mi : ModelInstance) (insts : List MeshInstance) :
    (acceptedOfMesh cfg ext cam mi insts).length
      = (insts.filter (accepts cfg ext cam mi)).length := by
  simp [acceptedOfMesh]

theorem slotOk_of_absent (vars : GraphicsVars) (cap slot : Nat)
    (h : vars.getConstantBuffer kPerMeshCbName = none) : slotOk vars cap slot = true := by
  simp [slotOk, h]

theorem slotOk_zero (vars : GraphicsVars) (cap : Nat) (h : 0 < cap) :
    slotOk vars cap 0 = true := by
  unfold slotOk
  split <;> simp [h]

/-- The slots of a run are all accepted by `setPerMeshInstanceData` when no per-mesh buffer is
bound, or when the cached array size is positive and every accepted instance lands in slot 0. -/
theorem slots_ok (vars : GraphicsVars) (cap cnt n : Nat)
    (hok : vars.getConstantBuffer kPerMeshCbName = none ∨ (0 < cap ∧ (cnt = 1 ∨ n ≤ 1))) :
    ∀ k, k < n → slotOk vars cap (k % cnt) = true := by
  intro k hk
  rcases hok with h | ⟨hc, h1 | h1⟩
  · exact slotOk_of_absent vars cap _ h
  · subst h1
    rw [Nat.mod_one]
    exact slotOk_zero vars cap hc
  · have : k = 0 := by omega
    subst this
    rw [Nat.zero_mod]
    exact slotOk_zero vars cap hc

theorem renderMeshInstances_ok (cfg : Settings) (ext : Externals)
    (cwd : CurrentWorkingData) (mi : ModelInstance) (mesh : Mesh × List MeshInstance)
    (s : RendererState)
    (hmax : 0 < cfg.mMaxInstanceCount)
    (hcam : cfg.mCullEnabled = true → cwd.pCamera.isSome = true)
    (hslots : ∀ k, k < (acceptedOfMesh cfg ext cwd.pCamera mi mesh.2).length →
      slotOk cwd.pVars s.offsets.sWorldMatArraySize (k % cfg.mMaxInstanceCount) = true) :
    (∃ cwd2, (renderMeshInstances cfg ext cwd mi mesh s).value = some cwd2)
      ∧ drawCounts (renderMeshInstances cfg ext cwd mi mesh s).events
          = batches cfg.mMaxInstanceCount (acceptedOfMesh cfg ext cwd.pCamera mi mesh.2).length
      ∧ drawMaterials (renderMeshInstances cfg ext cwd mi mesh s).events
          = List.replicate
              (batches cfg.mMaxInstanceCount
                (acceptedOfMesh cfg ext cwd.pCamera mi mesh.2).length).length
              (some mesh.1.material)
      ∧ (renderMeshInstances cfg ext cwd mi mesh s).state.offsets = s.offsets := by
  have hl := loop_ok cfg ext mi mesh.1 cwd.pVars s.offsets.sWorldMatArraySize cwd.pCamera
    mesh.2 0 cwd s rfl rfl rfl hmax hcam (by simpa using hslots)
  obtain ⟨⟨cwd2, hv⟩, hd, hmats, ho⟩ := hl
  rw [renderMeshInstances_of_some cfg ext cwd mi mesh s _ hv]
  simp only [Nat.zero_add] at hd hmats ⊢
  unfold batches
  by_cases hz : (acceptedOfMesh cfg ext cwd.pCamera mi mesh.2).length % cfg.mMaxInstanceCount = 0
  · simp [hz, hd, hmats, ho]
  · simp [hz, hd, hmats, ho, List.replicate_succ', List.replicate_add]

/-! ### The run that returns -/

theorem loop_of_returns (cfg : Settings) (ext : Externals) (mi : ModelInstance) (pMesh : Mesh)
    (cam : Option Camera) (insts : List MeshInstance) (a : Nat) (cwd : CurrentWorkingData)
    (s : RendererState) (v : Nat × CurrentWorkingData)
    (hcamEq : cwd.pCamera = cam)
    (hmax : a < cfg.mMaxInstanceCount)
    (hret : (renderMeshInstances.loop cfg ext mi pMesh insts a cwd s).value = some v) :
    v.1 = (a + (acceptedOfMesh cfg ext cam mi insts).length) % cfg.mMaxInstanceCount
      ∧ drawCounts (renderMeshInstances.loop cfg ext mi pMesh insts a cwd s).events
          = List.replicate
              ((a + (acceptedOfMesh cfg ext cam mi insts).length) / cfg.mMaxInstanceCount)
              cfg.mMaxInstanceCount
      ∧ drawMaterials (renderMeshInstances.loop cfg ext mi pMesh insts a cwd s).events
          = List.replicate
              ((a + (acceptedOfMesh cfg ext cam mi insts).length) / cfg.mMaxInstanceCount)
              (some pMesh.material) := by
  induction insts generalizing a cwd s with
  | nil =>
    simp only [renderMeshInstances.loop, pure_apply, Option.some.injEq] at hret
    subst hret
    simp [renderMeshInstances.loop, acceptedOfMesh, Nat.mod_eq_of_lt hmax,
      Nat.div_eq_of_lt hmax]
  | cons inst rest ih =>
    rw [loop_cons] at hret ⊢
    cases hb : (renderMeshInstances.body cfg ext mi pMesh inst a cwd s).value with
    | none =>
      rw [andThen_of_none _ _ hb] at hret
      simp at hret
    | some w =>
      rw [andThen_of_some _ _ w hb] at hret ⊢
      simp only at hret
      have hbe := body_eq cfg ext mi pMesh inst a cwd s
      by_cases hacc : accepts cfg ext cam mi inst = true
      · rw [acceptedOfMesh_cons_true _ _ _ _ _ _ hacc]
        have hacc2 : ¬ accepts cfg ext cwd.pCamera mi inst = false := by
          rw [hcamEq, hacc]
          simp
        by_cases hne : cfg.mCullEnabled = true ∧ cwd.pCamera.isNone = true
        · rw [if_pos hne] at hbe
          rw [hbe] at hb
          simp at hb
        · rw [if_neg hne, if_neg hacc2] at hbe
          by_cases hp : packOk cwd a s = false
          · rw [if_pos hp] at hbe
            rw [hbe] at hb
            simp at hb
          · rw [if_neg hp] at hbe
            by_cases hm : a + 1 = cfg.mMaxInstanceCount
            · rw [if_pos hm] at hbe
              have h0 : 0 < cfg.mMaxInstanceCount := by omega
              rw [hbe] at hb hret ⊢
              simp only [Option.some.injEq] at hb
              subst hb
              obtain ⟨i1, i2, i3⟩ := ih 0
                { cwd with drawID := cwd.drawID + 1, pMaterial := some pMesh.material }
                { s with mpLastMaterial := some pMesh.material } hcamEq h0 hret
              have e : a + ((acceptedOfMesh cfg ext cam mi rest).length + 1)
                  = (acceptedOfMesh cfg ext cam mi rest).length + cfg.mMaxInstanceCount := by
                omega
              simp only [List.length_cons, e, Nat.add_mod_right, Nat.add_div_right _ h0,
                List.replicate_succ, List.cons_append, drawCounts_entry, drawCounts_append,
                drawCounts_packEvents, drawCounts_drawEvents, drawMaterials_entry,
                drawMaterials_append, drawMaterials_packEvents, drawMaterials_drawEvents,
                List.nil_append, List.singleton_append]
              rw [Nat.zero_add] at i1 i2 i3
              refine ⟨i1, ?_, ?_⟩
              · rw [i2, hm]
              · rw [i3]
            · rw [if_neg hm] at hbe
              have h1 : a + 1 < cfg.mMaxInstanceCount := by omega
              rw [hbe] at hb hret ⊢
              simp only [Option.some.injEq] at hb
              subst hb
              obtain ⟨i1, i2, i3⟩ := ih (a + 1) { cwd with drawID := cwd.drawID + 1 } s
                hcamEq h1 hret
              have e : a + ((acceptedOfMesh cfg ext cam mi rest).length + 1)
                  = a + 1 + (acceptedOfMesh cfg ext cam mi rest).length := by omega
              simp only [List.length_cons, e, List.cons_append, drawCounts_entry,
                drawCounts_append, drawCounts_packEvents, drawMaterials_entry,
                drawMaterials_append, drawMaterials_packEvents, List.nil_append]
              exact ⟨i1, i2, i3⟩
      · rw [acceptedOfMesh_cons_false _ _ _ _ _ _ hacc]
        have hacc2 : accepts cfg ext cwd.pCamera mi inst = false := by
          rw [hcamEq]
          simpa using hacc
        by_cases hne : cfg.mCullEnabled = true ∧ cwd.pCamera.isNone = true
        · rw [if_pos hne] at hbe
          rw [hbe] at hb
          simp at hb
        · rw [if_neg hne, if_pos hacc2] at hbe
          rw [hbe] at hb hret ⊢
          simp only [Option.some.injEq] at hb
          subst hb
          obtain ⟨i1, i2, i3⟩ := ih a cwd s hcamEq hmax hret
          simp only [List.nil_append]
          exact ⟨i1, i2, i3⟩

theorem renderMeshInstances_of_returns (cfg : Settings) (ext : Externals)
    (cwd : CurrentWorkingData) (mi : ModelInstance) (mesh : Mesh × List MeshInstance)
    (s : RendererState) (hmax : 0 < cfg.mMaxInstanceCount)
    (hret : (renderMeshInstances cfg ext cwd mi mesh s).value.isSome = true) :
    drawCounts (renderMeshInstances cfg ext cwd mi mesh s).events
        = batches cfg.mMaxInstanceCount (acceptedOfMesh cfg ext cwd.pCamera mi mesh.2).length
      ∧ drawMaterials (renderMeshInstances cfg ext cwd mi mesh s).events
          = List.replicate
              (batches cfg.mMaxInstanceCount
                (acceptedOfMesh cfg ext cwd.pCamera mi mesh.2).length).length
              (some mesh.1.material) := by
  cases hv : (renderMeshInstances.loop cfg ext mi mesh.1 mesh.2 0 cwd s).value with
  | none =>
    rw [renderMeshInstances_of_none cfg ext cwd mi mesh s hv] at hret
    simp at hret
  | some v =>
    obtain ⟨h1, hd, hm⟩ := loop_of_returns cfg ext mi mesh.1 cwd.pCamera mesh.2 0 cwd s v rfl
      hmax hv
    rw [renderMeshInstances_of_some cfg ext cwd mi mesh s v hv]
    simp only [Nat.zero_add] at h1 hd hm
    unfold batches
    by_cases hz : (acceptedOfMesh cfg ext cwd.pCamera mi mesh.2).length
        % cfg.mMaxInstanceCount = 0
    · simp [hz, hd, hm, h1]
    · simp [hz, hd, hm, h1, List.replicate_succ', List.replicate_add]


/-! ### Calls that only touch the parameter scopes -/

theorem quiet_ret {α : Type} (a : α) : Exec.Quiet (pure a : Exec α) := by
  intro s
  simp

theorem quiet_fatal {α : Type} : Exec.Quiet (fatal : Exec α) := by
  intro s
  simp

theorem quiet_emit (e : Event) (h : Event.isScopeEvent e = true) :
    Exec.Quiet (emit e) := by
  intro s
  simp [h]

theorem quiet_getState : Exec.Quiet getState := by
  intro s
  simp

theorem quiet_modifyOffsets (f : Offsets → Offsets) : Exec.Quiet (modifyOffsets f) := by
  intro s
  simp

theorem quiet_assertThat (c : Bool) : Exec.Quiet (assertThat c) := by
  cases c
  · exact quiet_fatal
  · exact quiet_ret ()

theorem quiet_bind {α β : Type} {m : Exec α} {f : α → Exec β}
    (h1 : Exec.Quiet m) (h2 : ∀ a, Exec.Quiet (f a)) : Exec.Quiet (m >>= f) := by
  intro s
  rw [bind_apply]
  cases hv : (m s).value with
  | none =>
    rw [andThen_of_none _ _ hv]
    exact h1 s
  | some a =>
    rw [andThen_of_some _ _ a hv]
    refine ⟨?_, ?_⟩
    · intro e he
      simp only [List.mem_append] at he
      rcases he with he | he
      · exact (h1 s).1 e he
      · exact (h2 a (m s).state).1 e he
    · exact ((h2 a (m s).state).2).trans (h1 s).2

theorem quiet_ite {α : Type} (c : Prop) [Decidable c] {a b : Exec α}
    (h1 : Exec.Quiet a) (h2 : Exec.Quiet b) : Exec.Quiet (if c then a else b) := by
  split
  · exact h1
  · exact h2

theorem findMember_quiet (cb : String) (pType : ReflectionResource) (name : String) :
    Exec.Quiet (findMember cb pType name) := by
  unfold findMember
  refine quiet_bind (quiet_emit _ rfl) ?_
  intro _
  split
  · exact quiet_ret _
  · exact quiet_fatal

theorem findMemberOpt_quiet (cb : String) (pType : ReflectionResource) (name : String) :
    Exec.Quiet (findMemberOpt cb pType name) := by
  unfold findMemberOpt
  exact quiet_bind (quiet_emit _ rfl) (fun _ => quiet_ret _)

theorem resolvePerMesh_quiet (pReflector : ProgramReflection) :
    Exec.Quiet (resolvePerMesh pReflector) := by
  unfold resolvePerMesh
  refine quiet_bind (quiet_emit _ rfl) ?_
  intro _
  split
  · exact quiet_fatal
  · repeat
      first
        | exact quiet_modifyOffsets _
        | exact quiet_assertThat _
        | exact findMember_quiet _ _ _
        | refine quiet_bind ?_ (fun _ => ?_)

theorem resolvePerFrame_quiet (pReflector : ProgramReflection) :
    Exec.Quiet (resolvePerFrame pReflector) := by
  unfold resolvePerFrame
  refine quiet_bind (quiet_emit _ rfl) ?_
  intro _
  split
  · exact quiet_fatal
  · repeat
      first
        | exact quiet_modifyOffsets _
        | exact quiet_assertThat _
        | exact findMember_quiet _ _ _
        | exact findMemberOpt_quiet _ _ _
        | refine quiet_bind ?_ (fun _ => ?_)

theorem updateVariableOffsets_quiet (pReflector : ProgramReflection) :
    Exec.Quiet (updateVariableOffsets pReflector) := by
  unfold updateVariableOffsets
  dsimp only
  repeat
    first
      | exact quiet_ret _
      | exact quiet_getState
      | exact resolvePerMesh_quiet _
      | exact resolvePerFrame_quiet _
      | refine quiet_bind ?_ (fun _ => ?_)
      | split

theorem setLights_quiet (ext : Externals) (off : Nat) (lights : List Nat) (i : Nat) :
    Exec.Quiet (setLights ext off lights i) := by
  induction lights generalizing i with
  | nil => exact quiet_ret _
  | cons l rest ih =>
    unfold setLights
    exact quiet_bind (quiet_emit _ rfl) (fun _ => ih _)

theorem setPerFrameData_quiet (ext : Externals) (mpScene : Scene) (cwd : CurrentWorkingData) :
    Exec.Quiet (setPerFrameData ext mpScene cwd) := by
  unfold setPerFrameData
  dsimp only
  repeat
    first
      | exact quiet_ret _
      | exact quiet_getState
      | exact quiet_assertThat _
      | exact quiet_emit _ rfl
      | exact setLights_quiet _ _ _ _
      | refine quiet_bind ?_ (fun _ => ?_)
      | split

theorem setPerModelData_quiet (ext : Externals) (cwd : CurrentWorkingData) :
    Exec.Quiet (setPerModelData ext cwd) := by
  unfold setPerModelData
  dsimp only
  repeat
    first
      | exact quiet_ret _
      | exact quiet_fatal
      | exact quiet_getState
      | exact quiet_modifyOffsets _
      | exact quiet_assertThat _
      | exact quiet_emit _ rfl
      | refine quiet_bind ?_ (fun _ => ?_)
      | split

/-! ### What calls return -/

theorem returns_ret {α : Type} {P : α → Prop} (a : α) (h : P a) :
    Exec.Returns (pure a : Exec α) P := by
  intro s v hv
  simp at hv
  rw [← hv]
  exact h

theorem returns_fatal {α : Type} {P : α → Prop} : Exec.Returns (fatal : Exec α) P := by
  intro s v hv
  simp at hv

theorem returns_bind {α β : Type} {m : Exec α} {f : α → Exec β} {Q : α → Prop}
    {P : β → Prop} (h1 : Exec.Returns m Q) (h2 : ∀ a, Q a → Exec.Returns (f a) P) :
    Exec.Returns (m >>= f) P := by
  intro s v hv
  rw [bind_apply] at hv
  cases ha : (m s).value with
  | none =>
    rw [andThen_of_none _ _ ha] at hv
    simp at hv
  | some a =>
    rw [andThen_of_some _ _ a ha] at hv
    exact h2 a (h1 s a ha) _ v hv

theorem returns_trivial {α : Type} (m : Exec α) : Exec.Returns m (fun _ => True) :=
  fun _ _ _ => True.intro

theorem setPerModelData_returns (ext : Externals) (cwd : CurrentWorkingData) :
    Exec.Returns (setPerModelData ext cwd) (fun b => b = true) := by
  unfold setPerModelData
  dsimp only
  repeat
    first
      | exact returns_ret _ rfl
      | exact returns_fatal
      | refine returns_bind (returns_trivial _) (fun _ _ => ?_)
      | split

theorem body_returns (cfg : Settings) (ext : Externals) (mi : ModelInstance) (pMesh : Mesh)
    (inst : MeshInstance) (a : Nat) (cwd : CurrentWorkingData) :
    Exec.Returns (renderMeshInstances.body cfg ext mi pMesh inst a cwd)
      (fun v => v.2.pModel = cwd.pModel) := by
  intro s v hv
  rw [body_eq] at hv
  split_ifs at hv <;> simp at hv <;> rw [← hv]

theorem loop_returns (cfg : Settings) (ext : Externals) (mi : ModelInstance) (pMesh : Mesh)
    (insts : List MeshInstance) (a : Nat) (cwd : CurrentWorkingData) :
    Exec.Returns (renderMeshInstances.loop cfg ext mi pMesh insts a cwd)
      (fun v => v.2.pModel = cwd.pModel) := by
  induction insts generalizing a cwd with
  | nil => exact returns_ret _ rfl
  | cons inst rest ih =>
    unfold renderMeshInstances.loop
    refine returns_bind (body_returns cfg ext mi pMesh inst a cwd) ?_
    intro v hv s w hw
    rw [← hv]
    exact ih v.1 v.2 s w hw

theorem renderMeshInstances_returns (cfg : Settings) (ext : Externals)
    (cwd : CurrentWorkingData) (mi : ModelInstance) (mesh : Mesh × List MeshInstance) :
    Exec.Returns (renderMeshInstances cfg ext cwd mi mesh)
      (fun v => v.pModel = cwd.pModel) := by
  intro s v hv
  cases hl : (renderMeshInstances.loop cfg ext mi mesh.1 mesh.2 0 cwd s).value with
  | none =>
    rw [renderMeshInstances_of_none cfg ext cwd mi mesh s hl] at hv
    simp at hv
  | some w =>
    rw [renderMeshInstances_of_some cfg ext cwd mi mesh s w hl] at hv
    have := loop_returns cfg ext mi mesh.1 mesh.2 0 cwd s w hl
    simp only [Option.some.injEq] at hv
    rw [← hv]
    split <;> simpa using this

theorem meshLoop_returns (cfg : Settings) (ext : Externals) (mi : ModelInstance)
    (meshes : List (Mesh × List MeshInstance)) (cwd : CurrentWorkingData) :
    Exec.Returns (renderModelInstance.loop cfg ext mi meshes cwd)
      (fun v => v.pModel = cwd.pModel) := by
  induction meshes generalizing cwd with
  | nil => exact returns_ret _ rfl
  | cons mesh rest ih =>
    unfold renderModelInstance.loop
    refine returns_bind (renderMeshInstances_returns cfg ext cwd mi mesh) ?_
    intro v hv s w hw
    rw [← hv]
    exact ih v s w hw

theorem renderModelInstance_returns (cfg : Settings) (ext : Externals)
    (cwd : CurrentWorkingData) (mi : ModelInstance) :
    Exec.Returns (renderModelInstance cfg ext cwd mi) (fun v => v.pModel = cwd.pModel) := by
  unfold renderModelInstance
  refine returns_bind (returns_trivial _) (fun _ _ => ?_)
  split
  · exact returns_fatal
  · exact meshLoop_returns cfg ext mi _ cwd

/-! ### The mesh loop, the model instance, the frame -/

theorem packedInstances_of_scope (evs : List Event)
    (h : ∀ e ∈ evs, Event.isScopeEvent e = true) : packedInstances evs = [] := by
  induction evs with
  | nil => rfl
  | cons e rest ih =>
    have he := h e (by simp)
    have hr := ih (fun x hx => h x (by simp [hx]))
    cases e <;> first
      | exact absurd he Bool.false_ne_true
      | simpa [packedInstances] using hr

theorem drawCounts_of_scope (evs : List Event)
    (h : ∀ e ∈ evs, Event.isScopeEvent e = true) : drawCounts evs = [] := by
  induction evs with
  | nil => rfl
  | cons e rest ih =>
    have he := h e (by simp)
    have hr := ih (fun x hx => h x (by simp [hx]))
    cases e <;> first
      | exact absurd he Bool.false_ne_true
      | simpa [drawCounts] using hr

theorem numberedInv_of_quiet {α : Type} (cwd : CurrentWorkingData) (r : Res α)
    (h : ∀ e ∈ r.events, Event.isScopeEvent e = true) :
    NumberedInv (fun _ : α => cwd) cwd [] r := by
  unfold NumberedInv
  simp [packedInstances_of_scope r.events h, numbered]

theorem countInv_of_quiet {α : Type} (r : Res α)
    (h : ∀ e ∈ r.events, Event.isScopeEvent e = true) : CountInv r := by
  unfold CountInv
  simp [drawCounts_of_scope r.events h, packedInstances_of_scope r.events h]

theorem countInv_of_nil {α : Type} (s : RendererState) (v : Option α) :
    CountInv ({ events := [], state := s, value := v } : Res α) := by
  simp [CountInv]

theorem countInv_andThen {α β : Type} {r : Res α} {f : α → Exec β}
    (h1 : CountInv r) (h2 : ∀ v, r.value = some v → CountInv (f v r.state)) :
    CountInv (r.andThen f) := by
  cases hv : r.value with
  | none =>
    rw [andThen_of_none r f hv]
    exact ⟨h1.1, by simp⟩
  | some v =>
    rw [andThen_of_some r f v hv]
    obtain ⟨h2a, h2b⟩ := h2 v hv
    obtain ⟨h1a, h1b⟩ := h1
    have h1c := h1b (by simp [hv])
    unfold CountInv
    simp only [drawCounts_append, packedInstances_append, List.sum_append, List.length_append]
    refine ⟨by omega, ?_⟩
    intro h
    have := h2b h
    omega

theorem meshLoop_cons (cfg : Settings) (ext : Externals) (mi : ModelInstance)
    (mesh : Mesh × List MeshInstance) (rest : List (Mesh × List MeshInstance))
    (cwd : CurrentWorkingData) (s : RendererState) :
    renderModelInstance.loop cfg ext mi (mesh :: rest) cwd s =
      (renderMeshInstances cfg ext cwd mi mesh s).andThen
        (fun c => renderModelInstance.loop cfg ext mi rest c) := rfl

theorem meshLoop_numbered (cfg : Settings) (ext : Externals) (mi : ModelInstance)
    (meshes : List (Mesh × List MeshInstance)) (cwd : CurrentWorkingData) (s : RendererState) :
    NumberedInv (fun v : CurrentWorkingData => v) cwd
      (acceptedOfMeshes cfg ext cwd.pCamera mi meshes)
      (renderModelInstance.loop cfg ext mi meshes cwd s) := by
  induction meshes generalizing cwd s with
  | nil => simp [renderModelInstance.loop, NumberedInv, acceptedOfMeshes, numbered]
  | cons mesh rest ih =>
    rw [meshLoop_cons]
    have hb := renderMeshInstances_numbered cfg ext cwd mi mesh s
    unfold acceptedOfMeshes
    refine numberedInv_andThen hb ?_
    intro v hv
    have hcam : v.pCamera = cwd.pCamera := (hb.2 v hv).2.2.2
    have := ih v (renderMeshInstances cfg ext cwd mi mesh s).state
    rw [hcam] at this
    exact this

theorem meshLoop_material (cfg : Settings) (ext : Externals) (mi : ModelInstance)
    (meshes : List (Mesh × List MeshInstance)) (cwd : CurrentWorkingData) (s : RendererState) :
    MaterialInv s (renderModelInstance.loop cfg ext mi meshes cwd s) := by
  induction meshes generalizing cwd s with
  | nil => simp [renderModelInstance.loop, MaterialInv, bindsFrom, lastFrom]
  | cons mesh rest ih =>
    rw [meshLoop_cons]
    exact materialInv_andThen (renderMeshInstances_material cfg ext cwd mi mesh s)
      (fun v _ => ih v _)

theorem meshLoop_count (cfg : Settings) (ext : Externals) (mi : ModelInstance)
    (meshes : List (Mesh × List MeshInstance)) (cwd : CurrentWorkingData) (s : RendererState) :
    CountInv (renderModelInstance.loop cfg ext mi meshes cwd s) := by
  induction meshes generalizing cwd s with
  | nil => exact countInv_of_nil _ _
  | cons mesh rest ih =>
    rw [meshLoop_cons]
    exact countInv_andThen (renderMeshInstances_count cfg ext cwd mi mesh s) (fun v _ => ih v _)

/-- The result of `renderModelInstance` in terms of its mesh loop. -/
theorem renderModelInstance_eq (cfg : Settings) (ext : Externals) (cwd : CurrentWorkingData)
    (mi : ModelInstance) (s : RendererState) :
    renderModelInstance cfg ext cwd mi s =
      match cwd.pModel with
      | none => { events := [], state := { s with mpLastMaterial := none }, value := none }
      | some pModel =>
        renderModelInstance.loop cfg ext mi pModel.meshes cwd { s with mpLastMaterial := none }
    := by
  unfold renderModelInstance
  cases cwd.pModel <;> simp

theorem renderModelInstance_numbered (cfg : Settings) (ext : Externals)
    (cwd : CurrentWorkingData) (mi : ModelInstance) (s : RendererState) (pModel : Model)
    (hm : cwd.pModel = some pModel) :
    NumberedInv (fun v : CurrentWorkingData => v) cwd
      (acceptedOfMeshes cfg ext cwd.pCamera mi pModel.meshes)
      (renderModelInstance cfg ext cwd mi s) := by
  rw [renderModelInstance_eq, hm]
  exact meshLoop_numbered cfg ext mi pModel.meshes cwd _

theorem renderModelInstance_count (cfg : Settings) (ext : Externals)
    (cwd : CurrentWorkingData) (mi : ModelInstance) (s : RendererState) :
    CountInv (renderModelInstance cfg ext cwd mi s) := by
  rw [renderModelInstance_eq]
  split
  · exact countInv_of_nil _ _
  · exact meshLoop_count cfg ext mi _ cwd _

theorem instances_cons (cfg : Settings) (ext : Externals) (mi : ModelInstance)
    (rest : List ModelInstance) (i : Nat) (cwd : CurrentWorkingData) (s : RendererState) :
    renderSceneData.instances cfg ext (mi :: rest) i cwd s =
      (if mi.visible = true then renderModelInstance cfg ext cwd mi s
        else { events := [], state := s, value := some cwd }).andThen
        (fun c => renderSceneData.instances cfg ext rest (i + 1) c) := by
  have h : renderSceneData.instances cfg ext (mi :: rest) i cwd s =
      ((if mi.visible = true then
          (setPerModelInstanceData cwd mi i >>= fun ready =>
            if ready = true then renderModelInstance cfg ext cwd mi else pure cwd)
        else pure cwd) s).andThen
        (fun c => renderSceneData.instances cfg ext rest (i + 1) c) := rfl
  rw [h]
  by_cases hv : mi.visible = true
  · simp only [hv, if_true, setPerModelInstanceData, bind_apply, pure_apply, andThen_some,
      List.nil_append]
  · simp only [hv, if_false, pure_apply, Bool.false_eq_true]

theorem instances_numbered (cfg : Settings) (ext : Externals) (pModel : Model)
    (insts : List ModelInstance) (i : Nat) (cwd : CurrentWorkingData) (s : RendererState)
    (hm : cwd.pModel = some pModel) :
    NumberedInv (fun v : CurrentWorkingData => v) cwd
      (acceptedOfInstances cfg ext cwd.pCamera pModel.meshes insts)
      (renderSceneData.instances cfg ext insts i cwd s) := by
  induction insts generalizing i cwd s with
  | nil => simp [renderSceneData.instances, NumberedInv, acceptedOfInstances, numbered]
  | cons mi rest ih =>
    rw [instances_cons]
    unfold acceptedOfInstances
    by_cases hv : mi.visible = true
    · simp only [hv, if_true]
      have hb := renderModelInstance_numbered cfg ext cwd mi s pModel hm
      refine numberedInv_andThen hb ?_
      intro v hval
      have hcam : v.pCamera = cwd.pCamera := (hb.2 v hval).2.2.2
      have hmod : v.pModel = cwd.pModel := renderModelInstance_returns cfg ext cwd mi s v hval
      have := ih (i + 1) v (renderModelInstance cfg ext cwd mi s).state (hmod.trans hm)
      rw [hcam] at this
      exact this
    · simp only [hv, if_false, Bool.false_eq_true]
      have hb : NumberedInv (fun v : CurrentWorkingData => v) cwd []
          ({ events := [], state := s, value := some cwd } : Res CurrentWorkingData) := by
        simp [NumberedInv, numbered]
      refine numberedInv_andThen hb ?_
      intro v hval
      simp only [Option.some.injEq] at hval
      subst hval
      exact ih (i + 1) _ s hm

theorem instances_count (cfg : Settings) (ext : Externals)
    (insts : List ModelInstance) (i : Nat) (cwd : CurrentWorkingData) (s : RendererState) :
    CountInv (renderSceneData.instances cfg ext insts i cwd s) := by
  induction insts generalizing i cwd s with
  | nil => exact countInv_of_nil _ _
  | cons mi rest ih =>
    rw [instances_cons]
    refine countInv_andThen ?_ (fun v _ => ih _ v _)
    split
    · exact renderModelInstance_count cfg ext cwd mi s
    · exact countInv_of_nil _ _

theorem models_cons (cfg : Settings) (ext : Externals) (model : Model × List ModelInstance)
    (rest : List (Model × List ModelInstance)) (cwd : CurrentWorkingData) (s : RendererState) :
    renderSceneData.models cfg ext (model :: rest) cwd s =
      (setPerModelData ext { cwd with pModel := some model.1 } s).andThen
        (fun ready =>
          (if ready = true then
            renderSceneData.instances cfg ext model.2 0 { cwd with pModel := some model.1 }
          else pure { cwd with pModel := some model.1 }) >>=
            fun c => renderSceneData.models cfg ext rest c) := rfl

theorem models_numbered (cfg : Settings) (ext : Externals)
    (models : List (Model × List ModelInstance)) (cwd : CurrentWorkingData)
    (s : RendererState) :
    NumberedInv (fun v : CurrentWorkingData => v) cwd
      (acceptedOfModels cfg ext cwd.pCamera models)
      (renderSceneData.models cfg ext models cwd s) := by
  induction models generalizing cwd s with
  | nil => simp [renderSceneData.models, NumberedInv, acceptedOfModels, numbered]
  | cons model rest ih =>
    rw [models_cons]
    unfold acceptedOfModels
    have hq : NumberedInv (fun _ : Bool => ({ cwd with pModel := some model.1 } :
          CurrentWorkingData)) cwd []
        (setPerModelData ext { cwd with pModel := some model.1 } s) :=
      numberedInv_of_quiet { cwd with pModel := some model.1 } _
        (setPerModelData_quiet ext _ s).1
    have key : NumberedInv (fun v : CurrentWorkingData => v) cwd
        ([] ++ (acceptedOfInstances cfg ext cwd.pCamera model.1.meshes model.2
          ++ acceptedOfModels cfg ext cwd.pCamera rest))
        ((setPerModelData ext { cwd with pModel := some model.1 } s).andThen
          (fun ready =>
            (if ready = true then
              renderSceneData.instances cfg ext model.2 0 { cwd with pModel := some model.1 }
            else pure { cwd with pModel := some model.1 }) >>=
              fun c => renderSceneData.models cfg ext rest c)) := by
      refine numberedInv_andThen hq ?_
      intro ready hr
      have ht := setPerModelData_returns ext _ s ready hr
      subst ht
      simp only [if_true, bind_apply]
      have hi := instances_numbered cfg ext model.1 model.2 0
        { cwd with pModel := some model.1 }
        (setPerModelData ext { cwd with pModel := some model.1 } s).state rfl
      refine numberedInv_andThen hi ?_
      intro v hv
      have hcam : v.pCamera = cwd.pCamera := (hi.2 v hv).2.2.2
      have := ih v (renderSceneData.instances cfg ext model.2 0
        { cwd with pModel := some model.1 }
        (setPerModelData ext { cwd with pModel := some model.1 } s).state).state
      rw [hcam] at this
      exact this
    rw [List.nil_append] at key
    exact key

theorem models_count (cfg : Settings) (ext : Externals)
    (models : List (Model × List ModelInstance)) (cwd : CurrentWorkingData)
    (s : RendererState) :
    CountInv (renderSceneData.models cfg ext models cwd s) := by
  induction models generalizing cwd s with
  | nil => exact countInv_of_nil _ _
  | cons model rest ih =>
    rw [models_cons]
    refine countInv_andThen (countInv_of_quiet _ (setPerModelData_quiet ext _ s).1) ?_
    intro ready _
    rw [bind_apply]
    refine countInv_andThen ?_ (fun v _ => ih v _)
    split
    · exact instances_count cfg ext _ _ _ _
    · exact countInv_of_nil _ _

theorem renderSceneData_numbered (cfg : Settings) (ext : Externals) (mpScene : Scene)
    (cwd : CurrentWorkingData) (s : RendererState) :
    NumberedInv (fun v : CurrentWorkingData => v) cwd
      (acceptedOfModels cfg ext cwd.pCamera mpScene.models)
      (renderSceneData cfg ext mpScene cwd s) := by
  have h : renderSceneData cfg ext mpScene cwd s =
      (setPerFrameData ext mpScene cwd s).andThen
        (fun _ => renderSceneData.models cfg ext mpScene.models cwd) := rfl
  rw [h]
  have hq : NumberedInv (fun _ : Unit => cwd) cwd [] (setPerFrameData ext mpScene cwd s) :=
    numberedInv_of_quiet cwd _ (setPerFrameData_quiet ext mpScene cwd s).1
  have := numberedInv_andThen hq
    (fun _ _ => models_numbered cfg ext mpScene.models cwd (setPerFrameData ext mpScene cwd s).state)
  rw [List.nil_append] at this
  exact this

theorem renderSceneData_count (cfg : Settings) (ext : Externals) (mpScene : Scene)
    (cwd : CurrentWorkingData) (s : RendererState) :
    CountInv (renderSceneData cfg ext mpScene cwd s) := by
  have h : renderSceneData cfg ext mpScene cwd s =
      (setPerFrameData ext mpScene cwd s).andThen
        (fun _ => renderSceneData.models cfg ext mpScene.models cwd) := rfl
  rw [h]
  exact countInv_andThen (countInv_of_quiet _ (setPerFrameData_quiet ext mpScene cwd s).1)
    (fun _ _ => models_count cfg ext _ _ _)

/-- The working data `renderScene` starts a frame with. -/
theorem renderScene_eq (cfg : Settings) (ext : Externals) (mpScene : Scene)
    (pContext : RenderContext) (pCamera : Option Camera) (s : RendererState) :
    renderScene cfg ext mpScene pContext pCamera s =
      (updateVariableOffsets pContext.graphicsVars.reflection s).andThen
        (fun _ => renderSceneData cfg ext mpScene
          { pVars := pContext.graphicsVars, pCamera := pCamera, pMaterial := none,
            pModel := none, drawID := 0 }) := rfl

theorem renderScene_numbered (cfg : Settings) (ext : Externals) (mpScene : Scene)
    (pContext : RenderContext) (pCamera : Option Camera) (s : RendererState) :
    NumberedInv (fun v : CurrentWorkingData => v)
      { pVars := pContext.graphicsVars, pCamera := pCamera, pMaterial := none,
        pModel := none, drawID := 0 }
      (acceptedOfModels cfg ext pCamera mpScene.models)
      (renderScene cfg ext mpScene pContext pCamera s) := by
  rw [renderScene_eq]
  have hq := numberedInv_of_quiet
    { pVars := pContext.graphicsVars, pCamera := pCamera, pMaterial := none,
      pModel := none, drawID := 0 }
    (updateVariableOffsets pContext.graphicsVars.reflection s)
    (updateVariableOffsets_quiet _ s).1
  have := numberedInv_andThen hq
    (fun _ _ => renderSceneData_numbered cfg ext mpScene
      { pVars := pContext.graphicsVars, pCamera := pCamera, pMaterial := none,
        pModel := none, drawID := 0 }
      (updateVariableOffsets pContext.graphicsVars.reflection s).state)
  rw [List.nil_append] at this
  exact this

theorem renderScene_count (cfg : Settings) (ext : Externals) (mpScene : Scene)
    (pContext : RenderContext) (pCamera : Option Camera) (s : RendererState) :
    CountInv (renderScene cfg ext mpScene pContext pCamera s) := by
  rw [renderScene_eq]
  exact countInv_andThen (countInv_of_quiet _ (updateVariableOffsets_quiet _ s).1)
    (fun _ _ => renderSceneData_count cfg ext _ _ _)

/-! ## C1: draw calls of one mesh-instance run -/

/-- C1, at the failing input: one mesh with five visible instances, culling off,
`mMaxInstanceCount = 4`, a per-mesh buffer bound, 64 world-matrix slots cached. All five
instances pass the tests, so the claim gives two draw calls with instance counts `[4, 1]`. The
code writes the four values of the first instance at slot 0, is handed the second instance at
slot 1 (draw-ids 0 and 1), ends there in the assertion `drawInstanceID == 0`, and issues no
draw call. -/
theorem renderMeshInstances_five_of_four :
    1 ≤ Sample.batchesOfFour.mMaxInstanceCount
      ∧ (Sample.fiveInstances.2.filter
          (accepts Sample.batchesOfFour Sample.ext none Sample.modelInstance)).length = 5
      ∧ 5 < Sample.resolved.offsets.sWorldMatArraySize
      ∧ (renderMeshInstances Sample.batchesOfFour Sample.ext
          (Sample.workingData Sample.allBuffers none) Sample.modelInstance
          Sample.fiveInstances Sample.resolved).value.isSome = false
      ∧ (packedInstances (renderMeshInstances Sample.batchesOfFour Sample.ext
          (Sample.workingData Sample.allBuffers none) Sample.modelInstance
          Sample.fiveInstances Sample.resolved).events).map Prod.fst = [0, 1]
      ∧ (bufferWrites (renderMeshInstances Sample.batchesOfFour Sample.ext
          (Sample.workingData Sample.allBuffers none) Sample.modelInstance
          Sample.fiveInstances Sample.resolved).events).length = 4
      ∧ drawCounts (renderMeshInstances Sample.batchesOfFour Sample.ext
          (Sample.workingData Sample.allBuffers none) Sample.modelInstance
          Sample.fiveInstances Sample.resolved).events = [] := by
  decide

/-- The draw calls of a mesh-instance run that returns. For every `mMaxInstanceCount >= 1` and
every run of `renderMeshInstances` in which exactly `N` instances pass the culling test and
the visibility flag: if the run returns, the number of draw calls is
`ceil(N / mMaxInstanceCount)`, their instance counts sum to `N`, and for `N = 5` and
`mMaxInstanceCount = 4` they are `[4, 1]` in that order. The run does return when a camera is
set if culling is enabled, and no per-mesh buffer is bound, or the cached array size is at
least 1 and every accepted instance lands in slot 0 (`mMaxInstanceCount = 1` or `N <= 1`). -/
theorem renderMeshInstances_draw_calls (cfg : Settings) (ext : Externals)
    (cwd : CurrentWorkingData) (mi : ModelInstance) (mesh : Mesh × List MeshInstance)
    (s : RendererState) (N : Nat)
    (hmax : 1 ≤ cfg.mMaxInstanceCount)
    (hN : (mesh.2.filter (accepts cfg ext cwd.pCamera mi)).length = N) :
    ((renderMeshInstances cfg ext cwd mi mesh s).value.isSome = true →
        (drawCounts (renderMeshInstances cfg ext cwd mi mesh s).events).length
            = ⌈(N : ℚ) / (cfg.mMaxInstanceCount : ℚ)⌉₊
          ∧ (drawCounts (renderMeshInstances cfg ext cwd mi mesh s).events).sum = N
          ∧ (N = 5 → cfg.mMaxInstanceCount = 4 →
              drawCounts (renderMeshInstances cfg ext cwd mi mesh s).events = [4, 1]))
      ∧ ((cfg.mCullEnabled = true → cwd.pCamera.isSome = true) →
          (cwd.pVars.getConstantBuffer kPerMeshCbName = none
            ∨ (0 < s.offsets.sWorldMatArraySize ∧ (cfg.mMaxInstanceCount = 1 ∨ N ≤ 1))) →
          (renderMeshInstances cfg ext cwd mi mesh s).value.isSome = true) := by
  have hlen := acceptedOfMesh_length cfg ext cwd.pCamera mi mesh.2
  rw [hN] at hlen
  refine ⟨?_, ?_⟩
  · intro hret
    obtain ⟨hd, _⟩ := renderMeshInstances_of_returns cfg ext cwd mi mesh s hmax hret
    rw [hlen] at hd
    refine ⟨?_, ?_, ?_⟩
    · rw [hd, batches_length _ _ hmax, ceil_div_eq _ _ hmax]
    · rw [hd, batches_sum]
    · intro h5 h4
      rw [hd, h5, h4]
      decide
  · intro hcam hok
    have hslots := slots_ok cwd.pVars s.offsets.sWorldMatArraySize cfg.mMaxInstanceCount N hok
    rw [← hlen] at hslots
    obtain ⟨⟨cwd2, hv⟩, _⟩ := renderMeshInstances_ok cfg ext cwd mi mesh s hmax hcam hslots
    simp [hv]

/-- A run that returns: five accepted instances, `mMaxInstanceCount = 4`, no per-mesh buffer
bound; its draw calls have instance counts `[4, 1]`. -/
theorem renderMeshInstances_draw_calls_witness :
    (renderMeshInstances Sample.batchesOfFour Sample.ext
        (Sample.workingData Sample.noBuffers none) Sample.modelInstance
        Sample.fiveInstances Sample.resolved).value.isSome = true
      ∧ drawCounts (renderMeshInstances Sample.batchesOfFour Sample.ext
          (Sample.workingData Sample.noBuffers none) Sample.modelInstance
          Sample.fiveInstances Sample.resolved).events = [4, 1] :=
  have h := renderMeshInstances_draw_calls Sample.batchesOfFour Sample.ext
    (Sample.workingData Sample.noBuffers none) Sample.modelInstance
    Sample.fiveInstances Sample.resolved 5 (by decide) (by decide)
  ⟨h.2 (by decide) (Or.inl rfl), (h.1 (h.2 (by decide) (Or.inl rfl))).2.2 rfl rfl⟩

/-! ## C2: culling and the visibility flag -/

theorem accepts_spec (cfg : Settings) (ext : Externals) (pCamera : Option Camera)
    (mi : ModelInstance) (inst : MeshInstance) (h : accepts cfg ext pCamera mi inst = true) :
    inst.visible = true
      ∧ (cfg.mCullEnabled = true → ∃ cam, pCamera = some cam
          ∧ cam.isObjectCulled (ext.transformBox inst.boundingBox mi.transformMatrix) = false)
    := by
  unfold accepts at h
  simp only [Bool.and_eq_true, Bool.or_eq_true, beq_iff_eq] at h
  refine ⟨h.2, ?_⟩
  intro hc
  rcases h.1 with h1 | h1
  · rw [hc] at h1
    exact absurd h1 (by simp)
  · cases pCamera with
    | none => simp at h1
    | some cam => exact ⟨cam, rfl, by simpa using h1⟩

theorem accepts_of_no_culling (cfg : Settings) (ext : Externals) (pCamera : Option Camera)
    (mi : ModelInstance) (inst : MeshInstance) (h : cfg.mCullEnabled = false) :
    accepts cfg ext pCamera mi inst = inst.visible := by
  simp [accepts, h]

theorem mem_acceptedOfMesh (cfg : Settings) (ext : Externals) (pCamera : Option Camera)
    (mi : ModelInstance) (insts : List MeshInstance) (x : ModelInstance × MeshInstance)
    (h : x ∈ acceptedOfMesh cfg ext pCamera mi insts) :
    x.1 = mi ∧ accepts cfg ext pCamera mi x.2 = true := by
  unfold acceptedOfMesh at h
  simp only [List.mem_map, List.mem_filter] at h
  obtain ⟨inst, ⟨_, ha⟩, rfl⟩ := h
  exact ⟨rfl, ha⟩

theorem mem_acceptedOfMeshes (cfg : Settings) (ext : Externals) (pCamera : Option Camera)
    (mi : ModelInstance) (meshes : List (Mesh × List MeshInstance))
    (x : ModelInstance × MeshInstance)
    (h : x ∈ acceptedOfMeshes cfg ext pCamera mi meshes) :
    x.1 = mi ∧ accepts cfg ext pCamera mi x.2 = true := by
  induction meshes with
  | nil => simp [acceptedOfMeshes] at h
  | cons mesh rest ih =>
    simp only [acceptedOfMeshes, List.mem_append] at h
    rcases h with h | h
    · exact mem_acceptedOfMesh cfg ext pCamera mi mesh.2 x h
    · exact ih h

theorem mem_acceptedOfInstances (cfg : Settings) (ext : Externals) (pCamera : Option Camera)
    (meshes : List (Mesh × List MeshInstance)) (insts : List ModelInstance)
    (x : ModelInstance × MeshInstance)
    (h : x ∈ acceptedOfInstances cfg ext pCamera meshes insts) :
    x.1.visible = true ∧ accepts cfg ext pCamera x.1 x.2 = true := by
  induction insts with
  | nil => simp [acceptedOfInstances] at h
  | cons mi rest ih =>
    simp only [acceptedOfInstances, List.mem_append] at h
    rcases h with h | h
    · by_cases hv : mi.visible = true
      · simp only [hv, if_true] at h
        obtain ⟨h1, h2⟩ := mem_acceptedOfMeshes cfg ext pCamera mi meshes x h
        rw [h1]
        exact ⟨hv, h2⟩
      · simp [hv] at h
    · exact ih h

theorem mem_acceptedOfModels (cfg : Settings) (ext : Externals) (pCamera : Option Camera)
    (models : List (Model × List ModelInstance)) (x : ModelInstance × MeshInstance)
    (h : x ∈ acceptedOfModels cfg ext pCamera models) :
    x.1.visible = true ∧ accepts cfg ext pCamera x.1 x.2 = true := by
  induction models with
  | nil => simp [acceptedOfModels] at h
  | cons model rest ih =>
    simp only [acceptedOfModels, List.mem_append] at h
    rcases h with h | h
    · exact mem_acceptedOfInstances cfg ext pCamera _ _ x h
    · exact ih h

theorem acceptedOfMesh_eq_visible (cfg : Settings) (ext : Externals) (pCamera : Option Camera)
    (mi : ModelInstance) (insts : List MeshInstance) (h : cfg.mCullEnabled = false) :
    acceptedOfMesh cfg ext pCamera mi insts = visibleOfMesh mi insts := by
  unfold acceptedOfMesh visibleOfMesh
  congr 1
  apply List.filter_congr
  intro inst _
  exact accepts_of_no_culling cfg ext pCamera mi inst h

theorem acceptedOfMeshes_eq_visible (cfg : Settings) (ext : Externals)
    (pCamera : Option Camera) (mi : ModelInstance) (meshes : List (Mesh × List MeshInstance))
    (h : cfg.mCullEnabled = false) :
    acceptedOfMeshes cfg ext pCamera mi meshes = visibleOfMeshes mi meshes := by
  induction meshes with
  | nil => rfl
  | cons mesh rest ih =>
    simp only [acceptedOfMeshes, visibleOfMeshes, ih,
      acceptedOfMesh_eq_visible cfg ext pCamera mi mesh.2 h]

theorem acceptedOfInstances_eq_visible (cfg : Settings) (ext : Externals)
    (pCamera : Option Camera) (meshes : List (Mesh × List MeshInstance))
    (insts : List ModelInstance) (h : cfg.mCullEnabled = false) :
    acceptedOfInstances cfg ext pCamera meshes insts = visibleOfInstances meshes insts := by
  induction insts with
  | nil => rfl
  | cons mi rest ih =>
    simp only [acceptedOfInstances, visibleOfInstances, ih,
      acceptedOfMeshes_eq_visible cfg ext pCamera mi meshes h]

theorem acceptedOfModels_eq_visible (cfg : Settings) (ext : Externals)
    (pCamera : Option Camera) (models : List (Model × List ModelInstance))
    (h : cfg.mCullEnabled = false) :
    acceptedOfModels cfg ext pCamera models = visibleOfModels models := by
  induction models with
  | nil => rfl
  | cons model rest ih =>
    simp only [acceptedOfModels, visibleOfModels, ih,
      acceptedOfInstances_eq_visible cfg ext pCamera _ _ h]

theorem mem_numbered {α : Type} (d : Nat) (l : List α) (x : Nat × α)
    (h : x ∈ numbered d l) : x.2 ∈ l := by
  have := List.mem_map_of_mem Prod.snd h
  rw [numbered_map_snd] at this
  exact this

/-- C2, at the failing input: culling off, a visible model instance, one mesh with two visible
instances, a camera that reports every box as culled, `mMaxInstanceCount = 4`, a per-mesh
buffer bound, 64 world-matrix slots cached. The claim has both instances packed and counted in
a draw call. The code writes the four values of the first instance at slot 0, ends in the
assertion `drawInstanceID == 0` when it is handed the second one at slot 1, and no draw call
counts either of them. -/
theorem renderMeshInstances_visible_not_drawn :
    Sample.batchesOfFour.mCullEnabled = false
      ∧ Sample.modelInstance.visible = true
      ∧ (Sample.twoInstances.2.filter (fun inst => inst.visible)).length = 2
      ∧ 2 < Sample.resolved.offsets.sWorldMatArraySize
      ∧ (renderMeshInstances Sample.batchesOfFour Sample.ext
          (Sample.workingData Sample.allBuffers (some Sample.blindCamera)) Sample.modelInstance
          Sample.twoInstances Sample.resolved).value.isSome = false
      ∧ (bufferWrites (renderMeshInstances Sample.batchesOfFour Sample.ext
          (Sample.workingData Sample.allBuffers (some Sample.blindCamera)) Sample.modelInstance
          Sample.twoInstances Sample.resolved).events).length = 4
      ∧ drawCounts (renderMeshInstances Sample.batchesOfFour Sample.ext
          (Sample.workingData Sample.allBuffers (some Sample.blindCamera)) Sample.modelInstance
          Sample.twoInstances Sample.resolved).events = [] := by
  decide

/-- Which instances a frame hands over. In every frame (`renderScene`), finished or ended by
a violation: every mesh instance handed to `setPerMeshInstanceData` is visible, under a visible
model instance, and, with culling enabled, has a world-space bounding box (its box transformed
by the model-instance transform) that the camera reports as not culled; and the draw calls
count no more instances than were handed over. With culling disabled, whatever the camera's
box test returns: in every frame that returns, the instances handed over are exactly the
visible mesh instances under visible model instances, once each in traversal order, and the
draw calls count exactly as many; in every mesh-instance run (`renderMeshInstances`) that
returns, the instances handed over are exactly the visible instances of the mesh and the draw
calls count exactly as many; and such a run does return, for `mMaxInstanceCount >= 1`, when no
per-mesh buffer is bound, or the cached array size is at least 1 and every visible instance
lands in slot 0 (`mMaxInstanceCount = 1` or at most one visible instance). -/
theorem culling_and_visibility (cfg : Settings) (ext : Externals) (mpScene : Scene)
    (pContext : RenderContext) (pCamera : Option Camera) (s : RendererState) :
    (∀ d mi inst,
        (d, mi, inst) ∈ packedInstances (renderScene cfg ext mpScene pContext pCamera s).events →
        mi.visible = true ∧ inst.visible = true
          ∧ (cfg.mCullEnabled = true → ∃ cam, pCamera = some cam
              ∧ cam.isObjectCulled
                  (ext.transformBox inst.boundingBox mi.transformMatrix) = false))
      ∧ (drawCounts (renderScene cfg ext mpScene pContext pCamera s).events).sum
          ≤ (packedInstances (renderScene cfg ext mpScene pContext pCamera s).events).length
      ∧ (cfg.mCullEnabled = false →
          (renderScene cfg ext mpScene pContext pCamera s).value.isSome = true →
          (packedInstances (renderScene cfg ext mpScene pContext pCamera s).events).map
              (fun x => x.2) = visibleOfModels mpScene.models
            ∧ (drawCounts (renderScene cfg ext mpScene pContext pCamera s).events).sum
                = (visibleOfModels mpScene.models).length)
      ∧ (∀ (cwd : CurrentWorkingData) (mi : ModelInstance) (mesh : Mesh × List MeshInstance)
          (s2 : RendererState),
          cfg.mCullEnabled = false →
          ((renderMeshInstances cfg ext cwd mi mesh s2).value.isSome = true →
            (packedInstances (renderMeshInstances cfg ext cwd mi mesh s2).events).map
                (fun x => x.2.2) = mesh.2.filter (fun inst => inst.visible)
              ∧ (drawCounts (renderMeshInstances cfg ext cwd mi mesh s2).events).sum
                  = (mesh.2.filter (fun inst => inst.visible)).length)
          ∧ (1 ≤ cfg.mMaxInstanceCount →
            (cwd.pVars.getConstantBuffer kPerMeshCbName = none
              ∨ (0 < s2.offsets.sWorldMatArraySize
                  ∧ (cfg.mMaxInstanceCount = 1
                      ∨ (mesh.2.filter (fun inst => inst.visible)).length ≤ 1))) →
            (renderMeshInstances cfg ext cwd mi mesh s2).value.isSome = true)) := by
  have hn := renderScene_numbered cfg ext mpScene pContext pCamera s
  have hc := renderScene_count cfg ext mpScene pContext pCamera s
  refine ⟨?_, hc.1, ?_, ?_⟩
  · intro d mi inst hmem
    have h1 := mem_numbered _ _ _ (hn.1.subset hmem)
    obtain ⟨hv, ha⟩ := mem_acceptedOfModels cfg ext pCamera mpScene.models (mi, inst) h1
    obtain ⟨hi, hcull⟩ := accepts_spec cfg ext pCamera mi inst ha
    exact ⟨hv, hi, hcull⟩
  · intro hcull hsome
    obtain ⟨v, hv⟩ := Option.isSome_iff_exists.mp hsome
    obtain ⟨he, _⟩ := hn.2 v hv
    have hsum := hc.2 hsome
    rw [acceptedOfModels_eq_visible cfg ext pCamera _ hcull] at he
    have hmap : (packedInstances (renderScene cfg ext mpScene pContext pCamera s).events).map
        (fun x => x.2) = visibleOfModels mpScene.models := by
      rw [he]
      exact numbered_map_snd _ _
    refine ⟨hmap, ?_⟩
    rw [hsum, ← hmap, List.length_map]
  · intro cwd mi mesh s2 hcull
    have hacc : mesh.2.filter (accepts cfg ext cwd.pCamera mi)
        = mesh.2.filter (fun inst => inst.visible) := by
      apply List.filter_congr
      intro inst _
      exact accepts_of_no_culling cfg ext cwd.pCamera mi inst hcull
    have hlen := acceptedOfMesh_length cfg ext cwd.pCamera mi mesh.2
    rw [hacc] at hlen
    refine ⟨?_, ?_⟩
    · intro hsome
      obtain ⟨cwd2, hv⟩ := Option.isSome_iff_exists.mp hsome
      have hnum := (renderMeshInstances_numbered cfg ext cwd mi mesh s2).2 cwd2 hv
      have hcount := (renderMeshInstances_count cfg ext cwd mi mesh s2).2 hsome
      have hmap : (packedInstances (renderMeshInstances cfg ext cwd mi mesh s2).events).map
          (fun x => x.2.2) = mesh.2.filter (fun inst => inst.visible) := by
        rw [hnum.1]
        have : (numbered cwd.drawID (acceptedOfMesh cfg ext cwd.pCamera mi mesh.2)).map
            (fun x => x.2.2)
            = ((numbered cwd.drawID (acceptedOfMesh cfg ext cwd.pCamera mi mesh.2)).map
                Prod.snd).map Prod.snd := by
          rw [List.map_map]
          rfl
        rw [this, numbered_map_snd, acceptedOfMesh, hacc, List.map_map]
        simp
      refine ⟨hmap, ?_⟩
      rw [hcount, ← hmap, List.length_map]
    · intro hmax hok
      have hslots := slots_ok cwd.pVars s2.offsets.sWorldMatArraySize cfg.mMaxInstanceCount _ hok
      rw [← hlen] at hslots
      obtain ⟨⟨cwd2, hv⟩, _⟩ := renderMeshInstances_ok cfg ext cwd mi mesh s2 hmax
        (by intro h; rw [hcull] at h; exact absurd h (by simp)) hslots
      simp [hv]

/-- A run that returns: culling disabled, a camera that reports every box as culled, no per-mesh
buffer bound; the run hands over its five visible instances and its draw calls count five. -/
theorem culling_and_visibility_witness :
    (renderMeshInstances Sample.batchesOfFour Sample.ext
        (Sample.workingData Sample.noBuffers (some Sample.blindCamera)) Sample.modelInstance
        Sample.fiveInstances Sample.resolved).value.isSome = true
      ∧ (packedInstances (renderMeshInstances Sample.batchesOfFour Sample.ext
          (Sample.workingData Sample.noBuffers (some Sample.blindCamera)) Sample.modelInstance
          Sample.fiveInstances Sample.resolved).events).map (fun x => x.2.2)
          = Sample.fiveInstances.2.filter (fun inst => inst.visible)
      ∧ (drawCounts (renderMeshInstances Sample.batchesOfFour Sample.ext
          (Sample.workingData Sample.noBuffers (some Sample.blindCamera)) Sample.modelInstance
          Sample.fiveInstances Sample.resolved).events).sum
          = (Sample.fiveInstances.2.filter (fun inst => inst.visible)).length :=
  have h := (culling_and_visibility Sample.batchesOfFour Sample.ext
    { models := [], lights := [], ambientIntensity := fun _ => 0, activeCamera := none }
    { graphicsVars := Sample.noBuffers } none Sample.resolved).2.2.2
    (Sample.workingData Sample.noBuffers (some Sample.blindCamera)) Sample.modelInstance
    Sample.fiveInstances Sample.resolved rfl
  ⟨h.2 (by decide) (Or.inl rfl), h.1 (h.2 (by decide) (Or.inl rfl))⟩

/-! ## C3: draw-ids -/

theorem numbered_fst_of_initial {α : Type} (d : Nat) (L : List α) (l : List (Nat × α))
    (h : l <+: numbered d L) : l.map Prod.fst = List.range' d l.length := by
  induction l generalizing d L with
  | nil => rfl
  | cons x t ih =>
    cases L with
    | nil =>
      have := h.length_le
      simp [numbered] at this
    | cons y L2 =>
      simp only [numbered, List.cons_prefix_cons] at h
      obtain ⟨hx, ht⟩ := h
      simp only [List.map_cons, List.length_cons, List.range'_succ, ih (d + 1) L2 ht, hx]

/-- The draw-ids a frame hands out. In every `renderScene` call, whatever state earlier frames
left behind, the entries of `setPerMeshInstanceData` follow the accepted mesh instances in
traversal order (model, then model instance, then mesh, then mesh instance), numbered from 0,
up to the point the frame reaches, which is all of them when the frame returns. The draw-ids
handed out are `0, 1, 2, ...`, strictly increasing; instances that are culled, invisible or
under an invisible model instance get no draw-id and do not advance the counter, which ends at
the number of accepted instances when the frame returns; and a following `renderScene` call,
from the state the first one left, starts again from 0. -/
theorem renderScene_draw_ids (cfg : Settings) (ext : Externals) (mpScene : Scene)
    (pContext : RenderContext) (pCamera : Option Camera) (s : RendererState) :
    packedInstances (renderScene cfg ext mpScene pContext pCamera s).events
        <+: numbered 0 (acceptedOfModels cfg ext pCamera mpScene.models)
      ∧ (packedInstances (renderScene cfg ext mpScene pContext pCamera s).events).map Prod.fst
          = List.range
              (packedInstances (renderScene cfg ext mpScene pContext pCamera s).events).length
      ∧ ((packedInstances (renderScene cfg ext mpScene pContext pCamera s).events).map
          Prod.fst).Pairwise (fun a b => a < b)
      ∧ (∀ v, (renderScene cfg ext mpScene pContext pCamera s).value = some v →
          packedInstances (renderScene cfg ext mpScene pContext pCamera s).events
              = numbered 0 (acceptedOfModels cfg ext pCamera mpScene.models)
            ∧ v.drawID = (acceptedOfModels cfg ext pCamera mpScene.models).length)
      ∧ (∀ (cfg2 : Settings) (ext2 : Externals) (scene2 : Scene) (pContext2 : RenderContext)
          (pCamera2 : Option Camera),
          packedInstances (renderScene cfg2 ext2 scene2 pContext2 pCamera2
              (renderScene cfg ext mpScene pContext pCamera s).state).events
            <+: numbered 0 (acceptedOfModels cfg2 ext2 pCamera2 scene2.models)) := by
  have hn := renderScene_numbered cfg ext mpScene pContext pCamera s
  have hfst : (packedInstances (renderScene cfg ext mpScene pContext pCamera s).events).map
      Prod.fst = List.range
        (packedInstances (renderScene cfg ext mpScene pContext pCamera s).events).length := by
    rw [List.range_eq_range']
    exact numbered_fst_of_initial 0 _ _ hn.1
  refine ⟨hn.1, hfst, ?_, ?_, ?_⟩
  · rw [hfst]
    exact List.pairwise_lt_range _
  · intro v hv
    obtain ⟨he, hd, _, _⟩ := hn.2 v hv
    exact ⟨he, by simpa using hd⟩
  · intro cfg2 ext2 scene2 pContext2 pCamera2
    exact (renderScene_numbered cfg2 ext2 scene2 pContext2 pCamera2 _).1

/-- A frame that returns: one model placed once, one mesh, five visible instances,
`mMaxInstanceCount = 4`, no culling, no buffer bound. The draw-ids are `0, 1, 2, 3, 4`, the
draw calls have instance counts `[4, 1]`, and the next frame numbers its instances from 0
again. -/
theorem renderScene_draw_ids_witness :
    (renderScene Sample.batchesOfFour Sample.ext Sample.fiveInstanceScene Sample.plainContext
        none Sample.unresolved).value.isSome = true
      ∧ (packedInstances (renderScene Sample.batchesOfFour Sample.ext Sample.fiveInstanceScene
          Sample.plainContext none Sample.unresolved).events).map Prod.fst = [0, 1, 2, 3, 4]
      ∧ drawCounts (renderScene Sample.batchesOfFour Sample.ext Sample.fiveInstanceScene
          Sample.plainContext none Sample.unresolved).events = [4, 1]
      ∧ (packedInstances (renderScene Sample.batchesOfFour Sample.ext Sample.fiveInstanceScene
          Sample.plainContext none
          (renderScene Sample.batchesOfFour Sample.ext Sample.fiveInstanceScene
            Sample.plainContext none Sample.unresolved).state).events).map Prod.fst
          = [0, 1, 2, 3, 4] := by
  have h := renderScene_draw_ids Sample.batchesOfFour Sample.ext Sample.fiveInstanceScene
    Sample.plainContext none Sample.unresolved
  refine ⟨by decide, ?_, by decide, by decide⟩
  rw [h.2.1]
  decide

/-- C3, at the failing input: the frame of one model placed once, with one mesh and five
visible instances, culling off, `mMaxInstanceCount = 4`, both constant buffers declared by the
program and bound, offsets not yet resolved. Five instances are accepted, so the claim assigns
the draw-ids `0, 1, 2, 3, 4`. The code resolves 64 world-matrix slots, hands the first two
instances to `setPerMeshInstanceData` with draw-ids 0 and 1, and ends in the assertion
`drawInstanceID == 0` at the second: the third, fourth and fifth accepted instance are assigned
no draw-id, and no draw call is issued. -/
theorem renderScene_five_instances_two_ids :
    (acceptedOfModels Sample.batchesOfFour Sample.ext none
        Sample.fiveInstanceScene.models).length = 5
      ∧ (renderScene Sample.batchesOfFour Sample.ext Sample.fiveInstanceScene
          Sample.boundContext none Sample.unresolved).state.offsets.sWorldMatArraySize = 64
      ∧ (renderScene Sample.batchesOfFour Sample.ext Sample.fiveInstanceScene
          Sample.boundContext none Sample.unresolved).value.isSome = false
      ∧ (packedInstances (renderScene Sample.batchesOfFour Sample.ext Sample.fiveInstanceScene
          Sample.boundContext none Sample.unresolved).events).map Prod.fst = [0, 1]
      ∧ drawCounts (renderScene Sample.batchesOfFour Sample.ext Sample.fiveInstanceScene
          Sample.boundContext none Sample.unresolved).events = [] := by
  decide

/-! ## C4, C5: the matrices of `setPerMeshInstanceData` -/

/-- C4. For every model-instance transform pair and mesh-instance transform pair, a call of
`setPerMeshInstanceData` that writes (a per-mesh buffer is bound, the slot is 0 and the cached
array size is positive) writes as world matrix the model-instance matrix when the mesh has
bones, and the model-instance matrix times the mesh-instance matrix (model-instance matrix on
the left) when it has none; and the same for the previous-frame pair. -/
theorem setPerMeshInstanceData_world_matrices (cwd : CurrentWorkingData) (mi : ModelInstance)
    (inst : MeshInstance) (s : RendererState) (cb : ConstantBuffer)
    (hcb : cwd.pVars.getConstantBuffer kPerMeshCbName = some cb)
    (hcap : 0 < s.offsets.sWorldMatArraySize) :
    ∃ G : Mat3x4,
      setPerMeshInstanceData cwd mi inst 0 s =
        { events :=
            [ Event.perMeshInstanceData cwd.drawID mi inst 0,
              Event.setBlob kPerMeshCbName (s.offsets.sWorldMatOffset % sizeRange)
                (Payload.mat4
                  (if inst.object.hasBones = true then mi.transformMatrix
                   else mi.transformMatrix * inst.transformMatrix))
                sizeofMat4,
              Event.setBlob kPerMeshCbName (s.offsets.sWorldInvTransposeMatOffset % sizeRange)
                (Payload.mat3x4 G) sizeofMat3x4,
              Event.setBlob kPerMeshCbName (s.offsets.sPrevWorldMatOffset % sizeRange)
                (Payload.mat4
                  (if inst.object.hasBones = true then mi.prevTransformMatrix
                   else mi.prevTransformMatrix * inst.prevTransformMatrix))
                sizeofMat4,
              Event.setVariable kPerMeshCbName s.offsets.sMeshIdOffset
                (Payload.uint inst.object.id) ]
          state := s
          value := some true } := by
  refine ⟨toMat3x4 (transpose (inverse (toMat3 (worldMatOf mi inst)))), ?_⟩
  rw [setPerMeshInstanceData_eq]
  have hp : packOk cwd 0 s = true := by
    simp [packOk, slotOk, hcb, hcap]
  cases hb : inst.object.hasBones <;>
    simp [hp, packEvents, hcb, packWrites, worldMatOf, prevWorldMatOf, hb]

/-- C4, at a concrete input: a mesh without bones, identity transforms, slot 0 of 64. -/
theorem setPerMeshInstanceData_world_matrices_witness :
    ∃ G : Mat3x4,
      setPerMeshInstanceData (Sample.workingData Sample.allBuffers none) Sample.modelInstance
          (Sample.meshInstance true) 0 Sample.resolved =
        { events :=
            [ Event.perMeshInstanceData 0 Sample.modelInstance (Sample.meshInstance true) 0,
              Event.setBlob kPerMeshCbName (0 % sizeRange)
                (Payload.mat4
                  (if (Sample.meshInstance true).object.hasBones = true then
                    Sample.modelInstance.transformMatrix
                   else Sample.modelInstance.transformMatrix
                    * (Sample.meshInstance true).transformMatrix))
                sizeofMat4,
              Event.setBlob kPerMeshCbName (4096 % sizeRange) (Payload.mat3x4 G) sizeofMat3x4,
              Event.setBlob kPerMeshCbName (7168 % sizeRange)
                (Payload.mat4
                  (if (Sample.meshInstance true).object.hasBones = true then
                    Sample.modelInstance.prevTransformMatrix
                   else Sample.modelInstance.prevTransformMatrix
                    * (Sample.meshInstance true).prevTransformMatrix))
                sizeofMat4,
              Event.setVariable kPerMeshCbName 11264 (Payload.uint 7) ]
          state := Sample.resolved
          value := some true } :=
  setPerMeshInstanceData_world_matrices (Sample.workingData Sample.allBuffers none)
    Sample.modelInstance (Sample.meshInstance true) Sample.resolved
    { getVariableOffset := fun name =>
        if name = "gBoneMat[0]" then 0
        else if name = "gInvTransposeBoneMat[0]" then 8192
        else kInvalidOffset }
    rfl (by decide)

/-- C5. Let `W` be the world matrix that `setPerMeshInstanceData` forms (the model-instance
matrix for a mesh with bones, the model-instance matrix times the mesh-instance matrix
otherwise) and `M` its upper-left 3x3 block, rows and columns 0 to 2 of `W`. Whenever `M` is
invertible (exact rational arithmetic), a call that writes (a per-mesh buffer bound, slot 0,
positive array size) writes `W` as the world matrix, and as the inverse-transpose matrix the
`mat3x4` `G` whose rows 0 to 2 are `transpose(inverse(M))`, that is `G i j = inverse(M) j i`,
and whose row 3, the fourth component of every column, is zero. Hence for every normal `n` and
tangent `t`, `(G n) . (M t) = n . t`, the product `G n` taken in its first three components. -/
theorem setPerMeshInstanceData_inverse_transpose (cwd : CurrentWorkingData)
    (mi : ModelInstance) (inst : MeshInstance) (s : RendererState) (cb : ConstantBuffer)
    (W : Matrix (Fin 4) (Fin 4) ℚ)
    (hcb : cwd.pVars.getConstantBuffer kPerMeshCbName = some cb)
    (hcap : 0 < s.offsets.sWorldMatArraySize)
    (hW : W = if inst.object.hasBones = true then mi.transformMatrix
              else mi.transformMatrix * inst.transformMatrix)
    (hdet : (W.submatrix Fin.castSucc Fin.castSucc).det ≠ 0) :
    ∃ G : Matrix (Fin 4) (Fin 3) ℚ,
      setPerMeshInstanceData cwd mi inst 0 s =
        { events :=
            [ Event.perMeshInstanceData cwd.drawID mi inst 0,
              Event.setBlob kPerMeshCbName (s.offsets.sWorldMatOffset % sizeRange)
                (Payload.mat4 W) sizeofMat4,
              Event.setBlob kPerMeshCbName (s.offsets.sWorldInvTransposeMatOffset % sizeRange)
                (Payload.mat3x4 G) sizeofMat3x4,
              Event.setBlob kPerMeshCbName (s.offsets.sPrevWorldMatOffset % sizeRange)
                (Payload.mat4
                  (if inst.object.hasBones = true then mi.prevTransformMatrix
                   else mi.prevTransformMatrix * inst.prevTransformMatrix))
                sizeofMat4,
              Event.setVariable kPerMeshCbName s.offsets.sMeshIdOffset
                (Payload.uint inst.object.id) ]
          state := s
          value := some true }
      ∧ (∀ i j : Fin 3,
          G (Fin.castSucc i) j = ((W.submatrix Fin.castSucc Fin.castSucc)⁻¹) j i)
      ∧ (∀ j : Fin 3, G (Fin.last 3) j = 0)
      ∧ ∀ n t : Fin 3 → ℚ,
          Matrix.dotProduct (fun i : Fin 3 => Matrix.mulVec G n (Fin.castSucc i))
              (Matrix.mulVec (W.submatrix Fin.castSucc Fin.castSucc) t)
            = Matrix.dotProduct n t := by
  have hM : toMat3 W = W.submatrix Fin.castSucc Fin.castSucc := rfl
  have hd3 : det3 (toMat3 W) ≠ 0 := by
    have e : det3 (toMat3 W) = (toMat3 W).det := by
      rw [Matrix.det_fin_three]
      unfold det3
      ring
    rw [e, hM]
    exact hdet
  have hmul : inverse (toMat3 W) * toMat3 W = 1 := by
    ext i j
    fin_cases i <;> fin_cases j <;>
      simp [inverse, Matrix.mul_apply, Fin.sum_univ_three] <;>
      field_simp <;>
      (try simp only [det3]) <;>
      ring
  have hinv : inverse (toMat3 W) = (W.submatrix Fin.castSucc Fin.castSucc)⁻¹ := by
    rw [← hM]
    exact (Matrix.inv_eq_left_inv hmul).symm
  have hent : ∀ i j : Fin 3,
      toMat3x4 (transpose (inverse (toMat3 W))) (Fin.castSucc i) j
        = ((W.submatrix Fin.castSucc Fin.castSucc)⁻¹) j i := by
    intro i j
    rw [← hinv]
    simp [toMat3x4, transpose]
  refine ⟨toMat3x4 (transpose (inverse (toMat3 W))), ?_, hent, ?_, ?_⟩
  · subst hW
    have hd : decide (0 < s.offsets.sWorldMatArraySize) = true := by simpa using hcap
    unfold setPerMeshInstanceData
    cases hb : inst.object.hasBones <;> simp [hcb, hd, hb]
  · intro j
    simp [toMat3x4]
  · intro n t
    have hu : IsUnit (W.submatrix Fin.castSucc Fin.castSucc).det := isUnit_iff_ne_zero.mpr hdet
    have hrow : (fun i : Fin 3 =>
        Matrix.mulVec (toMat3x4 (transpose (inverse (toMat3 W)))) n (Fin.castSucc i))
        = Matrix.mulVec ((W.submatrix Fin.castSucc Fin.castSucc)⁻¹).transpose n := by
      funext i
      simp only [Matrix.mulVec, Matrix.dotProduct, hent, Matrix.transpose_apply]
    rw [hrow, Matrix.mulVec_transpose, Matrix.dotProduct_mulVec, Matrix.vecMul_vecMul,
      Matrix.nonsing_inv_mul _ hu, Matrix.vecMul_one]

theorem shear_block :
    Sample.shear.submatrix Fin.castSucc Fin.castSucc = !![1, 2, 0; 0, 1, 0; 0, 0, 1] := by
  ext i j
  fin_cases i <;> fin_cases j <;> rfl

theorem shear_block_inv :
    (Sample.shear.submatrix Fin.castSucc Fin.castSucc)⁻¹
      = !![1, -2, 0; 0, 1, 0; 0, 0, 1] := by
  rw [shear_block]
  apply Matrix.inv_eq_left_inv
  ext i j
  fin_cases i <;> fin_cases j <;>
    simp [Matrix.mul_apply, Fin.sum_univ_three, Matrix.vecHead, Matrix.vecTail]

theorem shear_block_det : (Sample.shear.submatrix Fin.castSucc Fin.castSucc).det ≠ 0 := by
  rw [shear_block, Matrix.det_fin_three]
  simp

theorem sheared_world :
    Sample.shear
      = if (Sample.meshInstance true).object.hasBones = true then
          Sample.shearedModelInstance.transformMatrix
        else Sample.shearedModelInstance.transformMatrix
          * (Sample.meshInstance true).transformMatrix := by
  simp [Sample.meshInstance, Sample.mesh, Sample.shearedModelInstance]

/-- C5, at a concrete input: a model instance placed by a shear with a translation,
`W = [1 2 0 5; 0 1 0 6; 0 0 1 7; 0 0 0 1]` by rows, a mesh without bones at the identity, slot
0 of 64. The block `M = [1 2 0; 0 1 0; 0 0 1]` has inverse `[1 -2 0; 0 1 0; 0 0 1]`, and the
matrix written at offset 4096 is its transpose with a zero fourth row. -/
theorem setPerMeshInstanceData_inverse_transpose_witness :
    (setPerMeshInstanceData (Sample.workingData Sample.allBuffers none)
        Sample.shearedModelInstance (Sample.meshInstance true) 0 Sample.resolved).events =
      [ Event.perMeshInstanceData 0 Sample.shearedModelInstance (Sample.meshInstance true) 0,
        Event.setBlob kPerMeshCbName (0 % sizeRange) (Payload.mat4 Sample.shear) sizeofMat4,
        Event.setBlob kPerMeshCbName (4096 % sizeRange)
          (Payload.mat3x4 !![1, 0, 0; -2, 1, 0; 0, 0, 1; 0, 0, 0]) sizeofMat3x4,
        Event.setBlob kPerMeshCbName (7168 % sizeRange)
          (Payload.mat4
            (if (Sample.meshInstance true).object.hasBones = true then
              Sample.shearedModelInstance.prevTransformMatrix
             else Sample.shearedModelInstance.prevTransformMatrix
              * (Sample.meshInstance true).prevTransformMatrix))
          sizeofMat4,
        Event.setVariable kPerMeshCbName 11264 (Payload.uint 7) ] := by
  obtain ⟨G, hres, hent, hlast, _⟩ :=
    setPerMeshInstanceData_inverse_transpose (Sample.workingData Sample.allBuffers none)
      Sample.shearedModelInstance (Sample.meshInstance true) Sample.resolved
      { getVariableOffset := fun name =>
          if name = "gBoneMat[0]" then 0
          else if name = "gInvTransposeBoneMat[0]" then 8192
          else kInvalidOffset }
      Sample.shear rfl (by decide) sheared_world shear_block_det
  have hG : G = !![1, 0, 0; -2, 1, 0; 0, 0, 1; 0, 0, 0] := by
    rw [shear_block_inv] at hent
    ext i j
    fin_cases i <;> fin_cases j
    · exact hent 0 0
    · exact hent 0 1
    · exact hent 0 2
    · exact hent 1 0
    · exact hent 1 1
    · exact hent 1 2
    · exact hent 2 0
    · exact hent 2 1
    · exact hent 2 2
    · exact hlast 0
    · exact hlast 1
    · exact hlast 2
  rw [hres, hG]
  rfl

/-! ## C6: material binds of one model instance -/

theorem meshLoop_of_returns (cfg : Settings) (ext : Externals) (mi : ModelInstance)
    (cam : Option Camera) (meshes : List (Mesh × List MeshInstance))
    (cwd : CurrentWorkingData) (s : RendererState) (hcamEq : cwd.pCamera = cam)
    (hmax : 0 < cfg.mMaxInstanceCount)
    (hret : (renderModelInstance.loop cfg ext mi meshes cwd s).value.isSome = true) :
    drawCounts (renderModelInstance.loop cfg ext mi meshes cwd s).events
        = batchesOfMeshes cfg ext cam mi meshes
      ∧ drawMaterials (renderModelInstance.loop cfg ext mi meshes cwd s).events
          = materialsOfMeshes cfg ext cam mi meshes := by
  induction meshes generalizing cwd s with
  | nil => simp [renderModelInstance.loop, batchesOfMeshes, materialsOfMeshes]
  | cons mesh rest ih =>
    rw [meshLoop_cons] at hret ⊢
    subst hcamEq
    cases hv : (renderMeshInstances cfg ext cwd mi mesh s).value with
    | none =>
      rw [andThen_of_none _ _ hv] at hret
      simp at hret
    | some cwd2 =>
      rw [andThen_of_some _ _ cwd2 hv] at hret ⊢
      obtain ⟨hd, hm⟩ := renderMeshInstances_of_returns cfg ext cwd mi mesh s hmax
        (by simp [hv])
      obtain ⟨_, _, _, hc2⟩ := (renderMeshInstances_numbered cfg ext cwd mi mesh s).2 cwd2 hv
      obtain ⟨hd3, hm3⟩ := ih cwd2 (renderMeshInstances cfg ext cwd mi mesh s).state hc2 hret
      refine ⟨?_, ?_⟩
      · simp only [drawCounts_append, hd, hd3, batchesOfMeshes]
      · simp only [drawMaterials_append, hm, hm3, materialsOfMeshes]

theorem meshLoop_ok (cfg : Settings) (ext : Externals) (mi : ModelInstance)
    (vars : GraphicsVars) (cap : Nat) (cam : Option Camera)
    (meshes : List (Mesh × List MeshInstance)) (cwd : CurrentWorkingData) (s : RendererState)
    (hvars : cwd.pVars = vars) (hcap : s.offsets.sWorldMatArraySize = cap)
    (hcamEq : cwd.pCamera = cam)
    (hmax : 0 < cfg.mMaxInstanceCount)
    (hcam : cfg.mCullEnabled = true → cam.isSome = true)
    (hslots : ∀ mesh ∈ meshes, ∀ k, k < (acceptedOfMesh cfg ext cam mi mesh.2).length →
      slotOk vars cap (k % cfg.mMaxInstanceCount) = true) :
    (∃ cwd2, (renderModelInstance.loop cfg ext mi meshes cwd s).value = some cwd2)
      ∧ drawCounts (renderModelInstance.loop cfg ext mi meshes cwd s).events
          = batchesOfMeshes cfg ext cam mi meshes
      ∧ drawMaterials (renderModelInstance.loop cfg ext mi meshes cwd s).events
          = materialsOfMeshes cfg ext cam mi meshes := by
  induction meshes generalizing cwd s with
  | nil => simp [renderModelInstance.loop, batchesOfMeshes, materialsOfMeshes]
  | cons mesh rest ih =>
    rw [meshLoop_cons]
    subst hvars hcap hcamEq
    obtain ⟨⟨cwd2, hv⟩, hd, hm, ho⟩ := renderMeshInstances_ok cfg ext cwd mi mesh s hmax hcam
      (hslots mesh (by simp))
    obtain ⟨_, _, hv2, hc2⟩ := (renderMeshInstances_numbered cfg ext cwd mi mesh s).2 cwd2 hv
    rw [andThen_of_some _ _ cwd2 hv]
    obtain ⟨⟨cwd3, hv3⟩, hd3, hm3⟩ := ih cwd2 (renderMeshInstances cfg ext cwd mi mesh s).state
      hv2 (by rw [ho]) hc2 (fun m hm => hslots m (by simp [hm]))
    refine ⟨⟨cwd3, hv3⟩, ?_, ?_⟩
    · simp only [drawCounts_append, hd, hd3, batchesOfMeshes]
    · simp only [drawMaterials_append, hm, hm3, materialsOfMeshes]

theorem bindsFrom_replicate (last x : Option Nat) (k : Nat) (hk : 0 < k) :
    bindsFrom last (List.replicate k x) = (if last ≠ x then [x] else [])
      ∧ lastFrom last (List.replicate k x) = x := by
  induction k generalizing last with
  | zero => omega
  | succ n ih =>
    rcases Nat.eq_zero_or_pos n with h0 | hpos
    · subst h0
      simp [bindsFrom, lastFrom]
    · obtain ⟨h1, h2⟩ := ih x hpos
      simp only [List.replicate_succ, bindsFrom, lastFrom, h1, h2]
      simp

theorem batches_ne_nil (cap n : Nat) (hn : 0 < n) : batches cap n ≠ [] := by
  intro h
  have := batches_sum cap n
  rw [h] at this
  simp at this
  omega

theorem renderModelInstance_material (cfg : Settings) (ext : Externals)
    (cwd : CurrentWorkingData) (mi : ModelInstance) (s : RendererState) :
    (boundMaterials (renderModelInstance cfg ext cwd mi s).events).map some
        = bindsFrom none (drawMaterials (renderModelInstance cfg ext cwd mi s).events)
      ∧ ∀ m ∈ drawMaterials (renderModelInstance cfg ext cwd mi s).events, m ≠ none := by
  rw [renderModelInstance_eq]
  cases cwd.pModel with
  | none => simp [bindsFrom]
  | some pModel =>
    have := meshLoop_material cfg ext mi pModel.meshes cwd { s with mpLastMaterial := none }
    exact ⟨this.1, this.2.2⟩

/-- C6. While rendering the meshes of one model instance (`renderModelInstance`), in every run:
the materials bound by `setPerMaterialData` are, in order, the material of the first draw and
of every later draw whose material differs from the one current at the draw before it; that is,
one bind per maximal run of consecutive draws with the same material. For three meshes with
materials A, A, B (A different from B), each with at least one accepted instance, and
`mMaxInstanceCount >= 1`: every run that returns makes the binds `[A, B]`, a bind count of 2,
and issues the draw calls of the first mesh, then of the second, then of the third, at least
one for each; and the run does return when a camera is set if culling is enabled, and no
per-mesh buffer is bound, or the array size is positive with `mMaxInstanceCount = 1` or at most
one accepted instance per mesh. -/
theorem renderModelInstance_material_binds (cfg : Settings) (ext : Externals)
    (cwd : CurrentWorkingData) (mi : ModelInstance) (s : RendererState) :
    (boundMaterials (renderModelInstance cfg ext cwd mi s).events).map some
        = bindsFrom none (drawMaterials (renderModelInstance cfg ext cwd mi s).events)
      ∧ (boundMaterials (renderModelInstance cfg ext cwd mi s).events).map some
        = List.destutter (fun a b => a ≠ b)
            (drawMaterials (renderModelInstance cfg ext cwd mi s).events)
      ∧ (∀ (pModel : Model) (m1 m2 m3 : Mesh × List MeshInstance),
          cwd.pModel = some pModel → pModel.meshes = [m1, m2, m3] →
          m1.1.material = m2.1.material → m2.1.material ≠ m3.1.material →
          1 ≤ cfg.mMaxInstanceCount →
          (∀ m ∈ [m1, m2, m3], 1 ≤ (m.2.filter (accepts cfg ext cwd.pCamera mi)).length) →
          ((renderModelInstance cfg ext cwd mi s).value.isSome = true →
            boundMaterials (renderModelInstance cfg ext cwd mi s).events
                = [m1.1.material, m3.1.material]
            ∧ (boundMaterials (renderModelInstance cfg ext cwd mi s).events).length = 2
            ∧ drawCounts (renderModelInstance cfg ext cwd mi s).events
                = batches cfg.mMaxInstanceCount
                    (m1.2.filter (accepts cfg ext cwd.pCamera mi)).length
                  ++ (batches cfg.mMaxInstanceCount
                      (m2.2.filter (accepts cfg ext cwd.pCamera mi)).length
                  ++ batches cfg.mMaxInstanceCount
                      (m3.2.filter (accepts cfg ext cwd.pCamera mi)).length)
            ∧ (∀ m ∈ [m1, m2, m3],
                batches cfg.mMaxInstanceCount
                  (m.2.filter (accepts cfg ext cwd.pCamera mi)).length ≠ []))
          ∧ ((cfg.mCullEnabled = true → cwd.pCamera.isSome = true) →
            (∀ m ∈ [m1, m2, m3],
              cwd.pVars.getConstantBuffer kPerMeshCbName = none
                ∨ (0 < s.offsets.sWorldMatArraySize
                    ∧ (cfg.mMaxInstanceCount = 1
                        ∨ (m.2.filter (accepts cfg ext cwd.pCamera mi)).length ≤ 1))) →
            (renderModelInstance cfg ext cwd mi s).value.isSome = true)) := by
  obtain ⟨hb, hne⟩ := renderModelInstance_material cfg ext cwd mi s
  refine ⟨hb, ?_, ?_⟩
  · rw [hb]
    exact bindsFrom_none _ hne
  · intro pModel m1 m2 m3 hmodel hmeshes hAA hAB hmax hall
    have hr : renderModelInstance cfg ext cwd mi s
        = renderModelInstance.loop cfg ext mi [m1, m2, m3] cwd
            { s with mpLastMaterial := none } := by
      rw [renderModelInstance_eq, hmodel]
      simp only [hmeshes]
    have hnil : ∀ m ∈ [m1, m2, m3],
        batches cfg.mMaxInstanceCount
          (m.2.filter (accepts cfg ext cwd.pCamera mi)).length ≠ [] :=
      fun m hm => batches_ne_nil _ _ (hall m hm)
    have hpos : ∀ m ∈ [m1, m2, m3],
        0 < (batches cfg.mMaxInstanceCount
          (acceptedOfMesh cfg ext cwd.pCamera mi m.2).length).length := by
      intro m hm
      rw [acceptedOfMesh_length]
      exact List.length_pos.mpr (hnil m hm)
    rw [hr] at hb ⊢
    refine ⟨?_, ?_⟩
    · intro hret
      obtain ⟨hd, hmats⟩ := meshLoop_of_returns cfg ext mi cwd.pCamera [m1, m2, m3] cwd
        { s with mpLastMaterial := none } rfl hmax hret
      have hbinds : boundMaterials
          (renderModelInstance.loop cfg ext mi [m1, m2, m3] cwd
            { s with mpLastMaterial := none }).events = [m1.1.material, m3.1.material] := by
        have h1 := bindsFrom_replicate none (some m1.1.material) _ (hpos m1 (by simp))
        have h2 := bindsFrom_replicate (some m1.1.material) (some m2.1.material) _
          (hpos m2 (by simp))
        have h3 := bindsFrom_replicate (some m2.1.material) (some m3.1.material) _
          (hpos m3 (by simp))
        have hmap : (boundMaterials
            (renderModelInstance.loop cfg ext mi [m1, m2, m3] cwd
              { s with mpLastMaterial := none }).events).map some
            = [some m1.1.material, some m3.1.material] := by
          rw [hb, hmats]
          simp only [materialsOfMeshes, List.append_nil, bindsFrom_append, h1.1, h1.2, h2.1,
            h2.2, h3.1]
          simp [hAA, hAB]
        have hinj : Function.Injective (some : Nat → Option Nat) := Option.some_injective _
        apply List.map_injective_iff.mpr hinj
        rw [hmap]
        rfl
      refine ⟨hbinds, by rw [hbinds]; rfl, ?_, hnil⟩
      rw [hd]
      simp only [batchesOfMeshes, acceptedOfMesh_length, List.append_nil]
    · intro hcam hok
      have hslots : ∀ mesh ∈ [m1, m2, m3], ∀ k,
          k < (acceptedOfMesh cfg ext cwd.pCamera mi mesh.2).length →
          slotOk cwd.pVars s.offsets.sWorldMatArraySize (k % cfg.mMaxInstanceCount) = true := by
        intro mesh hm
        rw [acceptedOfMesh_length]
        exact slots_ok _ _ _ _ (hok mesh hm)
      obtain ⟨⟨cwd2, hv⟩, _⟩ := meshLoop_ok cfg ext mi cwd.pVars
        s.offsets.sWorldMatArraySize cwd.pCamera [m1, m2, m3] cwd
        { s with mpLastMaterial := none } rfl rfl rfl hmax hcam hslots
      simp [hv]

/-- C6, at a concrete input: three meshes with materials 1, 1, 2 and one visible instance each,
a per-mesh buffer bound with 64 slots, `mMaxInstanceCount = 4`; the run returns with two binds
and three draws. -/
theorem renderModelInstance_material_binds_witness :
    (renderModelInstance Sample.batchesOfFour Sample.ext Sample.atThreeMeshes
        Sample.modelInstance Sample.resolved).value.isSome = true
      ∧ boundMaterials (renderModelInstance Sample.batchesOfFour Sample.ext
          Sample.atThreeMeshes Sample.modelInstance Sample.resolved).events = [1, 2]
      ∧ drawCounts (renderModelInstance Sample.batchesOfFour Sample.ext
          Sample.atThreeMeshes Sample.modelInstance Sample.resolved).events = [1, 1, 1] := by
  have h := (renderModelInstance_material_binds Sample.batchesOfFour Sample.ext
    Sample.atThreeMeshes Sample.modelInstance Sample.resolved).2.2 Sample.threeMeshes
    (Sample.mesh 1, [Sample.meshInstance true]) (Sample.mesh 1, [Sample.meshInstance true])
    (Sample.mesh 2, [Sample.meshInstance true]) rfl rfl rfl (by decide) (by decide)
    (by decide)
  have hret := h.2 (by decide)
    (by
      intro m hm
      simp only [List.mem_cons, List.mem_singleton, List.not_mem_nil, or_false] at hm
      rcases hm with rfl | rfl | rfl <;>
        exact Or.inr ⟨by decide, Or.inr (by decide)⟩)
  have hc := h.1 hret
  exact ⟨hret, hc.1, hc.2.2.1⟩

/-! ## C7: the offset cache -/

theorem updateVariableOffsets_resolved (pReflector : ProgramReflection) (s : RendererState)
    (hmesh : s.offsets.sWorldMatOffset ≠ kInvalidOffset)
    (hframe : s.offsets.sCameraDataOffset ≠ kInvalidOffset) :
    updateVariableOffsets pReflector s = { events := [], state := s, value := some () } := by
  unfold updateVariableOffsets
  simp [hmesh, hframe]

/-- C7. Once a call of `updateVariableOffsets` has resolved the per-mesh and the per-frame
offsets (the cached world-matrix offset and camera offset are no longer the invalid marker), a
second call, with the same layout or any other, emits no event, so performs no field lookup on
the reflection data, and leaves the renderer state, so every cached offset and the cached
world-matrix array size, as the first call left it. -/
theorem updateVariableOffsets_idempotent (pReflector pReflector2 : ProgramReflection)
    (s : RendererState)
    (hmesh : (updateVariableOffsets pReflector s).state.offsets.sWorldMatOffset
      ≠ kInvalidOffset)
    (hframe : (updateVariableOffsets pReflector s).state.offsets.sCameraDataOffset
      ≠ kInvalidOffset) :
    updateVariableOffsets pReflector (updateVariableOffsets pReflector s).state
        = { events := [], state := (updateVariableOffsets pReflector s).state,
            value := some () }
      ∧ layoutQueries
          (updateVariableOffsets pReflector (updateVariableOffsets pReflector s).state).events
          = []
      ∧ (updateVariableOffsets pReflector2 (updateVariableOffsets pReflector s).state).state
          = (updateVariableOffsets pReflector s).state := by
  have h := updateVariableOffsets_resolved pReflector _ hmesh hframe
  have h2 := updateVariableOffsets_resolved pReflector2 _ hmesh hframe
  refine ⟨h, ?_, ?_⟩
  · rw [h]
    rfl
  · rw [h2]

/-- The first call on the sample layout, from the initial offsets, returns after sixteen
layout queries with the offsets of that layout. -/
theorem sample_first_resolution :
    (updateVariableOffsets Sample.fullReflection Sample.unresolved).value = some ()
      ∧ (layoutQueries
          (updateVariableOffsets Sample.fullReflection Sample.unresolved).events).length = 16
      ∧ (updateVariableOffsets Sample.fullReflection
          Sample.unresolved).state.offsets.sWorldMatOffset = 0
      ∧ (updateVariableOffsets Sample.fullReflection
          Sample.unresolved).state.offsets.sWorldMatArraySize = 64
      ∧ (updateVariableOffsets Sample.fullReflection
          Sample.unresolved).state.offsets.sCameraDataOffset = 0 := by
  decide

/-- C7, at a concrete input: the sample layout, from the initial offsets. -/
theorem updateVariableOffsets_idempotent_witness :
    updateVariableOffsets Sample.fullReflection
        (updateVariableOffsets Sample.fullReflection Sample.unresolved).state
        = { events := [],
            state := (updateVariableOffsets Sample.fullReflection Sample.unresolved).state,
            value := some () }
      ∧ layoutQueries
          (updateVariableOffsets Sample.fullReflection
            (updateVariableOffsets Sample.fullReflection Sample.unresolved).state).events
          = []
      ∧ (updateVariableOffsets Sample.fullReflection
          (updateVariableOffsets Sample.fullReflection Sample.unresolved).state).state
          = (updateVariableOffsets Sample.fullReflection Sample.unresolved).state :=
  updateVariableOffsets_idempotent Sample.fullReflection Sample.fullReflection
    Sample.unresolved (by decide) (by decide)

/-! ## C8: too many lights -/

/-- C8, as stated, fails, at a scene of seventeen lights against a maximum of sixteen. When the
shader declares no light array, `setPerFrameData` returns without violation and writes the
camera data, the light count and the ambient value. When it declares one and a camera is set,
the call ends in the violation after it has written the camera data. -/
theorem setPerFrameData_too_many_lights :
    Sample.ext.maxLightSources < Sample.seventeenLights.lights.length
      ∧ (setPerFrameData Sample.ext Sample.seventeenLights
          (Sample.workingData Sample.allBuffers (some Sample.openCamera))
          Sample.resolvedNoLightArray).value.isSome = true
      ∧ (bufferWrites (setPerFrameData Sample.ext Sample.seventeenLights
          (Sample.workingData Sample.allBuffers (some Sample.openCamera))
          Sample.resolvedNoLightArray).events).length = 3
      ∧ (setPerFrameData Sample.ext Sample.seventeenLights
          (Sample.workingData Sample.allBuffers (some Sample.openCamera))
          Sample.resolved).value.isSome = false
      ∧ (setPerFrameData Sample.ext Sample.seventeenLights
          (Sample.workingData Sample.allBuffers (some Sample.openCamera))
          Sample.resolved).events = [Event.cameraIntoCB kPerFrameCbName 0] := by
  refine ⟨by decide, by decide, by decide, by decide, rfl⟩

/-- C8 (amended). Whenever the scene's light count exceeds the shader's declared maximum
(`MAX_LIGHT_SOURCES`): if the per-frame buffer is bound and the light-array offset is present,
`setPerFrameData` ends in a fatal precondition violation, having written no light, no light
count and no ambient value, and of the camera data exactly what is written before the check,
that is the camera when one is set; if no per-frame buffer is bound or the light-array offset
is absent, the call returns without violation. -/
theorem setPerFrameData_light_count_violation (ext : Externals) (mpScene : Scene)
    (cwd : CurrentWorkingData) (s : RendererState)
    (hmany : ext.maxLightSources < mpScene.lights.length) :
    (∀ cb, cwd.pVars.getConstantBuffer kPerFrameCbName = some cb →
        s.offsets.sLightArrayOffset ≠ kInvalidOffset →
        setPerFrameData ext mpScene cwd s =
          { events :=
              (match cwd.pCamera with
               | some _ => [Event.cameraIntoCB kPerFrameCbName s.offsets.sCameraDataOffset]
               | none => [])
            state := s
            value := none })
      ∧ ((cwd.pVars.getConstantBuffer kPerFrameCbName = none
            ∨ s.offsets.sLightArrayOffset = kInvalidOffset) →
          (setPerFrameData ext mpScene cwd s).value = some ()) := by
  have hd : decide (mpScene.lights.length ≤ ext.maxLightSources) = false := by
    simp only [decide_eq_false_iff_not, not_le]
    exact hmany
  refine ⟨?_, ?_⟩
  · intro cb hcb harr
    unfold setPerFrameData
    cases hcam : cwd.pCamera <;> simp [hcb, harr, hd]
  · intro h
    unfold setPerFrameData
    rcases h with h | h
    · simp [h]
    · cases hcb : cwd.pVars.getConstantBuffer kPerFrameCbName with
      | none => simp
      | some cb =>
        cases hcam : cwd.pCamera <;>
          by_cases h1 : s.offsets.sLightCountOffset = kInvalidOffset <;>
          by_cases h2 : s.offsets.sAmbientLightOffset = kInvalidOffset <;>
          simp [h, h1, h2]

/-- C8 (amended), at a concrete input: seventeen lights against sixteen, every buffer bound,
resolved offsets, a camera set. -/
theorem setPerFrameData_light_count_violation_witness :
    setPerFrameData Sample.ext Sample.seventeenLights
        (Sample.workingData Sample.allBuffers (some Sample.openCamera)) Sample.resolved =
      { events := [Event.cameraIntoCB kPerFrameCbName 0]
        state := Sample.resolved
        value := none } :=
  (setPerFrameData_light_count_violation Sample.ext Sample.seventeenLights
    (Sample.workingData Sample.allBuffers (some Sample.openCamera)) Sample.resolved
    (by decide)).1
    { getVariableOffset := fun name =>
        if name = "gBoneMat[0]" then 0
        else if name = "gInvTransposeBoneMat[0]" then 8192
        else kInvalidOffset }
    rfl (by decide)

/-! ## C9: the slot assertions -/

/-- What the code does at a slot: with a per-mesh buffer bound, `setPerMeshInstanceData` ends in
a violation exactly when the slot is not 0 or is not below the cached array size, whether the
mesh has bones or not. -/
theorem setPerMeshInstanceData_fatal_iff (cwd : CurrentWorkingData) (mi : ModelInstance)
    (inst : MeshInstance) (slot : Nat) (s : RendererState) (cb : ConstantBuffer)
    (hcb : cwd.pVars.getConstantBuffer kPerMeshCbName = some cb) :
    (setPerMeshInstanceData cwd mi inst slot s).value = none
      ↔ (slot ≠ 0 ∨ s.offsets.sWorldMatArraySize ≤ slot) := by
  rw [setPerMeshInstanceData_eq]
  unfold packOk slotOk
  by_cases h0 : slot = 0
  · by_cases h1 : slot < s.offsets.sWorldMatArraySize
    · simp [hcb, h0, h1]
    · simp [hcb, h0, h1]
  · simp [hcb, h0]

/-- C9, at the failing input: a mesh without bones, slot 1, 64 slots cached, a per-mesh buffer
bound. The claim says the call succeeds and writes at `base + 1 * element size`; the code ends
in the assertion `drawInstanceID == 0` and writes nothing. -/
theorem setPerMeshInstanceData_slot_one :
    (Sample.meshInstance true).object.hasBones = false
      ∧ 1 < Sample.resolved.offsets.sWorldMatArraySize
      ∧ (setPerMeshInstanceData (Sample.workingData Sample.allBuffers none)
          Sample.modelInstance (Sample.meshInstance true) 1 Sample.resolved).value.isSome
          = false
      ∧ (bufferWrites (setPerMeshInstanceData (Sample.workingData Sample.allBuffers none)
          Sample.modelInstance (Sample.meshInstance true) 1 Sample.resolved).events).length
          = 0 := by
  decide

/-! ## C10: where the bone matrices go -/

/-- What the code does with the inverse-transpose bone matrices: for a model with bones and a
bone buffer bound, the second array write of `setPerModelData` goes to the offset
`sWorldInvTransposeMatOffset` of the per-mesh offset cache. -/
theorem setPerModelData_second_write (ext : Externals) (cwd : CurrentWorkingData)
    (s : RendererState) (pModel : Model) (pCB : ConstantBuffer)
    (hm : cwd.pModel = some pModel) (hb : pModel.hasBones = true)
    (hcb : cwd.pVars.getConstantBuffer kBoneCbName = some pCB)
    (hcount : pModel.boneCount ≤ ext.maxBones) :
    Event.setVariableArray kBoneCbName s.offsets.sWorldInvTransposeMatOffset
        pModel.boneInvTransposeMatrices pModel.boneCount
      ∈ (setPerModelData ext cwd s).events := by
  have hd : decide (pModel.boneCount ≤ ext.maxBones) = true := by simpa using hcount
  unfold setPerModelData
  by_cases h : s.offsets.sBonesOffset = kInvalidOffset
      ∨ s.offsets.sBonesInvTransposeOffset = kInvalidOffset
  · simp [hm, hb, hcb, h, hd]
  · simp [hm, hb, hcb, h, hd]

/-- C10, at the failing input: a model with two bones, a bone buffer whose own layout has
`gBoneMat[0]` at 0 and `gInvTransposeBoneMat[0]` at 8192, and a per-mesh cache with
`sWorldInvTransposeMatOffset = 4096`. The call resolves both bone offsets from the bone buffer,
writes the bone matrices at 0, and writes the inverse-transpose bone matrices at 4096, the
per-mesh offset, not at 8192. -/
theorem setPerModelData_inverse_transpose_destination :
    (setPerModelData Sample.ext Sample.atSkinnedModel Sample.resolved).events =
        [ Event.getVariableOffset kBoneCbName "gBoneMat[0]",
          Event.getVariableOffset kBoneCbName "gInvTransposeBoneMat[0]",
          Event.setVariableArray kBoneCbName 0 [1, 1] 2,
          Event.setVariableArray kBoneCbName 4096 [1, 1] 2 ]
      ∧ (setPerModelData Sample.ext Sample.atSkinnedModel
          Sample.resolved).state.offsets.sBonesInvTransposeOffset = 8192
      ∧ Sample.resolved.offsets.sWorldInvTransposeMatOffset = 4096 := by
  refine ⟨rfl, by decide, rfl⟩

end Falcor
